import Mathlib

/-!
# caigo: Stark-curve signing, Pedersen hashing and multicall encoding

A shallow embedding of `account.go` and `caigo.go`.

Conventions of the embedding

* A `*types.Felt` / `*big.Int` is a `FeltPtr`: `none` is the nil pointer, `some v` a
  pointer to an integer object holding `v`.  Lists of pointers are lists of distinct
  objects.
* A Go result `(value, err)` is a `Res`: `ok v` when `err == nil`, `error e` when
  `err != nil`, `panic` for a run-time panic (nil dereference, index out of range,
  division by zero).
* Loops without a bound (`for invalidK`, `for { ... }`) take a fuel argument and return
  `none` when the fuel runs out.
* Methods and helpers that the two files call but do not declare (`Add`, `EcMult`,
  `MimicEcMultAir`, `IsOnCurve`, `GetSelectorFromName`, the RFC 6979 octet helpers and
  the HMAC) are the fields of `Deps`; every theorem holds for all of them.
-/

namespace Caigo

/-- A pointer to a field element: `none` is nil. -/
abbrev FeltPtr := Option Int

/-- The errors built with `fmt.Errorf` in the two files, and errors handed on from
callees declared elsewhere. -/
inductive Err where
  /-- Go: `invalid bit length`. -/
  | invalidBitLength
  /-- Go: `must initiate precomputed constant points`. -/
  | constantPointsMissing
  /-- Go: `invalid x: %v`. -/
  | invalidX (x : Int)
  /-- Go: `constant point duplication: %v %v`. -/
  | constantPointDuplication (ptx xin : Int)
  /-- An error returned by the provider or by a method declared elsewhere. -/
  | external (msg : String)
  deriving DecidableEq, Repr

/-- The format string of an error. -/
def Err.format : Err → String
  | .invalidBitLength => "invalid bit length"
  | .constantPointsMissing => "must initiate precomputed constant points"
  | .invalidX _ => "invalid x: %v"
  | .constantPointDuplication _ _ => "constant point duplication: %v %v"
  | .external msg => msg

/-- Outcome of a Go call returning `(value, error)`. -/
inductive Res (α : Type) where
  | ok (v : α)
  | error (e : Err)
  | panic
  deriving DecidableEq, Repr

/-- The fields of `types.Transaction` read by `fmtExecuteCalldata`. -/
structure Transaction where
  ContractAddress : FeltPtr
  EntryPointSelector : FeltPtr
  Calldata : List FeltPtr
  deriving DecidableEq, Repr

/-- Body of the `for _, tx := range calls` loop of `fmtExecuteCalldata`; the state is
`(callArray, calldataArray)`. -/
def fmtExecuteCalldata.step (st : List FeltPtr × List FeltPtr) (tx : Transaction) :
    List FeltPtr × List FeltPtr :=
  let callArray := st.1 ++ [tx.ContractAddress, tx.EntryPointSelector]
  if tx.Calldata.length = 0 then
    (callArray ++ [some 0, some 0], st.2)
  else
    (callArray ++ [some (st.2.length : Int), some (tx.Calldata.length : Int)],
      st.2 ++ tx.Calldata)

/-- Go `fmtExecuteCalldata`.  `make([]*types.Felt, len(calls))` is a slice of
`len(calls)` nil pointers, to which the loop appends. -/
def fmtExecuteCalldata (nonce : FeltPtr) (calls : List Transaction) : List FeltPtr :=
  let st := calls.foldl fmtExecuteCalldata.step (List.replicate calls.length none, [])
  st.1 ++ [some (st.2.length : Int)] ++ st.2 ++ [nonce]

/-- Go `fmtExecuteCalldataStrings`: copies the slice element by element. -/
def fmtExecuteCalldataStrings (nonce : FeltPtr) (calls : List Transaction) :
    List FeltPtr :=
  (fmtExecuteCalldata nonce calls).foldl (fun acc data => acc ++ [data]) []

/-- The header of §4.6 Phase 1 in the spec's words: per call `to, selector, data_offset,
data_len`, with `0, 0` for a call without calldata; `off` is the count of calldata
already appended. -/
def callHeader : Nat → List Transaction → List FeltPtr
  | _, [] => []
  | off, tx :: rest =>
    [tx.ContractAddress, tx.EntryPointSelector]
      ++ (if tx.Calldata.length = 0 then [some 0, some 0]
          else [some (off : Int), some (tx.Calldata.length : Int)])
      ++ callHeader (off + tx.Calldata.length) rest

/-- The flat calldata of §4.6 Phase 1 in the spec's words: each call's calldata, in
order. -/
def flatCalldata : List Transaction → List FeltPtr
  | [] => []
  | tx :: rest => tx.Calldata ++ flatCalldata rest

/-- The fields of `StarkCurve` read by the two files (`Alpha`, `Beta` are the curve
coefficients of the data model). -/
structure StarkCurve where
  P : Int
  N : Int
  Gx : Int
  Gy : Int
  EcGenX : Int
  EcGenY : Int
  MinusShiftPointX : Int
  MinusShiftPointY : Int
  Max : Int
  Alpha : Int
  Beta : Int
  BitSize : Nat
  ConstantPoints : List (Int × Int)

/-- What `account.go` and `caigo.go` call but do not declare. -/
structure Deps where
  /-- Method `sc.Add(x1, y1, x2, y2)`. -/
  Add : StarkCurve → Int → Int → Int → Int → Int × Int
  /-- Method `sc.EcMult(m, x1, y1)`. -/
  EcMult : StarkCurve → Int → Int → Int → Int × Int
  /-- Method `sc.MimicEcMultAir(m, x1, y1, x2, y2)`, which returns a point or an error. -/
  MimicEcMultAir : StarkCurve → Int → Int → Int → Int → Int → Except Err (Int × Int)
  /-- Method `sc.IsOnCurve(x, y)`. -/
  IsOnCurve : StarkCurve → Int → Int → Bool
  /-- Helper `GetSelectorFromName(name)` (Keccak based). -/
  GetSelectorFromName : String → Int
  /-- Helper `mac(alg, k, m, buf)` with `alg = sha256.New`: the HMAC of `m` under key
  `k`, as a byte string. -/
  mac : List Nat → List Nat → List Nat
  /-- Helper `int2octets(v, rolen)`. -/
  int2octets : Int → Nat → List Nat
  /-- Helper `bits2octets(in, q, qlen, rolen)`. -/
  bits2octets : Int → Int → Nat → Nat → List Nat
  /-- Helper `bits2int(in, qlen)`. -/
  bits2int : Int → Nat → Int

/-- The `for j := 0; j < 252; j++` loop of `PedersenHash` for element number `i`: `n`
iterations remain, starting at `j`.  Returns the accumulator and the value left in the
element's integer, which `x.Int.Rsh(x.Int, 1)` shifts in place. -/
def PedersenHash.bits (d : Deps) (sc : StarkCurve) (i : Nat) :
    Nat → Nat → Int → Int → Int → Res (Int × Int) × Int
  | 0, _, ptx, pty, x => (.ok (ptx, pty), x)
  | n + 1, j, ptx, pty, x =>
    match sc.ConstantPoints.get? (2 + i * 252 + j) with
    | none => (.panic, x)
    | some (xin, yin) =>
      if xin = ptx then (.error (.constantPointDuplication ptx xin), x)
      else
        let pt := if x % 2 = 1 then d.Add sc ptx pty xin yin else (ptx, pty)
        PedersenHash.bits d sc i n (j + 1) pt.1 pt.2 (x >>> 1)

/-- The loop of `PedersenHash.bits` reading the table from its remaining part `tbl`
instead of by index; the two agree (`PedersenHash.bits_eq_bitsFrom`). -/
def PedersenHash.bitsFrom (d : Deps) (sc : StarkCurve) :
    List (Int × Int) → Nat → Int → Int → Int → Res (Int × Int) × Int
  | _, 0, ptx, pty, x => (.ok (ptx, pty), x)
  | [], _ + 1, _, _, x => (.panic, x)
  | (xin, yin) :: tbl, n + 1, ptx, pty, x =>
    if xin = ptx then (.error (.constantPointDuplication ptx xin), x)
    else
      let pt := if x % 2 = 1 then d.Add sc ptx pty xin yin else (ptx, pty)
      PedersenHash.bitsFrom d sc tbl n pt.1 pt.2 (x >>> 1)

/-- The `for i, elem := range elems` loop of `PedersenHash`.  Returns the result and the
values held by the elements afterwards. -/
def PedersenHash.loop (d : Deps) (sc : StarkCurve) :
    Nat → List FeltPtr → Int → Int → Res Int × List FeltPtr
  | _, [], ptx, _ => (.ok ptx, [])
  | _, none :: rest, _, _ => (.panic, none :: rest)
  | i, some x :: rest, ptx, pty =>
    if 0 ≤ x ∧ sc.P ≤ x then (.error (.invalidX x), some x :: rest)
    else
      match PedersenHash.bits d sc i 252 0 ptx pty x with
      | (.ok pt, x') =>
        let r := PedersenHash.loop d sc (i + 1) rest pt.1 pt.2
        (r.1, some x' :: r.2)
      | (.error e, x') => (.error e, some x' :: rest)
      | (.panic, x') => (.panic, some x' :: rest)

/-- The loop of `PedersenHash.loop` reading the table from its remaining part `tbl`
instead of by index; the two agree (`PedersenHash.loop_eq_loopFrom`). -/
def PedersenHash.loopFrom (d : Deps) (sc : StarkCurve) :
    List (Int × Int) → List FeltPtr → Int → Int → Res Int × List FeltPtr
  | _, [], ptx, _ => (.ok ptx, [])
  | _, none :: rest, _, _ => (.panic, none :: rest)
  | tbl, some x :: rest, ptx, pty =>
    if 0 ≤ x ∧ sc.P ≤ x then (.error (.invalidX x), some x :: rest)
    else
      match PedersenHash.bitsFrom d sc tbl 252 ptx pty x with
      | (.ok pt, x') =>
        let r := PedersenHash.loopFrom d sc (tbl.drop 252) rest pt.1 pt.2
        (r.1, some x' :: r.2)
      | (.error e, x') => (.error e, some x' :: rest)
      | (.panic, x') => (.panic, some x' :: rest)

/-- The hash of `PedersenHash` computed with `PedersenHash.loopFrom`; equal to `PedersenHash`
(`PedersenHash_eq_fast`) and quicker to evaluate. -/
def PedersenHash.fast (d : Deps) (sc : StarkCurve) (elems : List FeltPtr) : Res Int :=
  if sc.ConstantPoints.length = 0 then .error .constantPointsMissing
  else (PedersenHash.loopFrom d sc (sc.ConstantPoints.drop 2) elems sc.Gx sc.Gy).1

/-- Go `PedersenHash` together with the values it leaves in its arguments. -/
def PedersenHash.run (d : Deps) (sc : StarkCurve) (elems : List FeltPtr) :
    Res Int × List FeltPtr :=
  if sc.ConstantPoints.length = 0 then (.error .constantPointsMissing, elems)
  else PedersenHash.loop d sc 0 elems sc.Gx sc.Gy

/-- Go `PedersenHash`: the returned hash or error. -/
def PedersenHash (d : Deps) (sc : StarkCurve) (elems : List FeltPtr) : Res Int :=
  (PedersenHash.run d sc elems).1

/-- The `for _, h := range elems` loop of `HashElements`. -/
def HashElements.loop (d : Deps) (sc : StarkCurve) : List FeltPtr → Int → Res Int
  | [], hash => .ok hash
  | h :: rest, hash =>
    match PedersenHash d sc [some hash, h] with
    | .ok hash' => HashElements.loop d sc rest hash'
    | .error e => .error e
    | .panic => .panic

/-- Go `HashElements`. -/
def HashElements (d : Deps) (sc : StarkCurve) (elems : List FeltPtr) : Res Int :=
  let elems := if elems.length = 0 then elems ++ [some 0] else elems
  HashElements.loop d sc elems 0

/-- Modelled from the spec: `UTF8StrToBig` of utils.go, §4.8 `utf8_str_to_felt(s)`:
"treats the UTF-8 bytes of `s` as a big-endian unsigned integer". -/
def UTF8StrToBig (s : String) : Int :=
  ((s.data.flatMap String.utf8EncodeChar).foldl (fun acc b => acc * 256 + b.toNat) 0 : Nat)

/-- Constant `EXECUTE_SELECTOR`. -/
def EXECUTE_SELECTOR : String := "__execute__"

/-- Constant `TRANSACTION_PREFIX`. -/
def TRANSACTION_PREFIX : String := "invoke"

/-- Constant `TRANSACTION_VERSION`. -/
def TRANSACTION_VERSION : Int := 0

/-- The fields of `Account`; `Address` is the value
`SNValToBN(account.Address.String())` reads back. -/
structure Account where
  Address : Int
  PublicX : Int
  PublicY : Int
  privateKey : Int

/-- The slice `callArray` that `HashMultiCall` hands to its first `HashElements` call:
the execute calldata with its own length appended. -/
def HashMultiCall.callArray (nonce : FeltPtr) (calls : List Transaction) : List FeltPtr :=
  let callArray := fmtExecuteCalldata nonce calls
  callArray ++ [some (callArray.length : Int)]

/-- The slice `multiHashData` that `HashMultiCall` hands to its last `HashElements` call:
the seven-element literal with its own length appended. -/
def HashMultiCall.multiHashData (d : Deps) (account : Account) (cdHash fee : Int)
    (chainID : String) : List FeltPtr :=
  let multiHashData : List FeltPtr :=
    [some (UTF8StrToBig TRANSACTION_PREFIX),
     some TRANSACTION_VERSION,
     some account.Address,
     some (d.GetSelectorFromName EXECUTE_SELECTOR),
     some cdHash,
     some fee,
     some (UTF8StrToBig chainID)]
  multiHashData ++ [some (multiHashData.length : Int)]

/-- Go `Account.HashMultiCall`; `Curve` is the package-level curve and `chainID` what
`account.Provider.ChainID` returns. -/
def HashMultiCall (d : Deps) (Curve : StarkCurve) (account : Account)
    (chainID : Res String) (fee nonce : FeltPtr) (calls : List Transaction) : Res Int :=
  match chainID with
  | .error e => .error e
  | .panic => .panic
  | .ok chainID =>
    match HashElements d Curve (HashMultiCall.callArray nonce calls) with
    | .error e => .error e
    | .panic => .panic
    | .ok cdHash =>
      match fee with
      | none => .panic
      | some fee =>
        HashElements d Curve (HashMultiCall.multiHashData d account cdHash fee chainID)

/-- Extended Euclid for `inv_mod` on remainders `r0, r1` and their coefficients `s0, s1`
(kept reduced modulo `m`, so `s0 - q * s1` is `(s0 + (m - q % m) * s1) % m`): the
coefficient that goes with the last non-zero remainder. -/
def inv_mod.go (m : Nat) : Nat → Nat → Nat → Nat → Nat → Nat
  | 0, _, _, s0, _ => s0
  | fuel + 1, r0, r1, s0, s1 =>
    match r1 with
    | 0 => s0
    | r + 1 =>
      inv_mod.go m fuel (Nat.succ r) (Nat.mod r0 (Nat.succ r)) s1
        (Nat.mod (Nat.add s0 (Nat.mul (Nat.sub m (Nat.mod (Nat.div r0 (Nat.succ r)) m)) s1)) m)

/-- Modelled from the spec: the modular inverse behind `DivMod` and `InvModCurveSize`,
§4.1 "`inv_mod(a, m)` (extended Euclidean)", "results are always non-negative and
reduced".  The Go callers receive a plain integer, so the coefficient is returned
whatever the gcd is; it is an inverse when the gcd is 1. -/
def inv_mod (a m : Int) : Int :=
  (inv_mod.go m.toNat ((a % m).toNat + 1) m.toNat (a % m).toNat 0 1 : Nat)

/-- Modelled from the spec: `DivMod` of utils.go, §4.1
"`div_mod(num, denom, m) = num · inv_mod(denom, m) mod m`". -/
def DivMod (n m p : Int) : Int :=
  n * inv_mod m p % p

/-- Modelled from the spec: method `InvModCurveSize` of curve.go, §4.5
"`w = inv_mod(s, N)`", "`s = inv_mod(w, N)`". -/
def InvModCurveSize (sc : StarkCurve) (x : Int) : Int :=
  inv_mod x sc.N

/-- The number of binary digits of `n`. -/
def BitLen.go : Nat → Nat → Nat
  | 0, _ => 0
  | fuel + 1, n => if n = 0 then 0 else BitLen.go fuel (n / 2) + 1

/-- Go `(*big.Int).BitLen`: the length of the absolute value in bits. -/
def BitLen (x : Int) : Nat :=
  BitLen.go x.natAbs x.natAbs

/-- Big-endian digits base 256, most significant first. -/
def Bytes.go : Nat → Nat → List Nat → List Nat
  | 0, _, acc => acc
  | fuel + 1, n, acc => if n = 0 then acc else Bytes.go fuel (n / 256) (n % 256 :: acc)

/-- Go `(*big.Int).Bytes`: the absolute value as a big-endian byte slice. -/
def Bytes (x : Int) : List Nat :=
  Bytes.go (BitLen x) x.natAbs []

/-- Go `(*big.Int).SetBytes`: a big-endian byte slice as an unsigned integer. -/
def SetBytes (buf : List Nat) : Int :=
  (buf.foldl (fun acc b => acc * 256 + b) 0 : Nat)

/-- The loop `for len(t) < sc.BitSize/8` of `GenerateSecret`; the state is `(t, v)`. -/
def GenerateSecret.fill (d : Deps) (sc : StarkCurve) (k : List Nat) :
    Nat → List Nat → List Nat → Option (List Nat × List Nat)
  | 0, _, _ => none
  | fuel + 1, t, v =>
    if t.length < sc.BitSize / 8 then
      let v := d.mac k v
      GenerateSecret.fill d sc k fuel (t ++ v) v
    else some (t, v)

/-- The final `for { ... }` loop of `GenerateSecret`; the state is `(k, v)`. -/
def GenerateSecret.loop (d : Deps) (sc : StarkCurve) (fuel : Nat) :
    Nat → List Nat → List Nat → Option Int
  | 0, _, _ => none
  | n + 1, k, v =>
    match GenerateSecret.fill d sc k fuel [] v with
    | none => none
    | some (t, v) =>
      let secret := d.bits2int (SetBytes t) sc.BitSize
      if 0 < secret ∧ secret < sc.N then some secret
      else
        let k := d.mac k (v ++ [0x00])
        let v := d.mac k v
        GenerateSecret.loop d sc fuel n k v

/-- The value `msgHash` holds after the `if` at the head of `GenerateSecret`. -/
def GenerateSecret.msgHash (msgHash : Int) : Int :=
  if BitLen msgHash % 8 ≤ 4 ∧ BitLen msgHash ≥ 248 then msgHash * 16 else msgHash

/-- The byte string `by` of `GenerateSecret`. -/
def GenerateSecret.byOctets (d : Deps) (sc : StarkCurve) (msgHash privKey seed : Int) :
    List Nat :=
  let rolen := (sc.BitSize + 7) >>> 3
  let msgHash := GenerateSecret.msgHash msgHash
  let by0 := d.int2octets privKey rolen ++ d.bits2octets msgHash sc.N sc.BitSize rolen
  if 0 < seed then by0 ++ Bytes seed else by0

/-- Go `GenerateSecret`; every loop runs for at most `fuel` rounds. -/
def GenerateSecret (d : Deps) (sc : StarkCurve) (fuel : Nat) (msgHash privKey seed : Int) :
    Option Int :=
  let holen := 32
  let by0 := GenerateSecret.byOctets d sc msgHash privKey seed
  let v := List.replicate holen 0x01
  let k := List.replicate holen 0x00
  let k := d.mac k (v ++ [0x00] ++ by0)
  let v := d.mac k v
  let k := d.mac k (v ++ [0x01] ++ by0)
  let v := d.mac k v
  GenerateSecret.loop d sc fuel fuel k v

/-- The value `inSeed` of `Sign`: the seed when exactly one is given, else 0. -/
def Sign.inSeed (seed : List Int) : Int :=
  match seed with
  | [s] => s
  | _ => 0

/-- The `for invalidK` loop of `Sign`. -/
def Sign.loop (d : Deps) (sc : StarkCurve) (fuel : Nat) (msgHash privKey : Int)
    (seed : List Int) : Nat → Option (Res (Int × Int))
  | 0 => none
  | n + 1 =>
    match GenerateSecret d sc fuel msgHash privKey (Sign.inSeed seed) with
    | none => none
    | some k =>
      let r := (d.EcMult sc k sc.EcGenX sc.EcGenY).1
      if r ≤ 0 ∨ sc.Max ≤ r then Sign.loop d sc fuel msgHash privKey seed n
      else
        let agg := r * privKey + msgHash
        if sc.N = 0 then some .panic
        else if agg % sc.N = 0 then Sign.loop d sc fuel msgHash privKey seed n
        else
          let w := DivMod k agg sc.N
          if w ≤ 0 ∨ sc.Max ≤ w then Sign.loop d sc fuel msgHash privKey seed n
          else some (.ok (r, InvModCurveSize sc w))

/-- The candidate `k` fails one of the three tests of `Sign`'s loop: `r` outside
`(0, Max)`, `r * privKey + msgHash ≡ 0 (mod N)`, or `w` outside `(0, Max)`. -/
def Sign.rejects (d : Deps) (sc : StarkCurve) (msgHash privKey k : Int) : Prop :=
  let r := (d.EcMult sc k sc.EcGenX sc.EcGenY).1
  (r ≤ 0 ∨ sc.Max ≤ r) ∨ (r * privKey + msgHash) % sc.N = 0
    ∨ (DivMod k (r * privKey + msgHash) sc.N ≤ 0
        ∨ sc.Max ≤ DivMod k (r * privKey + msgHash) sc.N)

/-- Go `Sign`; every loop runs for at most `fuel` rounds, `none` is "has not returned". -/
def Sign (d : Deps) (sc : StarkCurve) (fuel : Nat) (msgHash privKey : Int)
    (seed : List Int) : Option (Res (Int × Int)) :=
  if msgHash ≤ 0 ∨ sc.Max ≤ msgHash then some (.error .invalidBitLength)
  else Sign.loop d sc fuel msgHash privKey seed fuel

/-- Go `Verify`. -/
def Verify (d : Deps) (sc : StarkCurve) (msgHash r s pubX pubY : Int) : Bool :=
  let w := InvModCurveSize sc s
  if s ≤ 0 ∨ sc.N ≤ s then false
  else if r ≤ 0 ∨ sc.Max ≤ r then false
  else if w ≤ 0 ∨ sc.Max ≤ w then false
  else if msgHash ≤ 0 ∨ sc.Max ≤ msgHash then false
  else if !d.IsOnCurve sc pubX pubY then false
  else
    match d.MimicEcMultAir sc msgHash sc.EcGenX sc.EcGenY
        sc.MinusShiftPointX sc.MinusShiftPointY with
    | .error _ => false
    | .ok zG =>
    match d.MimicEcMultAir sc r pubX pubY sc.Gx sc.Gy with
    | .error _ => false
    | .ok rQ =>
    let inP := d.Add sc zG.1 zG.2 rQ.1 rQ.2
    match d.MimicEcMultAir sc w inP.1 inP.2 sc.Gx sc.Gy with
    | .error _ => false
    | .ok wB =>
    let outX := (d.Add sc wB.1 wB.2 sc.MinusShiftPointX sc.MinusShiftPointY).1
    if r = outX then true
    else
      let altY := -pubY
      match d.MimicEcMultAir sc msgHash sc.EcGenX sc.EcGenY
          sc.MinusShiftPointX sc.MinusShiftPointY with
      | .error _ => false
      | .ok zG =>
      match d.MimicEcMultAir sc r pubX altY sc.Gx sc.Gy with
      | .error _ => false
      | .ok rQ =>
      let inP := d.Add sc zG.1 zG.2 rQ.1 rQ.2
      match d.MimicEcMultAir sc w inP.1 inP.2 sc.Gx sc.Gy with
      | .error _ => false
      | .ok wB =>
      let outX := (d.Add sc wB.1 wB.2 sc.MinusShiftPointX sc.MinusShiftPointY).1
      if r = outX then true else false

/-- One branch of verification in the spec's words (§4.5 steps 3 to 6):
`zG = mimic_ec_mult_air(msg_hash, G_ec, −shift)`, `rQ = mimic_ec_mult_air(r, (pub_x, y),
shift)`, `B = zG + rQ`, `wB = mimic_ec_mult_air(w, B, shift)`, and `x_out` the
x-coordinate of `wB − shift`; `none` when a multiplier fails. -/
def Verify.xOut (d : Deps) (sc : StarkCurve) (msgHash r w pubX y : Int) : Option Int :=
  match d.MimicEcMultAir sc msgHash sc.EcGenX sc.EcGenY
      sc.MinusShiftPointX sc.MinusShiftPointY with
  | .error _ => none
  | .ok zG =>
  match d.MimicEcMultAir sc r pubX y sc.Gx sc.Gy with
  | .error _ => none
  | .ok rQ =>
  let B := d.Add sc zG.1 zG.2 rQ.1 rQ.2
  match d.MimicEcMultAir sc w B.1 B.2 sc.Gx sc.Gy with
  | .error _ => none
  | .ok wB => some (d.Add sc wB.1 wB.2 sc.MinusShiftPointX sc.MinusShiftPointY).1

/-! ## Reference implementations of the callees

The callees that `Deps` abstracts, written out from the specification (§4.1, §4.2, §4.4,
§4.7) so that the embedded functions can be evaluated on concrete curves. -/

/-- Modelled from the spec: method `Double` of curve.go, §4.2 "point doubling": the
tangent rule on `y² = x³ + α·x + β` over the field of `P` elements. -/
def Ref.Double (sc : StarkCurve) (x y : Int) : Int × Int :=
  let m := DivMod (3 * x * x + sc.Alpha) (2 * y) sc.P
  let x3 := (m * m - 2 * x) % sc.P
  (x3, (m * (x - x3) - y) % sc.P)

/-- Modelled from the spec: method `Add` of curve.go, §4.2 "`add(P₁, P₂)`: full addition
handling the doubling case (`P₁ = P₂`) and the vertical case"; the point at infinity of
the vertical case is written `(0, 0)`. -/
def Ref.Add (sc : StarkCurve) (x1 y1 x2 y2 : Int) : Int × Int :=
  if (x1 - x2) % sc.P = 0 then
    if (y1 - y2) % sc.P = 0 then Ref.Double sc x1 y1 else (0, 0)
  else
    let m := DivMod (y1 - y2) (x1 - x2) sc.P
    let x3 := (m * m - x1 - x2) % sc.P
    (x3, (m * (x1 - x3) - y1) % sc.P)

/-- Double-and-add for a scalar `m ≥ 1`. -/
def Ref.EcMult.go (sc : StarkCurve) : Nat → Int → Int → Int → Int × Int
  | 0, _, x1, y1 => (x1, y1)
  | fuel + 1, m, x1, y1 =>
    if m ≤ 1 then (x1, y1)
    else
      let dbl := Ref.Double sc x1 y1
      let h := Ref.EcMult.go sc fuel (m / 2) dbl.1 dbl.2
      if m % 2 = 0 then h else Ref.Add sc h.1 h.2 x1 y1

/-- Modelled from the spec: method `EcMult` of curve.go, §4.2 "`ec_mult(k, P)`: standard
double-and-add scalar multiplication, `k` reduced mod `N` if needed". -/
def Ref.EcMult (sc : StarkCurve) (m x1 y1 : Int) : Int × Int :=
  let k := m % sc.N
  if k = 0 then (0, 0) else Ref.EcMult.go sc (BitLen k) k x1 y1

/-- The 251 steps of the shift-point ladder: `(x1, y1)` is the running point, `(psx, psy)`
the accumulator. -/
def Ref.MimicEcMultAir.go (sc : StarkCurve) :
    Nat → Int → Int → Int → Int → Int → Except Err (Int × Int)
  | 0, _, _, _, psx, psy => .ok (psx, psy)
  | n + 1, m, x1, y1, psx, psy =>
    if (psx - x1) % sc.P = 0 then .error (.external "xs are the same")
    else
      let ps := if m % 2 = 1 then Ref.Add sc psx psy x1 y1 else (psx, psy)
      let dbl := Ref.Double sc x1 y1
      Ref.MimicEcMultAir.go sc n (m / 2) dbl.1 dbl.2 ps.1 ps.2

/-- Modelled from the spec: method `MimicEcMultAir` of curve.go, §4.2
"`mimic_ec_mult_air(m, P, shift)`: accumulator starts at `shift`; for each of 251 bits of
`m` from LSB upward, if the bit is set the accumulator gains `(2^i)·P` via an incremental
running-point; it must fail if at any step the running point coincides in x-coordinate
with the accumulator". -/
def Ref.MimicEcMultAir (sc : StarkCurve) (m x1 y1 x2 y2 : Int) : Except Err (Int × Int) :=
  Ref.MimicEcMultAir.go sc 251 m x1 y1 x2 y2

/-- Modelled from the spec: method `IsOnCurve` of curve.go, §4.2 "`is_on_curve(x, y)`:
returns whether `y² ≡ x³ + α·x + β (mod P)`". -/
def Ref.IsOnCurve (sc : StarkCurve) (x y : Int) : Bool :=
  decide ((y * y - (x * x * x + sc.Alpha * x + sc.Beta)) % sc.P = 0)

/-- The round constants of SHA-256. -/
def Ref.sha256.K : List Nat := [
  0x428a2f98, 0x71374491, 0xb5c0fbcf, 0xe9b5dba5, 0x3956c25b, 0x59f111f1, 0x923f82a4,
  0xab1c5ed5, 0xd807aa98, 0x12835b01, 0x243185be, 0x550c7dc3, 0x72be5d74, 0x80deb1fe,
  0x9bdc06a7, 0xc19bf174, 0xe49b69c1, 0xefbe4786, 0x0fc19dc6, 0x240ca1cc, 0x2de92c6f,
  0x4a7484aa, 0x5cb0a9dc, 0x76f988da, 0x983e5152, 0xa831c66d, 0xb00327c8, 0xbf597fc7,
  0xc6e00bf3, 0xd5a79147, 0x06ca6351, 0x14292967, 0x27b70a85, 0x2e1b2138, 0x4d2c6dfc,
  0x53380d13, 0x650a7354, 0x766a0abb, 0x81c2c92e, 0x92722c85, 0xa2bfe8a1, 0xa81a664b,
  0xc24b8b70, 0xc76c51a3, 0xd192e819, 0xd6990624, 0xf40e3585, 0x106aa070, 0x19a4c116,
  0x1e376c08, 0x2748774c, 0x34b0bcb5, 0x391c0cb3, 0x4ed8aa4a, 0x5b9cca4f, 0x682e6ff3,
  0x748f82ee, 0x78a5636f, 0x84c87814, 0x8cc70208, 0x90befffa, 0xa4506ceb, 0xbef9a3f7,
  0xc67178f2]

/-- The initial hash value of SHA-256. -/
def Ref.sha256.H0 : List Nat :=
  [0x6a09e667, 0xbb67ae85, 0x3c6ef372, 0xa54ff53a, 0x510e527f, 0x9b05688c, 0x1f83d9ab,
   0x5be0cd19]

/-- Rotation of a 32-bit word to the right. -/
def Ref.sha256.rotr (x n : Nat) : Nat :=
  (x >>> n) ||| ((x <<< (32 - n)) % 2 ^ 32)

/-- The big-endian 32-bit words of a byte string. -/
def Ref.sha256.words : List Nat → List Nat
  | a :: b :: c :: d :: rest => (((a * 256 + b) * 256 + c) * 256 + d) :: Ref.sha256.words rest
  | _ => []

/-- Message schedule, most recent word first: `n` more words after those of `w`. -/
def Ref.sha256.sched : Nat → List Nat → List Nat
  | 0, w => w
  | n + 1, w =>
    let w2 := w.getD 1 0
    let w15 := w.getD 14 0
    let s1 := Ref.sha256.rotr w2 17 ^^^ Ref.sha256.rotr w2 19 ^^^ (w2 >>> 10)
    let s0 := Ref.sha256.rotr w15 7 ^^^ Ref.sha256.rotr w15 18 ^^^ (w15 >>> 3)
    Ref.sha256.sched n (((s1 + w.getD 6 0 + s0 + w.getD 15 0) % 2 ^ 32) :: w)

/-- The rounds of the compression function over the constants and schedule words. -/
def Ref.sha256.rounds : List Nat → List Nat → List Nat → List Nat
  | k :: ks, w :: ws, [a, b, c, d, e, f, g, h] =>
    let S1 := Ref.sha256.rotr e 6 ^^^ Ref.sha256.rotr e 11 ^^^ Ref.sha256.rotr e 25
    let ch := (e &&& f) ^^^ ((e ^^^ 0xffffffff) &&& g)
    let t1 := (h + S1 + ch + k + w) % 2 ^ 32
    let S0 := Ref.sha256.rotr a 2 ^^^ Ref.sha256.rotr a 13 ^^^ Ref.sha256.rotr a 22
    let maj := (a &&& b) ^^^ (a &&& c) ^^^ (b &&& c)
    let t2 := (S0 + maj) % 2 ^ 32
    Ref.sha256.rounds ks ws [(t1 + t2) % 2 ^ 32, a, b, c, (d + t1) % 2 ^ 32, e, f, g]
  | _, _, st => st

/-- The compression function on one 64-byte block. -/
def Ref.sha256.compress (st block : List Nat) : List Nat :=
  let w := (Ref.sha256.sched 48 (Ref.sha256.words block).reverse).reverse
  List.zipWith (fun x y => (x + y) % 2 ^ 32) st (Ref.sha256.rounds Ref.sha256.K w st)

/-- Compression over `n` consecutive blocks. -/
def Ref.sha256.blocks : Nat → List Nat → List Nat → List Nat
  | 0, st, _ => st
  | n + 1, st, msg => Ref.sha256.blocks n (Ref.sha256.compress st (msg.take 64)) (msg.drop 64)

/-- The `k` low bytes of `n`, most significant first. -/
def Ref.bigEndian (n : Nat) : Nat → List Nat
  | 0 => []
  | k + 1 => (n >>> (8 * k)) % 256 :: Ref.bigEndian n k

/-- SHA-256 (FIPS 180-4) of a byte string. -/
def Ref.sha256 (msg : List Nat) : List Nat :=
  let padded := msg ++ [0x80] ++ List.replicate ((55 + 64 - msg.length % 64) % 64) 0
    ++ Ref.bigEndian (8 * msg.length) 8
  (Ref.sha256.blocks (padded.length / 64) Ref.sha256.H0 padded).flatMap
    (fun w => Ref.bigEndian w 4)

/-- Modelled from the spec: helper `mac` of utils.go, §4.4 "RFC 6979 §3.2 using
HMAC-SHA256": HMAC (RFC 2104) with SHA-256. -/
def Ref.mac (key msg : List Nat) : List Nat :=
  let key := if key.length > 64 then Ref.sha256 key else key
  let key := key ++ List.replicate (64 - key.length) 0
  Ref.sha256 (key.map (· ^^^ 0x5c) ++ Ref.sha256 (key.map (· ^^^ 0x36) ++ msg))

/-- Modelled from the spec: helper `int2octets` of utils.go, §4.4 (RFC 6979 §2.3.7): the
big-endian bytes of `v`, left-padded with zeros or cut on the left to `rolen` bytes. -/
def Ref.int2octets (v : Int) (rolen : Nat) : List Nat :=
  let out := Bytes v
  if out.length < rolen then List.replicate (rolen - out.length) 0 ++ out
  else out.drop (out.length - rolen)

/-- Modelled from the spec: helper `bits2int` of utils.go, §4.4 (RFC 6979 §2.3.2): keeps
the `qlen` leftmost bits of the integer's byte string. -/
def Ref.bits2int (x : Int) (qlen : Nat) : Int :=
  let blen := (Bytes x).length * 8
  if blen > qlen then x >>> (blen - qlen) else x

/-- Modelled from the spec: helper `bits2octets` of utils.go, §4.4 (RFC 6979 §2.3.4):
`bits2int`, one reduction by `q`, then `int2octets`. -/
def Ref.bits2octets (x q : Int) (qlen rolen : Nat) : List Nat :=
  let z1 := Ref.bits2int x qlen
  let z2 := z1 - q
  if z2 < 0 then Ref.int2octets z1 rolen else Ref.int2octets z2 rolen

/-- The round constants of Keccak-f[1600]. -/
def Ref.keccak.RC : List Nat := [
  0x0000000000000001, 0x0000000000008082, 0x800000000000808A, 0x8000000080008000,
  0x000000000000808B, 0x0000000080000001, 0x8000000080008081, 0x8000000000008009,
  0x000000000000008A, 0x0000000000000088, 0x0000000080008009, 0x000000008000000A,
  0x000000008000808B, 0x800000000000008B, 0x8000000000008089, 0x8000000000008003,
  0x8000000000008002, 0x8000000000000080, 0x000000000000800A, 0x800000008000000A,
  0x8000000080008081, 0x8000000000008080, 0x0000000080000001, 0x8000000080008008]

/-- The rotation offsets of Keccak-f[1600], lane `(x, y)` at position `x + 5 * y`. -/
def Ref.keccak.ROT : List Nat := [
  0, 1, 62, 28, 27, 36, 44, 6, 55, 20, 3, 10, 43, 25, 39, 41, 45, 15, 21, 8, 18, 2, 61,
  56, 14]

/-- Rotation of a 64-bit lane to the left. -/
def Ref.keccak.rol (x n : Nat) : Nat :=
  ((x <<< n) % 2 ^ 64) ||| (x >>> (64 - n))

/-- One round of Keccak-f[1600] on the 25 lanes, lane `(x, y)` at position `x + 5 * y`. -/
def Ref.keccak.round (A : List Nat) (rc : Nat) : List Nat :=
  let C := (List.range 5).map fun x =>
    A.getD x 0 ^^^ A.getD (x + 5) 0 ^^^ A.getD (x + 10) 0 ^^^ A.getD (x + 15) 0
      ^^^ A.getD (x + 20) 0
  let D := (List.range 5).map fun x =>
    C.getD ((x + 4) % 5) 0 ^^^ Ref.keccak.rol (C.getD ((x + 1) % 5) 0) 1
  let A1 := (List.range 25).map fun i => A.getD i 0 ^^^ D.getD (i % 5) 0
  let B := (List.range 25).map fun j =>
    let src := (j % 5 + 3 * (j / 5)) % 5 + 5 * (j % 5)
    Ref.keccak.rol (A1.getD src 0) (Ref.keccak.ROT.getD src 0)
  let A2 := (List.range 25).map fun j =>
    let y := j / 5
    B.getD j 0 ^^^ ((B.getD ((j + 1) % 5 + 5 * y) 0 ^^^ (2 ^ 64 - 1))
      &&& B.getD ((j + 2) % 5 + 5 * y) 0)
  (A2.getD 0 0 ^^^ rc) :: A2.drop 1

/-- The little-endian 64-bit lanes of a byte string. -/
def Ref.keccak.lanes : List Nat → List Nat
  | b0 :: b1 :: b2 :: b3 :: b4 :: b5 :: b6 :: b7 :: rest =>
    (b0 + 256 * (b1 + 256 * (b2 + 256 * (b3 + 256 * (b4 + 256 * (b5 + 256 * (b6 + 256 * b7)))))))
      :: Ref.keccak.lanes rest
  | _ => []

/-- Absorbing `n` blocks of 136 bytes. -/
def Ref.keccak.absorb : Nat → List Nat → List Nat → List Nat
  | 0, A, _ => A
  | n + 1, A, msg =>
    let blk := Ref.keccak.lanes (msg.take 136) ++ List.replicate 8 0
    let A := Ref.keccak.RC.foldl Ref.keccak.round (List.zipWith (· ^^^ ·) A blk)
    Ref.keccak.absorb n A (msg.drop 136)

/-- Keccak-256 (the original padding `0x01 … 0x80`) of a byte string, as an integer read
big-endian. -/
def Ref.keccak256 (msg : List Nat) : Nat :=
  let z := 135 - msg.length % 136
  let padded := if z = 0 then msg ++ [0x81] else msg ++ [0x01] ++ List.replicate (z - 1) 0 ++ [0x80]
  let A := Ref.keccak.absorb (padded.length / 136) (List.replicate 25 0) padded
  ((A.take 4).flatMap fun lane => (Ref.bigEndian lane 8).reverse).foldl
    (fun acc b => acc * 256 + b) 0

/-- Modelled from the spec: helper `GetSelectorFromName` of utils.go, §4.7
"`selector_from_name(name)` = `keccak256(name_bytes)` reduced to a field element by
masking to 250 bits (i.e., `digest mod 2^250`)". -/
def Ref.GetSelectorFromName (name : String) : Int :=
  (Ref.keccak256 ((name.data.flatMap String.utf8EncodeChar).map (·.toNat)) % 2 ^ 250 : Nat)

/-- The callees as the specification describes them. -/
def refDeps : Deps where
  Add := Ref.Add
  EcMult := Ref.EcMult
  MimicEcMultAir := Ref.MimicEcMultAir
  IsOnCurve := Ref.IsOnCurve
  GetSelectorFromName := Ref.GetSelectorFromName
  mac := Ref.mac
  int2octets := Ref.int2octets
  bits2octets := Ref.bits2octets
  bits2int := Ref.bits2int

/-! ## The Stark curve

The curve constants and the Pedersen constant points: entry 0 is the shift point, entry 1
the generator, entries `2 + j` (`j < 248`) are `2^j · P₀`, then `2^j · P₁` (`j < 4`),
`2^j · P₂` (`j < 248`) and `2^j · P₃` (`j < 4`). -/

/-- The constant-point table of the Stark curve, 2 + 2·252 points. -/
def starkConstantPoints : List (Int × Int) := [
  (0x49ee3eba8c1600700ee1b87eb599f16716b0b1022947733551fde4050ca6804,
   0x3ca0cfe4b3bc6ddf346d49d06ea0ed34e621062c0e056c1d0405d266e10268a),
  (0x1ef15c18599971b7beced415a40f0c7deacfd9b0d1819e03d723d8bc943cfca,
   0x5668060aa49730b7be4801df46ec62de53ecd11abe43a32873000c36e8dc1f),
  (0x234287dcbaffe7f969c748655fca9e58fa8120b6d56eb0c1080d17957ebe47b,
   0x3b056f100f96fb21e889527d41f4e39940135dd7a6c94cc6ed0268ee89e5615),
  (0x3909690e1123c80678a7ba0fde0e8447f6f02b3f6b960034d1e93524f8b476,
   0x7122e9063d239d89d4e336753845b76f2b33ca0d7f0c1acd4b9fe974994cc19),
  (0x40fd002e38ea01a01b2702eb7c643e9decc2894cbf31765922e281939ab542c,
   0x109f720a79e2a41471f054ca885efd90c8cfbbec37991d1b6343991e0a3e740),
  (0x2f52066635c139fc2f64eb0bd5e3fd7a705f576854ec4f00aa60361fddb981b,
   0x6d78a24d8a5f97fc600318ce16b3c840315979c3273078ec1a285f217ee6a26),
  (0x6a0767a1fd60d5b9027a35af1b68e57a1c366ebcde2006cdd07af27043ef674,
   0x606b72c0ca0498b8c1817ed7922d550894c324f5efdfc85a19a1ae382411ca2),
  (0x7fa463ee2a2d6a585d5c3358918270f6c28c66df1f86803374d1edf3819cc62,
   0xa996edf01598832e644e1cae9a37288865ad80e2787f9bf958aceccc99afae),
  (0x3d4da70d1540da597dbae1651d28487604a4e66a4a1823b97e8e9639393dbec,
   0x45cdef70c35d3b6f0a2273a9886ccb6306d813e8204bdfd30b4efee63c8a3f9),
  (0x1e448fdbcd9896c6fbf5f36cb7e7fcb77a751ff2d942593cae023363cc7750e,
   0x30c81da0f3a8cb64468eaa491c7ae7b4842b62cb4148820da211afc4caffb3a),
  (0x6531acf1a7cb90a4eb27de0b7f915e387a3b0fd063ba6e1289b91f48411be26,
   0x31330f5daa091889981a3ea782ae997f5f171336ed0487a03f051551a2cafa2),
  (0x54be016394d5662d67d7e82f5e889ed2f97ccf95d911f57dd2362c4040ed4f4,
   0xc6cb184053f054d6a59c1bf0986d17090d25089b3fdcdaf185edc87ef113e5),
  (0x35b9ecd0499ca1d5d42dcbb0c6b4042b3733c64b607ca711e706e786ef2afc6,
   0x5624b476a5b21c3a544f0712d4817b06ad380a5a6529d323bf64da8ef862d8d),
  (0x4ce0378e3ee8f77ed58f2ddbd8bb7676c8a38bfb1d3694c275254bd8ca38e23,
   0x5a16fcbff0769c9cf2b02c31621878ec819fff4b8231bff82c6183db2746820),
  (0x648d5c6f98680a1b926bfeb01c00224c56fdcf751b251c4449c8a94f425cfcf,
   0x72c05ac793cd1620a833fbe2214d36900ebe446e095c62fcb740937f98cca8c),
  (0xbd09be3e4e1af8a14189977e334f097c18e4a8bf42577ef5aafa0f807bd89b,
   0x6e0e72ed7eb65c86cee29c411fb4761122558ee81013344ba8509c49de9f9b6),
  (0x35ea4e339b44ae7724419bdfbe07022253137a4afb7cbaffad341ea61249357,
   0x3665d676a026a174f367bb4417780e53a7803cb02d0db32eb4545c267c42f14),
  (0x36457bc744f42e697b825c2d1afd8f4029d696a4514710f81da52d88e178643,
   0x7c93715896735492a68c7969a024b3a8fd538bffc1521538107de1a5f13ce9c),
  (0x5b3a08ebcf9c109cc9082f70d9df2b9c11b5428ee23917b4e790c4c10f6e661,
   0x9d7b42ab0c20f5510df7ea5e196eec99342739077e9a168198c89da859753),
  (0x21883ef8580fc06e59481955d52ece3aca6e82c8c9fc58e216dcf46f96990c6,
   0x51a6423543e6e8a43e71da34cd90f5b520b8d33b67c4bf857573ab9e301aa4c),
  (0x19e86b77f9b581e81092b305c852faf53940a8f15f0a6990c414f04c0fa7ef9,
   0x515630e35d4398c9c79fc4ee08e1023fa47d8e03c6e7819c6d2ccef45398fa),
  (0x888ab8eb4c31bb2ac5b54aa320dbe1a69c96b864e8a5f54d89c1d1a6b86c24,
   0x730e148467f6a55ce22c5296f5380df88f38de76ef0b2de844cd3094aaaf3ea),
  (0x75e79ff13a894e7120dac17b7429c0c32ce7828f726c9973728c0977a5f5977,
   0x4960526e59c1c736561a201bc56f7d762641b39f609d273cc996f5d9197cfb8),
  (0x640fe009249115d7254f72ecafb3006139e4bed7e9041af51458c737282d1d5,
   0x3cc6c978a575246e2ce4f7ef1fcc7f63085db9ff98a1b1f3fe374087c0332c),
  (0x6d6fd09ccab7c26de9b3906191235deb5c34685580c488275356a05e209ca96,
   0x7157f81a34213dd8f91dea4f6df1bcfabc4ee091a3049eeeb3b7923d39b8645),
  (0x5531ca1d00f151d71da820918f74caf2985b24dca20e124721fff507b5a5876,
   0x518529643d3f25e47f72c322223ba60a63d6bfe78cf3f612215d9c19bf29200),
  (0x6192d454e4f8fe212bdfccd5b15dd5056d7622ffe456c6c67e5a7265aea49c4,
   0x2377a45dc630017ae863cb968ddb38333a70c7946d8684e6d7a6213f634b7bc),
  (0x542fb44b4ef3640a64fdb22a2560fb26668065c069cf31d1df424819a39ff18,
   0x5dbae9b0948e0361aea443503840341c322aa1a1366ce5390e71bf161f78f8c),
  (0x299ff3e3412a7eb4cb4a3051b07b1be2e7b1c4b789f39ffb52cba3d048b71de,
   0x1951d3175c02761b291d86b6c0a08387ad5e2a2130ccc33c852530572cb3958),
  (0x628ce3f5367dadc1411133e55eb25e2e3c2880d6e28754a5cb1c5d109627e73,
   0xae3e9b7d50964e28bd15380400b7659b87affdef5d2586cbefcd9be7d67c0d),
  (0x6ea54aff064895eccf9db2283225d62044ae67621192b3346338948382f5933,
   0x6431507e51aadacfaf39f102a8ff387756e9b5e1bc8323d44acae55130d93db),
  (0x28097d50d175a6235320fe8cfe138dd9e46895d189582e472c38ad7a67d923a,
   0x7f9eab4133d7d09a7ff63368d6135c26262b62336eca1b5ca33f2096ce388ba),
  (0x619fd09cdd6ff4323973f256c2cbdcb224f7f25b8aef623af2d4a0105e62e02,
   0x2c95f0ae11d47eeae1bc7f1350f75f9185c5bc840382ceb38a797cae9c40308),
  (0x641c18982ced304512a3f2395942a38add0d6a7156229c2a7c8b8dfbe9beb96,
   0x6f6288c9c659b6af5ac975f4180deffe53d516399b2cc62f31732e9d4ba9837),
  (0x58ab546e51fe49fc5a382e4064a2bd6cfc268904412f86c26de14f28a71d0f2,
   0x124b7217943e7e328408e8afdfa7da00dcbc94a2bb85fd8e01fb162d2c2c0a9),
  (0xa82c2fdedbb26c3c762a12f7e86b0e01e65320e0a25a8399d665f6e266bf74,
   0x1a1de28e253f3e10f44d0111e8074f882d7f42e5900780ccbdc31da372d3fd8),
  (0x744c725a7455a992e3cf5bd007bc234dd4668dba285f553f38350ad94c1615b,
   0x7f721a87f48798bdc4a9c0eb88559e2ad7a74112fd901e70ea159e67a9c33f),
  (0x434df142ddaa60f7881b6348d91687de40457de7ccfb07f0304b9e820705d0c,
   0x7fae425e3b53f97dd1f5b20e49ed9fe24ff1efc341ba5e017ac89cf8df0cc39),
  (0x7a1e2b809dff46277021cbc376f79c37e1b683bbd6bca5317014f0dc0e1ae73,
   0x56790278a231912c334eff05281e08af1558e85516b4411ef64647c13bea431),
  (0x4931b7990348d41cf8907be79f45bb7991fd18f8a57868351c92fa7a34cbcd7,
   0xca35091815cdf0837d396e25aad6052ad32d497a33b123256cffdc008bc50e),
  (0x250b815d352fd89f8210b624b147ea7d0a4f47bcac49f3ac9b777840da93ebe,
   0x1173f10e9691948b7da7632f328520455aadcba46e017f891e0a1d7da2bef04),
  (0x2223b85032fa67292f6e1f822628e6756e5c3cc08fc252ab88d63d624e4dfb2,
   0x55619ba96a7dcec77832fcb22cd5c21c7dcebc0280d730cba0002b67e0a8c63),
  (0x249b131e04de73af9820d3e22492d9ec51bdc0c4c4f34d95352fa44dd61f245,
   0x7576d3b5d136368ff01170a77d8286d0d1c7c40688862fb40813b4af3c6065e),
  (0x6777915d9b4769027eb7e04733f8a2d669c84fe06080f55e8a55674dfbf9efb,
   0x640d0ff384c9635e1af364760f104e058e3c86209fa9d2320aeac887b2e02d8),
  (0x2abe3f237681052f002414399111cf07f8421535af41251edc427a36b5b19c9,
   0x636ce4deaf468a503ab20ccb2f7e5bdc98551656ebf53e9c7786b11dd9090be),
  (0x4d5cc5414758ea1be55be779bd7da296c7e11f1564d9e8797ceea347c16f8ea,
   0x1a680c4c410cf5ddc74e95ff2897c193edaaecce5b2cde4e96bbae5c0054eff),
  (0x46c375c684b30adf4d51de81e92afee52b1a3847e177403372c82109373edca,
   0x1eaadc5783c90a0261306423d52009e991126b3f620e9cb6cffca41ca096f4f),
  (0x2ddfb71f51205888118cbabba8fd07d460a810289bfdeeb7118707e310cb152,
   0x1fd905d07b3933be886f2518246bdafa6f33259a174668808223cd7c28183c7),
  (0x386f3879960713d41fdb3b1e41bbebf26b1c0e27a9a75bb1adcc1a0d3e8547b,
   0x2b21498c0f34ec6f17c720334dc0f36021c2f87afbbbc8847d0bd536eb265e5),
  (0x407eae62c6c4de3b942195afec3f45efec71ddb5e6edee3d427631bcdbf9b90,
   0x436e7f2d78268ef62c4172d2ff1469028bad1f1d0f97ab007064418e61caa8f),
  (0x1b881175e21201d17e095e9b3966b354f47de8c1acee5177f5909e0fd72328f,
   0x69954b1a9b8bfccf8ec384d32924518a935758f3d3662ef754bcc88f1f6f3ec),
  (0x7d545a82bff003b8115be32a0c437f7c0a98f776bcf7fddb0392822844f3c5e,
   0x34b6e53a9565a7daa010711f5bf72254a4e61da3e6a562210a9abc9e8b66d69),
  (0x299b9fcd4fadfc4b6141457a3036aaa68501c23df579de26df69d4def89b913,
   0xb95bf2c2bb303c38bb396382edc798ca6a4847e573ce19b7b08533d1912675),
  (0x551f5a4dae4a341a3e20336a7d2f365ddd45849351ec6dd4fcbedfe4806d5d5,
   0x5865c977a0ecf13ce85ae14c5c316872080bd36f0f614f56b6dfc7ece83792e),
  (0x7a1d69c08e68c80ad8b310736e6247a53bcba0183b9b8798833bc696a0fb6e2,
   0x3ce803a20ebb3b120d5eaf0ad64bed0522fad1a0f2ce39a5c5cbae98c4438f6),
  (0x28acacc0bc41d84e83663f02b36981a2c8272ecd72d3901164be2affb09c504,
   0x7a5aee0b160eaff5b5968ab1a0304ce58c3d5ae0148d9191c39e87668229e5b),
  (0x1f78cfdbcc767b68e69a224a077468cdfcb0afd6952b85bccbdb96d1fb8500b,
   0x4772ba173c6b583284eb001cfc2a124104833f464ff9df096443e10ef3e9dd4),
  (0x2774108962ca9897e7f22c064d2ccedac4fef5fc9569331c27cdc336c95774b,
   0x9e13d79b68e8dc8091c019618f5b07283a710ddf1733dc674a99fc32c12911),
  (0x770d116415cd2c4ace0d8b721dd77e4a2ef766591f9ec9fa0b61304548994ed,
   0x42165d93c82f687635aa2b68492b3adffd516beb4baa94520efa11467a209fd),
  (0x5e6e4ece6621e2275415e1fda1e7c4f496de498b77c0b913073c6a6099394b9,
   0x3d92ce044fc77fa227adc31f6fc17ef8b4ec1c5aafc44630c0d9195075bf56d),
  (0x6e69c717b5d98807ff1e404a5187a9ceaf0110b83aa15a84f930928b1171825,
   0x1ee7cfc3a9744d7fa380ba28604af9df33ac077724374c04588bd71fa16b177),
  (0x404318f2d2ceb44f549c80f9d7de9879d8f7da4b81e7350c00e974ebf2daef1,
   0x3934831b5af70d17a3f1da9d2931bd757e6acf2893236264fc7e0d92ff1a1cb),
  (0x20dcb6f394fea6d549b2e75748f61b7ec03b6e52319cb14163373a9c22bb9dc,
   0x106a8c96cfb95a331618b7416d1498554730499e194a58fbf63019890480fc7),
  (0x119000f277ccee013e6bb121194ec1ab5460fb6a96eb702a14079865f4170aa,
   0x1737a32f5415e8720a5606ec1dd4756f02e7c6817e3723b453d091f2d192773),
  (0x45d0fb5cd95db76d05dec3faa12e467a308eabaad363a062353db3cd2d9b749,
   0xae08691b5b0cdd19ec499132421638f470f493320e4003d123ab1da761b965),
  (0x1257b3e65cdfb6367c6d0942327e799bc66eb221e70c6573a9862889eb51c38,
   0x593309fd45755dd2cc4afd2b9316bc4638b0c5ddb3009694fcb7b250d0c8a2f),
  (0x186dcf9950f72e868014a8accf14aa36e82a7a2a29f86ba37f6632da4189db3,
   0x55684c9f7a043fc523ed78f756f834b4db823d5e4161bd79602c17d55a5cd8c),
  (0x58791d5569f282f5c3b01ecdc9388df7ba3ca223a2dc1eed5edaf2a1d302fb9,
   0x6298d7dd51561a045bb4089deda9f40b2865589ed433e56d54554f8b45e79f0),
  (0x13fd87144aa5aa4b24d5a7bf907d8280d15937fed262d41084898cb688fc28b,
   0x3fa54367770cc4479a857411ddcabe86627b405ce1cd14ad3b2863bde13abe4),
  (0x48118139445415f0c1879224e2dee744ed35280ff00537260402a1741ec3676,
   0x4dfa39dadaabecfc54ecb7a25319444f8e952782d863790e42a9887064fc0c1),
  (0x4ad031bb9eda84f2fe5d354c7948d41558ca657a04508654721810ee72ef158,
   0x620ebd5d0086b92c6009a42777b946a351c2c7ba852b57d3c9905fc337459ef),
  (0x4a34abb016ad8cb4575ea5bd28385d2348e5bcc0cbba90059f90f9c71f86e8b,
   0x4f781829ad83f9ed1e1b6de0e5f4ac60dfdfe7f23cb4411e815817e705e52c8),
  (0x7fc632d7512aab5356b7915dca854c8b12b369ab54f524fbce352f00eb9b9f9,
   0x2ce80b944fc9158005f630b34385d50c3ad84450a9e1e529925b3211dd2a1de),
  (0x65ed10347503cbc0216ca03f7536cca16b6abd18d332a9258685907f2e5c23f,
   0x3be1a18c6bfa6f2f4898ebefad5a8e844c74626d5baa04a820d407fe28bbca6),
  (0x1a8abba1be2e276cdd1f28c912280833a5ede1ec121738fcca47dc070dcc71d,
   0x21b724378bc029a5199799df005922590d4e59cae52976f8e437bf6693eec4a),
  (0x3a99c22dafcfe9004ebb674805736a26aeed7ed5d465ae37226dcbe270a972b,
   0x5bf67552af08e1e6e2a24bf562c23225e89869cab9bef8becb3669175a3c94f),
  (0x4a6a5e4b3501f2b7bbdd8da73ea81ffca347170bdfb6776a037cdd74c560fb4,
   0x5af167ebb259c2da88740ec559ee04052bb66480b836cadd0e2590c32d7111b),
  (0x6890d95308525f0bac9dc25cc1189eb92d29d4b3fe61bc8aee1c716ac17b1e8,
   0xe6f23f78e882026b53ea4fac6950e56e3da461e52339eb43d2fdb2dade7ca9),
  (0x748f4cf4f027efdeaed7c7f91ef3730ff2f2bb0bfc2db8f27aadde947f7d4d5,
   0x3a1cbc550699411052c76293b8c41a3a8a1ecf12cbbc029a1b2b6ea986fca93),
  (0x7321f3f581690922cd0dec40c9c352aae412ec2ccdf718f137f7786ab452cd3,
   0x5be5130c9277cdb76d7409452438ec15d246b211dd1e276ee58e82a81c98fd4),
  (0x6c4d6cb7e7ae70955224b8a912ff57ca218635a2436b36cee25dce8a5cdf51f,
   0x32f8c03c6db3246946e432e4148e69f5628b200c6d7d72449df6eeac0998039),
  (0x1dad5f2e795ea6fa5177f110989516eacf8fb37bd6a091c7c93f1d73a2fe309,
   0x56b2298c538180e99dea3e171dbb5c6fba0bd0a9ed40537277c0c2373a8e2c4),
  (0x1610605baacc9bc62c4cc923dc943347cfece7ae241e746fbe6c2c878221dbd,
   0x431a82d657e0d109d00dea88cf3fa9b999845221b7b5590a20c40fc71368c1c),
  (0x6a4f5c787fb09a5be2b04d2eafa1e6f3d3c863ee22960eb0b64f6eaf6659162,
   0x14dbc3eaea6146ee7eaace5a91ed9430dad3a47e9ca2f68b455171f8fe6a7b3),
  (0x738415b73e55412b0e582e45ff0d7bf4b1bf2922db581783fdcc75559f40e,
   0x33825aeb3fd8459999eb418d15102ba5864b069c6ea517f0c6e9eab8d9aca47),
  (0x2603e72ce53985c70782774057a17944f7b4ce224a809be4e2b5af3606aa1d8,
   0x92822921809c42318f42dac4d773325f41c43069e990adac7818a45e2554dc),
  (0x181cd967ab4615357cc96c82eae9152ce7598c1a1dfdd91a458bddb016ae9fe,
   0x5d562fdaeb0e12647e230e50eaf216bed52fa73c6b7378821a3bfc4cd66d4ff),
  (0x1121726069b9ef5954ba6490100b226e0be53fef3e071b7c58a1286174b789a,
   0x4b25594cf4e9eb2d14b3f52f2661a9992234fc222c0a0d44517cb77deb9c16f),
  (0xe543663969b915337f105f80995a77b356f1a51d8b4a4fb12d44364130e873,
   0x34b2e3c009fdab4cb7349a580df2e64c0098a123280078e5da6623a9ec6b44f),
  (0x4e2f8909bb62de5ef65600e61bbf969293815296b6e23702875e049b3ce5c45,
   0x3cb81f2c21f22a7add26fa38a9ce5d9cce1bb251bd2698f90c34ff0a84f7af),
  (0x37b546e403a1ba970c17b67c2f1361ab9c803f8d2b5cd93803014faa08861ed,
   0x37079184ea46272f5809b523d060686633f7995167897a153be1772fd6566f6),
  (0x27bddca77f7bd7f66b3693567a4238f2e6751d95b0bcb409f6b24d08f84798c,
   0x6417a85cbfd6fc02df560d3963a241a986baacdfa423f65d7227ce49a96c57d),
  (0x2de71a39aa043057d1bc66e45f804542acddf18f7a6d88c0d7fb0ca240debdf,
   0x306c1ce39ab46300f7cca0f3a2fbfa77296a27e24bc66b0b8044968ec0ee413),
  (0x307c877154364c0c03534e7327d5a88e1380ceef6481567ade37a14ee7c1a72,
   0x3404bc7dbfb33b95d922d0693aaf9358f77888d7d95e773c38d83dbe2e5f995),
  (0x79f09ff7c60850e5f5ea020722659a1ed27db4c95dca131f99552f785c8afbc,
   0x40429528c099349b426ddbf129497176951a64a53db5f9d8bd2be0252cb22b2),
  (0x4027dc6b56d446e5972f35464eeac85c5254ef377c902d9fe37aea841bb5292,
   0x7c3ea37689ef679fa2f5c7e031a78e23d484a8317990fd34d44d95cc1db3717),
  (0x645dbf78a3c228c4b7151450b5e65edb58e71f37e1e4bc5f471e0f1abd6d9c2,
   0x15cfe7850f327b256e23b00627451560c5c6ab60db78d45b7ab286afb6f13ab),
  (0x1503ca373757677ad1d911a2b599d01c46eb879d1ce21ae171c7e439846a85f,
   0x583eb269b7030da6a0c324026919de3f9489d2ff6ae0e6320c36f05469ad66c),
  (0x66e1819ba3ec4ad4ae9f7d7588d23baa004e29d3aad2393d52af204a81626ca,
   0x505249980cbe6273b82ad5038fe04a981896f4117345ac1abcc67e2525c0ee4),
  (0x5ec20dbb290254545f9292c0a8e4fbbfb80ad9aab0a0e0e9e9923f784d70ed1,
   0xbdb1ca3a859227cf5d00eaae1f22584e826ed83b7ccdb65483ed5213dc4323),
  (0xa5c1a5011f4b81c5c01ef0b07c0fbf0a166de77280f0ae241f2db6cba15194,
   0x4444521fb9b33d7dfeb1247d0ee1a2b854ad166cb663d9dd2e686909362a689),
  (0x1f35335de40e00c62642dac2fda8b30f071986ce4f11db849df11bc45ad4e0c,
   0x7801a2c761b90fd4477ba0be9a775003d5dfcd959b1ed198b4681f15e7acbf),
  (0x48db4798cf6821c1ffb8178b1d3bb6020e04186c96aaf4670972d367f4ed5f,
   0x781019494df95b888f1578f1b4a3f8e125ea60eca47ef9207a10630671217a3),
  (0x17f653d904210148a8e74d8e719a3061683c164aa6d79c902a19f185ab437bd,
   0x6780e97985932c3860d810af1e065d454b1cb4be0e7ffe2d8cea7d52526e223),
  (0x5c4d0c7432f9b0070436240f9855adae1467cdc9826952ae01b68cd52a3ad89,
   0x1c5747f968ed91261b7ae9bf1023c999da9816e37de602d6a1a50d397752bff),
  (0x6fedd7639fdaa2f7bad4ca0b391710f6f8a7e890250ae8ae4252bb8b39a1e58,
   0x436a215f655a3fd3778b2335ffdc9aca6b98474e43d764c1f8362830b084f0e),
  (0x7fbd45a889c5e9d127bb4f8474d6be7cb9796bbfff923b75e42a1ad4cae37d6,
   0x484bd12622a6ba81cd53049c550d9ed682a8e765b656b1cbff9bbea637bd1f4),
  (0x17d984d47937263f7966a3e7b1eea04071e678494bd749c9e02b48b3234f06d,
   0x7b341ff08722c4e161005d0037204a7a2001fdda7af2cc1a0b04a027f115a0f),
  (0x7f1822045db45ea07e1519c3ee1f7705915f35fe4dd8db1e8921b5d1c740edf,
   0x33d41e06b93320ad1b3d9580380ec797a05dac3f1cc8008899110ebefde2f78),
  (0x7b19453ecb74b7d0e2a66b9890ff73bfbbcd61a266abd6d82dbe665bf32f34d,
   0x6dba2355420dac582b1f349609ea1c89b89bba2d1a68a0642f1dd12d86e73cb),
  (0x273e82a15f395ddf2489a95685bec8bac62c4b459d1b28987d3cb27e4bc9128,
   0x653375b48a4cf5d5b101c9ef533039bedce5dbeef3f59e8f168bdc99b06ca5f),
  (0x3006c9e7fc6a553d8eb4e8a47ce9f10d1a39576ac255ae9e0a4ce3869e76212,
   0x65fe9e2ef2aae608be309332d464f57e28f1df5de1a6a519751b056971f932e),
  (0x5e8f384c8a4607fbe9789fcc52d54249d304d698562597d114c1d81452d3dee,
   0x3c8bc78066b5d947dc1e405e326ee55ea606c7988f666748d259850fa259a22),
  (0x7841b2102e9aa103fb53a642b3e167b21113ea44751ab38e0b5ef8312654db9,
   0x71bf5c8308fcf9c4a7847494cd9bdd946fddf7d3a37e8bb0b201ff2343deb8e),
  (0x40f68027420c11e3ade9aae041978dc18081c4f94943463aac92d887f922a62,
   0x499c6062594a6c7e21a3cb91ea451813393bff365a27a08f1a515439b83cf42),
  (0x6ce77a50d038b222634e87948df0590b79d66087b01e42b9b6d8fa30ebb1465,
   0x35f5c46bb1be8555a93f155a174d54ec048c2ac8676e7c743054ddc52709d37),
  (0x604f8b9f2dacb13d569262864063c2d4bb2b2cd716db6eeb2b1eeabc57746f6,
   0x68c6799e24f3b44eec3049973445174727a66970f1614a782efa2b91ab1e457),
  (0x73d620f3bfe77f672943d448d7dc05327adf64b8e7af50039c469d7f7c994c4,
   0x4859deb36eaf0c802f0d1514602368143a33ec6ce8fd55248b59025debc6afb),
  (0x3fd2bcd1c89d706a3647fbd354097f09c76636e93ae504973f944d8fc3bcc1,
   0x677ef842cf5eb2444941f527abec567725e469469192354ad509a26ebb3d0e0),
  (0x39222ea924ac17b533c72ffb2c47ffdc11d6a7f7c70fbde3a10fb0b8f35eb2f,
   0x20dc4bd1089019bc1d7379b4feb3eae6eb5af59e9f253845da9fd633057e952),
  (0x326f58994e1347f62e4102183215b5db956378d2f61f14aba4dec94577f53c,
   0x7a03284c296003bbe05178a1d82efdb7b8125511d63e20e50aed789c2e52e1),
  (0x53aa8939c74d4ee58f03bc88bace5a45c7bfcf27466201da05dc6723a5f5632,
   0x2e32535ca7732904a048183247b04b426ecf9b39fc393a9cebe92fb1dc7a7f1),
  (0x6cee1a03145e93b3e826e6067005f09c06099c98198c91c222407ba5c8c132e,
   0xbeaecad1274e7c6e5476a100c271aa1a6f86ee5a9fa5c2f26124d5886fa63),
  (0x3ec659b8175e1be1bd5a252108714776b813e330393f587814f5f1f32a73332,
   0x529a5cf9f8c237ae69a94217d173c8d19c156952041f5c980da557990863fa7),
  (0x3d66ec5963d0c534d4139c8cef2e1ac48b3e7965fafabf58be26f903318af4e,
   0x3d3f2de7a95f59b683725ee6283cbaf31f97c4b600df9a4621413223a468740),
  (0x7fb38ace8e0932fac2ea0d3eb676db8d684db1817e2e4d59da7996ce398b4a,
   0x68f92bd5768cdd4710249f9d49ef1d5654e497b9a4ba10bd2971366d83fb400),
  (0x1c4a49314d6b4969cdd142c76ceb7682bfb868ace7f7568b0fc8635bda5a9fb,
   0x5fc0519f1f4cc10b5771312458748c036313b87707ed0540026ac64a5955aa9),
  (0x3073c95d08d3b97caea5f0be16b2789bee766f76b7e5499f8ce8f96abb0f344,
   0x52a8974b4eb9a1f6a0ae2c83cb4715bf18d73f057255fcb3f63b74f7e78f590),
  (0x44485b16d597a5de3604df6f7ed7e00b8aeef9e7e8dea8688255153b8bb16aa,
   0x6cccb0ba170123266f24b5d93a744397dc2c44820edc4f8f5b9a0f5c9b3b940),
  (0x7618f77b7b32d512688dd62e0b48231d9574c6361e8be353a7dc04f7c3a115e,
   0x78ffcd16d80636381ca231aae70d99c9e20298b4f5388fd823ea9fa2b8ddfd9),
  (0x7dc82fee1ef95cf5b3720fcc07f63246654bfe39762627839da40e51c75654d,
   0x4c0ccdd70955da74558de20c88352df8a02aa97e4d5971c500e884740a8cb62),
  (0x7fa5d460dc10cbb418b444d9bde97e92c70a99a222b99f244dccee7e62cc04c,
   0x636163901baa5b7576c38c43407af578b8c4607e01e86011ae2dde587a89f84),
  (0x758930d46006623a756c89bd0cc378f6a3c1f43c9a0edbb42274c35e75c16d2,
   0x1d74dd9f81c2fec811b8cbd6168a745b0a111932b2a345265ef2853b50b6245),
  (0x7332ee0626b044d664ef228f8cb84df7c643e52f6a2591ae1c9007ad61ec16e,
   0x229bd8e630572cbdee54283234cf3e9f060e6382f99943bf234119d47b54470),
  (0x78a16ef803aa20a075bb2f66c61bb2dae5698bebb94a0995fa74c3d53de1614,
   0x246d588b68edb6fed96c128349908c42dcd64c46341b205e79f4aed9b5d3675),
  (0x6e1933939bd03b67bba753cc0cbe7d2f25bad68c993887ef8c9e2fcd59b0647,
   0x599413f7c204a11a5ce315eab11299ab7326603412bb00bc1c59ff75a37d6b4),
  (0x4a79957a5a1888ad063b51c69565a2b48e8eb917183e220a1c8d3374526d30e,
   0x1f092de0e069bba7fc5386e2e9a114c1618f88c4b95e220cd35ffe96f99fcad),
  (0x3148aa3df9ece39aca84f59489f2710522216f14be6055ee0027529d1d55e2d,
   0x617e9a52a92975db0ba1977f71116f7058a0d31b869ac7f3ee2fd80b0c5100c),
  (0x5c1188e72384160ae39d07328346cda4f6c12d227448e6236f04dc971625287,
   0x1643006eb3a3bc6aafd5f685cf054f2a572e6ca58c0118bcec0b833741f116d),
  (0x3f72efc93c9b71adc4c51d8fc69d3940b20d08733af2b7d05140fdb1d1c1004,
   0x7399259987c8f4ebfab46e522380707e58427d3962ee0c2a91760813f76d232),
  (0x3129b34c03c51aa8f611e91d5cfcc9bd3ef108ee66e6d3ee35a0e0e50055bb,
   0x563b18b5650085efb4cf179a029e6afff27b1d3091cd28eaa68d24fa1f801c6),
  (0x16eac0f9fb4c67cf89a7fa4ee615bbe731d8edcb709a1b9b50c7d873a530f52,
   0x7ff8288b6e199ca8f316192881424a37fb080c29daa76b1f0edaccaf580a80e),
  (0x75f6b6028c43ce832f65d7e8e620d43b16cba215b4b94df5b60fc24e9655ee4,
   0x35e9ccfaed2293a8b94b28de03bcb13eb64a26c831e26cc61a39b97969a2ff0),
  (0x3c6152fe093bd6316897917ec56a218640ec1b2148f21db9b14fc7a5ff362e8,
   0x6eef2df27ae7d63a28856b07b73e7aad7ca94f317201a1e675ffc6f9a1710dd),
  (0x54e01b5fe4fd96052aad55b3f26b1d254dfc7e2525fffb9ae0a77eb8cc5579,
   0x7c3d39232ab333675b219abc766ed9b4782c840e6b046614dedb8a619696eb0),
  (0xd1e63f8ea8a76429cf254a6d3b668761f0dc572d4bfac4fd56d9eaf58fb6c0,
   0x2bd0a84d3908a63085824c9329a0983913006ba155b56a58eb3f9becab29c45),
  (0x2d6122f2a702edd4da7385b1580796a71d13bd72be94cfb3fec01149c006c2d,
   0x70eb282fae992efa6f5915e578b640653549f23385ef3a29ab29b1b9b8ad63b),
  (0x752fec14beaadb5ddbba6b3a17fcb86579fa588ef407fad0ea07dbb22a640d3,
   0x3feb6728eca21a1e84e8f9f23010387a53a96a1cb62d86fb37996150a1299ef),
  (0x63f94a92f27acde8f5ed949b459506f51d70c85bcc61a34d647264ecc53c65e,
   0x37e5dce0646ee66f4fdb93b82d54d83a054948fa7d7fa74ab6b36246fc7383e),
  (0xd6aa909287a2f05b9528690c741702c4c5f4d486c19a46c38215f52ef79c7b,
   0x5ebe1128dd81093df4aca0df365d58adab848d1be1a94b95eeb649afd66a018),
  (0x12866812b3053e2f7a9572bdaf5ef2b48c6fb62a0eed9ff0356df50e7d05557,
   0x6785f7eb2cd1c120e4c7167b46861d10117040a2e9f2ca86a71e9d67df90613),
  (0x46a730d05330b1b13673cb8a1b8f45460035e4a9f1a1751cfba099c4355c1c,
   0x76fb0ec6cd16a8141cdcd875c8b2de9fce42d296072643d148ac7e7fa7472df),
  (0x4bd4380a22900bd34835e0a908eacf4b6edb61eda0cf483f9212453b37e7516,
   0x5e9551cd20d8d7ddbf4366880b7d5267385afa1966ff30da4baaf273b009d29),
  (0x71f1994ad40baa2922424ae222663a64f93d8b67929e9a10f9e4c1ab19f3833,
   0x85320fe68ec0d37cc19fdfd03589d66906ffa4046c80e1b094a85f27676346),
  (0x5a63b1bf5232f28f808765c6be7ce1f81c52145b39f01c879fae0f4303bee61,
   0x3bc5d6df68bb6d0577bf9ae2ae59ec0e9b2dc7dd56ea179fb38a41e853db950),
  (0x161ded55ff1087032381e6c1449704f63ad2d88df82dfc44a71890fa09b3941,
   0x78a52e0013842037274ea75daaf8eb4afc04ccc4b07bfaf3f5ee47d165e01b),
  (0x1bfce5229c5fbff5c0f452a22317fcfcd9262f23df41840f84fe7d44cfba1a1,
   0x66b387872c00e63c73006a955d42cf49c46c5708fc9d1579b9ae38341b24a3d),
  (0x56d47dadc9cbd1dcb2ee3efcd5d4af5e6aea71df10815c68b54a14e81d11b44,
   0x47e966ba54df48e9b612a903685e0060a67e4725402e8cb4cf654e54e813a3e),
  (0x4b1c44438afd4ddf20a2cf612df2ee494ce84c7274c5529e857693e73018491,
   0x430403bd31d8f0677e06abff7159384560f27b9622943fea1a3192f14bf40d4),
  (0x7f7281728fc2214aa1dbf13176a4624b53814734abd570eb6ef7c7e32379606,
   0x312da47be347fb3fa2c9089b38df372560dcace2effeeacab4d96ab11567295),
  (0x16a28884a1be8183e0d3fc0db84a9afbf47126fd3be548c2a584aaafbfa7dfe,
   0x7c3f57b3b895564ba562c1cd80b71fda6d2e611665c6ab87744f5390858fe24),
  (0x323339f37b327a731232a9580e79952063c7c232bd1380146d8a83c285f4b8b,
   0x4f16be1d983c7232f92cce6b9690695978d42cecc8eeb8c206e125d1098a265),
  (0x624d26cbaa197e104eb83cebf2adeed09a5cdad359993fe5e3529d4d0def21d,
   0x261b7da3cfb55c788977e0d8d640e3e93ae5a325d962ce85c816d7d32cfc430),
  (0xf24ecb7ee83a3e28dab54a330dc93d0429a7aea36412e922dce8fbff40d60d,
   0xb043e36a258d1df1d21b0cc7be9c4dcae1bd4ed326c110e668ac23d86805a6),
  (0x686cea46b710bde1231483bfdbc700cfa3da6ecd5841c0e0c782f9ea24328ec,
   0x7eb7407aa58edd6911c7c7e8d1e03bb52ead4a2415a0c33325872ff3a521dd6),
  (0x3866ee1186264549df3dfcdf8705c0380c9372eef6d4081c2454d3aded1720e,
   0x634c6d3e8eb8af652a4be73e3b613452c2213104ca875b66b4b15ee5b1716af),
  (0x484c687cd2969a1d20a58cdfb9a60f280a473284503b1ecff5de514aaf8206b,
   0x34d44d26b7427e51a646d1b924084762f5b461685450f21d6a472de565bebd8),
  (0x203561333771fa0fe22c4033349f7b877d15b0542a5598e81e067968768247a,
   0x2b6a533aff6e2163a36a2a89cb7415848bef48db40f952ffd380f47676707c2),
  (0x2ffa6cca6233695760251206fc5e34c8d3692498589478cdd3d5b09f0b7c05d,
   0x6c57d605478fa9626c4ed769554d075daa53e1a1d0bd4d94174d3bfeeb11ad6),
  (0x5dccf0fa46a5571f204d0b033b45f299cbb3d9f80fded57253ea4f1c64faaef,
   0x30a38e131ee8756ee5ea2a3e16618a5dbc28b5b9311308bf037ecc2039dfc7d),
  (0x57b0a2eaebeafd950221facdd24790d7d1ab8883e5c5d55635f0d14a1ee4741,
   0x7b41cc478fa6be38417271db8ed12efc0da6982552c1496025d2df0576bf4ad),
  (0x611b5725101f611c387ccaa13889ecf3bb5595071a179ce350029bfca4ad7f1,
   0x3129755977abc8995fec7eec1123a1561e429fde37ff36af002d3211831ecf4),
  (0x1c06bbd0c52fdab9fcaf680c7a93fb821e538a2ed79f00f3c34d5afb9ea6b31,
   0x3873d3bdfe0be0157bbc141198dc95497823cc222986d24c594b87bd48dc527),
  (0x275cdbabc989c615130d36dabfa55ca9d539ed5f67c187444b0a9a12e5b7234,
   0x2b7f723e68e579e551115d56f0ae71a3b787b843cc04a35b9f11084b006521),
  (0x6cc702eb20f8b5940c7da71f8b1801f55c8c2d8e2e4a3c6c983f00bc1ffdd95,
   0x5d15b3727bc66f3aba6d589acdd139fae115232eb845abe61fbdfc51341352e),
  (0x44defb418700cee8c9bd696b872adb005490512d8bba081f8f99a9f15cc981c,
   0x3b2072cdb1d919b2b65b5cb3557f0a3381d7ca293c267ca4a38f83e77bcc96e),
  (0xfd83ce77b1578b3a9b8c3cbeaddb1504d2fd4a19c901c21ac65961224e4966,
   0x110cbe64fc10c6b9c66f15ca406a35f50b723b35d83c5eb9797a57f8395f4f9),
  (0x9dc6ff90e341875e113bbfb507724dc7095a280d2f32cb6ba61a1e0c2d2aef,
   0x4aeb622896c852c2747454e8f172c9482955a42ecbe522d6ce07ecde79d0a51),
  (0x71c58b0e47b9dd9107ebd8a8c8fa9f0534e78231bac612c1ddc7a94edf33eb7,
   0x7f90edaf4792bf8334adbaa0f4ee7c654312725af188682d75f34874c4eccb9),
  (0x1f6de1f14988778ceb2dfe844f92394f1f1e72fd1581ceb3bf336c95ce50345,
   0x4f6007ed4e022d2ee9fe4ca8207c5f6c766c4f3b85260e941fb24ad0dcbf0bc),
  (0x3ddc3ac25ede4a67a97547ed27dc920239b585fb3624177e2e8d59eba678115,
   0xa9afd8f8bb759cbd1dff2addc63f47da4ba1291ea34229c09c0637dc5c8d24),
  (0xc56b0269d8431556e471cab9d70edda3a37b391696f107b2dc370631de51d,
   0x729c52f6b134f733eb750c14bd9f95c077f0f6f6ff4005701e5bedc6544599d),
  (0x44d32ce19ac6807cb22e4f25fe1486a36a13926f147fbfa054b63ff0446177d,
   0x212a21e8c124c9cd37c80d2dd66913ceaa6b6f666522f115c39382b2d5925e8),
  (0x35dfc16f3ae6ccc06a267bf6d931601e52f3e45359ffc513570b65b96adc4f,
   0x74311d10f4bece01b5ae65a6affe5c931463aa1b73a3320eeb41bbb7bb1ff62),
  (0xe0acd9d2d907031b319b80121dc90699d003d220ea785d50e5033cdb3b1a03,
   0x3911ba78d6e507485d6374b0f7d2e6198f6462a7d6d3cf046404a07af690357),
  (0x3c57918ca254c0cb7dac251ef4e10c7d82327969552eae15d26c4c52660922a,
   0x5fd5f5ff3f14e671548074114c72c48409df8a2e71fc8aa3c8acb506e2a88df),
  (0x222ad8b61e219ba2b581f606b7c996516850a46a3db72fe1f72b5a9be6c324c,
   0x72015a5e2db648112abd284fd867b59fc5606645177d26cf6e9a655c9912d42),
  (0x3c86d5d774bc614469768ad38f7be9a53e9a233942c5c553b82e49aae684764,
   0x480febea8229e130dedffff89c11f3c43e11724e6bd89d5566d78752859d41c),
  (0xadb73bb8352d0c10175df371f7868ef2c9e0c79ac788430c480c0f7d85c187,
   0x60b564785248111502e6f39c4994d6293fac22bc25f4d764b2fb1957d3c9bd8),
  (0x3836ab8b46cf4f453a22532c886940b982029b29c42adca90ded5bf77e6bcb9,
   0x7b15e91d6355f147b171a90b064a9d8b2d7bf3699bbf4987664c61c950d8996),
  (0x12ed96af1a97c45ec31f1531e96f6fb28a03ba52ab8484545fbe0dddc97bb32,
   0x6d1f522b6c6cad0940cff8e23decc72bb8d4164696af031415508b025aa8be1),
  (0x27382994ae5878223ef802e9b4882f481a1b4008f1eec8484483471f7aa742b,
   0xc31750d242b3975b0026a0e86ccdd17d0f680a8c6f53f197fc25eb1f777917),
  (0x431677eba3715455bc235557518a74f3b111a88844ef13e159ad44bc16de3e6,
   0x30000e1eb6a17d9df776981e65c6e500fded1ac12003adc9446b269812c9197),
  (0x4b563e6f42589671579eabfa2cda5502b361c46a5ac8d45c8ed44741a925b33,
   0x627bdb41678443fdd1aa607709e9699b652308615f4bea760a3b79ee0d9ab5c),
  (0x2932fd3f81fc973ca9def6b7f1bb50f980fe589187cfe9e9f52ba4d356cf2c8,
   0x1e6bfd00fa976c4770263a227048214c38850fe0f059e7b3d2c7871ef07d68f),
  (0xe44e4f3d96d9dec775b996be57e57fdc28e7c68023109b221c414a244a0dbc,
   0x58b1e52fa274812e5184e00e9ad812bec2463140adfb4bea3b2d665867dcc9),
  (0x7fcb89be1f4bec745887bb891e53fefd665c53d00a9e74de16b8a7e1f7adfb5,
   0x74af0b06633f779897e199609c71cc5649bbb65bc2c0abd4c678f0480c198d1),
  (0x62a381ffb904ea3ff4d451d4c8459457cdbc3dc2fd2da646a95d8c1e90c0b7b,
   0x1ba058658e09db9e319fa73de8ab4a992b71e4efc22c273725bdcab84e2a315),
  (0x1b0fbb7a84c67e668450a54449c7a46261a2d355589f8b84ebfbaf9a77ee938,
   0x44f8fffa33dd33a6146c35d196595e22cc4a215f61ee9197cd751400970a1b),
  (0x78fe920bd96a356d4d95ee34adafe8fecf071d3107c36f047b4024ddc4b3eea,
   0x6162f29607fdbec10181fbac6e57d5cb41b922c5791fb24bd28bcdd75d16c41),
  (0x5629b849e026e65d119ac11821d7ab7efd9c52226f75c7427505d6818bb0c8d,
   0x1539c0f90970ee8b490e45bbe5568170e5708521a0e59f976be680595906feb),
  (0x62bc853f349bac8c6e5921d27ba85dbd9ba20a375d70a7bc008928f3e123b04,
   0x6acfeb1de05ba43c3ef1a9110a983a320e77b3ca294abbc04aeca19b194f26f),
  (0x4cf4bed663464418285cbae359b5d84ec76b5997d24f3640984c7663421190f,
   0x941f818e3e3e8fb1568da85217d17f9250ebc948379014d900a7b1a848494),
  (0x52ff3d9ffe9a302f6dfaaf74bab57c08027d5cb699a69b30830540c0a2d47a1,
   0x987dd8876873778d933fbfed37aab2f7d6f669c37024f926b1edcb2ca55782),
  (0x1109ee32f0bc53de6bfa457060b366e909d7c18061ec9845f46ac715496897f,
   0x38f36f172bdfd454b9285f86e6bdece8fdffc95182c7d801b03c671cc55139b),
  (0x4b4482f1d84efe23dadf3bb10df3dcaa251312dcdd604f616f1eb540e1f3232,
   0x7c9c149dcae9135f940fb54482f9c3cd8193721643a6e23157b8020410d439c),
  (0x69cb459b9e415b7581ca163611c470d875971d5d7949de732d1f0f200544a73,
   0xa7136fa9dd00c0469863b7def3f83a5611ed628810d7e807e7a873da5a9897),
  (0xb66a4e32ac9a4baa8f64780acd94ed3628b2b0ea874ba4dece629af65f9e62,
   0x24328ba9996a24389658e3467b8b90dc3927ef8419fe28b3f55b1c1aaa51915),
  (0x5ecc3080062dd451236de0e4eb91c5c75100733364bc5469f5fa76f79021ecb,
   0x6da4abb9031a27b5be94529324fad8026e7d871570780081b0f424d4fe543c9),
  (0x1e3146f00880bb22486d5bc73e54367d54251f4002bcf342d0393b05a4b9ce0,
   0x23b6fb8e945d3205f633ba724202db5a99305f807137edf942cd60eef867699),
  (0x2e1da8013285598b899f026c6974185db12c97b4c63509769d3d4ad1d18a4e5,
   0x1e7e7b668674d1593c39d58bc7bccbf568208732b3519bc2cdf93db34366862),
  (0xd26c3f389d81709506f184b53871497c8d36c5c9eee8e3737358204c1acba3,
   0x34649c3d39f3b825947fedbca215ae30c5a5995e93b1c8efca4944cf85a082a),
  (0x91300478a83595d548f32f259033291fc7d083953b0b8bde88c7559660c563,
   0xe5d2bff57fc6551e9b80c06ac7314a71907cdcc66ce82f2cce721a670df10a),
  (0x1f7abcb9d462c63ffe92aa56619ae8590089cca4d93ee3e5f34a63882452cc7,
   0x7e9f85c7b7ca6e9a4f3a026d1048adbeef69ea9d876c6f647c257b879a81bdd),
  (0x4d2caa1323012e4c83b0ad387308b8aef5637bc35ddd882e7f5e41cf2ca410f,
   0x47150e808c81a540b6f8864e9d6636589cacaa516f82caaa96506edfbd6f0e),
  (0x3c10a6083c38351deb3e6d1b386827d0acf48979b66b95249eb8700ec26b069,
   0x47e34bfe561d903cffdd1d849b85aa3cbd31cb4a9bbd8cc2e5fd2f95016cabc),
  (0x758bd54868eec045d0b4d3d2bc415d24bce13fee47cefdfda46425c109b657,
   0x3392a7c66ea3bd7b044680bbe9f78ae86752097404c067e9d2572f55330df83),
  (0x19e718e0ca1d2d6fadbc6006ee7dda7a385430e29f5e239cdd4bb7c3fdcb2f8,
   0x5c68249b7fe03ea2e13481a63b6cd4bf74ce42009a89fee0b3f8f968b3ec709),
  (0x28077f57ea62401806367e6d54fe45d02de5b072db787ffdcc3854e12a3e855,
   0x14f3762689072f5fb41d03e94b01808c739f6d42b7b785b0e464100b150efd2),
  (0x3b8a8cefd017363ce867265af3293cec081fa589fe561830f0078778cbd338f,
   0x69ccf2383cb7b4f9c806d72535812483e7c5e9a1a5928529d64ca7e085e758d),
  (0x77878f388d22161a2953e5aca6bac1ea480e102f329574b4b201640d44a296b,
   0x7eb35706a90a03aff7c2fecca72659136547cee98038746db5aba16fd7178df),
  (0x97332e6da70961f2ef31b7b628f1018d21db8db015922a301fca7d6fc6a8e6,
   0x2e37b06f639fc7a82601b744570a2619e543cbfaf60e474107fcaf4686d3223),
  (0xa81518d452d3aac48bf0386c3ff170ef4e684a4def242c964e129c64f4d647,
   0x37506e44c85908ec7b7adda9547fbdcc2e3605151fefa77fbf127ce3bc938f2),
  (0xe80336b2220b1d666074f6b0dac85353d0e4c2e8bd0f37055a2236a6a9fadc,
   0x1cae76d73eda7a5964c5d9d3ad6748aff51f5543c56441d2fdb7b444a39846a),
  (0x2c01fd8430ecb44e066f352c4f697fc9fda177dbe162f82862d7b9ea8c918de,
   0x6e1dfa99640fdf5b30603d34c7c97c1aa6e6b7f3a2c52a21fc64b0fcac7d591),
  (0x744e37b511cd0ddcfe15f3581947014c159de81ed055d15a13c7a2d1fa39f0f,
   0x685caa8ff6979a6c63640ac638a3f9c75737f2031bd55322a47384357af164d),
  (0x40e627ff84e1a7a9068b4368770f5956128a4d9e9e33e9cf5e24d9a242149fd,
   0x2465bd6cb20bbdf810e2bc5c3c458cecf4f3aa163a7ac99c2579e5f33417f2e),
  (0x5f635af7f554a17bceb6ccb6e637abf89ab6dadd399189b0a0390e87b1896bc,
   0x2aa6238a69f89665646c0e3ca2ba5f709cc6e14351cf71e1b00ec45201417a2),
  (0x5edad3063c9fa8305978d7e6a4e037c9fa519b8023c7608dfc3b66e5c1e8985,
   0x49f405d07d7d01919da51159ecdad1031a5ac208c026fdfc14d38f633d92183),
  (0x2fdf2e8a45858c12926a1f25a62255fb2d02d0149a15ef669f859806683e649,
   0x61cfb686bb31e2524470d4ad2ae09e3cc91b16305a21d748098feb1d8ce3b3d),
  (0xecdbd7c37f1dffa3943977278da3bb429afdf948b4ea6cdebace3d3be82381,
   0x190b67fb34f7f3ad6afd3d6b6427aa327547d8ac0fb4deeb0feeba1f63d6c60),
  (0x233021b483f578dfa5222f8cccba5766ceee0ac65f6d4a3b1673b302a21fb3c,
   0x7d4b6d44d175d4b593f06f5a6dcba2cdbc4eaa2097abaf613123546866cf4ef),
  (0x42db4e953c2a7a743de9fe20c5798f2247f51db4eabc6f40e86c13909a310ce,
   0x12c1a0764a0b9f3666e431923ce15e7fcd0ded5ab153f0b48d362cca1604e65),
  (0x30d539e2b545fb957e40e2255f6463b52d227c9808472cee6a3d521aa283a44,
   0x5f9eccf747fe6313570f99e845db32b40070acee9ce9e34da7f3c29ca53a07a),
  (0x4bd64e5ade3e2733580a6116b4af328751198e7128f9acfe3a3496b545efb5a,
   0x4d584768900dabfc0dbaa086632b8051bb3905ef79b84d96c01514441d0cc93),
  (0x62d6e771f02e591557197d13c3e77dfa2d1794ac1808407bd8227c4be31b466,
   0x5c6f5607c1808e899ba36a425911fa8566b7ea9cc80de8a80538c0fceb837c0),
  (0x5ce406218cb2852b1d2fe1836b19462f664631785216e87ffbce26030e2101f,
   0x5225f107743c255ab50e7be4a090fe39478d1ef4ff558468559d8cfa87bb94),
  (0x670286486e8dda3dc66b0ed3149be7697d3e06c8279844079daa7e42d5af728,
   0x26becabe7430380c56e320f5ae3329569cae7b0af06fd5327ee23979d200eb0),
  (0x3ef448df33a4394c43e93e5850cd0c5a6dcb18ae1cd865d00fe8ede9336a9f5,
   0x56711f6ab7e0e4f7365ac34e284ac2879f40208c46f6febcc1dcf7146ecf015),
  (0x4b63fc130288e92f2d6ba238caa7a6364804e29829ac037c57df32fbf762bc3,
   0x1eb8c80af55278b4113286c038fff2bfad2da62763bb03426506b869139da0e),
  (0x4e7e998557b29a95f805a6e2e26efc1e970108272d4755738c04f28572295c0,
   0x97cfcc2f447bde61bde71049d8200a74a3028b21703bc139143d81a3623f09),
  (0x574b67898f02964c408f68e9470e7b615be037e40b824e6617f89cb56c21219,
   0x49392d5f8e6740a1b0b7444f56d7a17363f8656c6e4c628678c86223f2e46c8),
  (0x7e8cb50ea5d5c1b09e219e7305bcb601d99b6d7185b1c388aa8e36fe1e56554,
   0x47fefa308645455c12ccb5817da338f0c4f423b341aff4a9d158891a4fd69ba),
  (0x67266dea9e71b4ed2bf24a597a823dd048cf31e725db511edceac72998c9ef6,
   0x39babd65850befde1f7c28e41dbdbb4caf82bbcf3bcb5b33161f1c2960b2d8),
  (0x63e99c2cb9c74eb9227d48065e27abb8f606df8fc83b2c44e4ea38b046bad2b,
   0x60494a53dd13ecf34e08079d343c88fb655d6d810785af81f08d5aa9bcdcf9),
  (0x3cf0600b0f5a2a4eb78c487cd385350e8c7848e3f6983231881d7f1bbe28543,
   0x56dee4288528de609976ef6b903b652127c37b0590e91a2fdbebc3f11df2628),
  (0x758f09245fa4b8b23d290ee2b3bfcede199b4fdb11f3cf2502a8ceedd61b129,
   0x622d9baadfde781e985d9722e0a04715666769a4cc7a9bea0b96d6386be1746),
  (0x38e1a45b81492aa95d7abea2b08b8c14dc0b8a41108b036871fb737910ae18c,
   0x145c611262656385e5ed6243568cd3f9f59dbfed7a01ba11e22bb8bb272e08e),
  (0x206e54ca53a2f155bd4fc45bf2edb77798ae6623defd4cf22f2dd4a7d119dad,
   0x6c94e7f0825ad81680e4cdbcaaaf4df806d57a0d1fb2331926c3fe2b79d22e8),
  (0x56e98d2862893caebf66180e84badf19ffc8b53041eaaa313ae7286a8fac3d,
   0x526306f9c01afd6e0c1198ea5de17630f5a39c4ecd02d8e6f0d613c355995c6),
  (0x4fa56f376c83db33f9dab2656558f3399099ec1de5e3018b7a6932dba8aa378,
   0x3fa0984c931c9e38113e0c0e47e4401562761f92a7a23b45168f4e80ff5b54d),
  (0x450cfaadfecdb8a2fbd4b95c44cb1db723ee5ac9677c9c188b3d7c8eff4ca58,
   0x1a552bdfc0c81be734f1f6ca9a6dd3ab4daa61c11fb53ebb7046eee25d617c7),
  (0x6fe20e5c8a8004e33eafc84d16ef770f2f0b7bace19adaaa150f987d295a34d,
   0x28a35040a2ebe9a14a162d3208d5eabc6e2f3a8310f926bd80be65aa71775e2),
  (0x1bd65f45a35bf62ae8f9ffcbd7de2976b90518b6820c219f039c50043bb1edf,
   0xfb5f0f8659f9b6ed7cb0ddd7999506d0c20b26bbe69d1915a31842cfac41eb),
  (0x4ba4cc166be8dec764910f75b45f74b40c690c74709e90f3aa372f0bd2d6997,
   0x40301cf5c1751f4b971e46c4ede85fcac5c59a5ce5ae7c48151f27b24b219c),
  (0x21cfbc678f5a279ebb6ed124273c8df37eaf12a2d04180403ae6b5ec0b1e1ef,
   0x4478ed6a346d899ad7b0b10350270aad39ddd5b68529297e4c91a54357f0a7f),
  (0x350bfefbe3d864eaadac9cc1195c14159bb736be743aed7380d2384cadd2046,
   0x5e2a4b3ad0e1d7b9b8ef72b10d68a80e5ee691d7db591fcfbaad6240d41da8b),
  (0x529acd569127f73c8d34345f87e96cebfb48ee12a00a3861cda209337ed94e6,
   0x3120671a89b705e5bfd99b0e7fd2118b4914a3ac309b3d74527cacb5ad7491),
  (0x55d3d7956a97d10e65a4d8ffeba40deaf0db0b57f8e022cdb3df6df613f5c6d,
   0x159e59a6f92f48fcf85aa96c1a03749a4c4e2cf9e2bc94dd36796daebd9b8b9),
  (0x405f019ee8f2e972a005c549b0884b5051f63d1e78480b73208dc07d8c65a1f,
   0x4301a3d0c285ad309ff24a12c100ead7f48ba1368143712f32ac141ab4d9e8d),
  (0x376d59b298d982f02dccad0edd5bbd4e5e8fad7898750675ed0856850a7babe,
   0x5233b12bbc50564eb61cc098a17d3d97f06ec7a230380e4c5d3b725cc318eba),
  (0x2f55624af6109ef04b2ed035a44a904ace8627f55889f011f768aabf4de9a38,
   0x7f64209ce7dfb63337ccf3d8c14f4093295f86996cabfee23b1655549aca089),
  (0x3b8965e942bed2714bc2e685fb103496e1e3595ac6a343d6df45fb5ef6979ed,
   0x5b7cac7a165cb69ae103dd9052fb39c00ed0aad47989005aee53972d82d45b5),
  (0x7abfe3accdec1eae1a50049efdd9a8eb7c2921a08e8bf1fe606e9d5a4039ec4,
   0x3af178e7e831f8148244d2d2b284a32991852db6212ad0a9d77540ef648a5fe),
  (0x4983196df6ad7d6f0a8d76f86af3863ad8611374a03fc0fd00793181dbde9d,
   0x204c1f91b70f975a21d24a8face664e496f00f602daaafa69a3b56098a4cf89),
  (0x79e2b91c1531a3b16dbd53e72d94e16bf265cbec261658151acfaea3718ea72,
   0x3d9bdb47e8b148c1c5e9e694ffbc2cf71aac74ae1a85e8d8c3f77e580f962eb),
  (0x297efceec61b3be17565843cae465c52524b4ecd9331a4170f54f7de8c4556c,
   0x6ccef1733624cc8b973ac63dd54e7a53604929affe81c3439525ae5ed6af993),
  (0x44f04b1966264a23ccdc870c8563ad2efcd4c8087b5469b90e792287a5581c7,
   0x1c417f0e9829fa3d3cbb7c3cf4dc7aac04c5bf66ff3f86b833a42c533aed1fc),
  (0x6ff83f5d8b51db3be0bda80eed2e2adb7037f2f58f705e88f0f98197431ac26,
   0x64f59b8428894c2b7afd740866065ded42e716c7d48accd3f117f22768ed9fd),
  (0x14aa8187c9559f77cd1cf96b2dfc949182529936f2b0b4050ea56e134073b24,
   0x5f36508c68b1dc586f3fd3f4e2bd29c6d8258491b8a6aa19ede811ce0d3d0a1),
  (0x95e8882a68c5000d1c2be7c0b43e7f2a6f8de906485241f0285a5c73a27a83,
   0x1e4cb67207ab73bc1e5d19fa2146fde6d03021393b77a55df4ddda1fd28f5b1),
  (0x2ae0704dacb3da47d564514b4c3543505b403ba09a248c6e74593cba1867ff5,
   0x5a4b5818088dc9ef4066b90a8893ae80fc89584f987ec1928ef9d72cea2bd67),
  (0x61a10898a76fb99989e51c0e823cb60b95ec7ccccb917c42b2b28014f5fd94d,
   0x23d8ec1de45366d3b86c64c2da05a2ce3d171adf52ca5522e652ffd0eeee795),
  (0x79884133c879cf07734976fd64de220c5a972e04c2a3afb74c362d6c3beecbf,
   0x2aaa0e6d4891b792b5643fdf09873343cd0e3fbba3cbd0601b481a4083f32b6),
  (0x45f73d2fa82be6c5ccd0f62d2237efe8727c479967d27cce28e42b9a44bad5b,
   0x2fa4932215f72d56d8be5205c5851c9b3e5f2a14468e4a7acace5437c6b27dd),
  (0x37f53f771850f52f9c8f87b53c6bf0c93c2bed76f5fd1d5697356d0b2325007,
   0x50f1a052b79b446fbc7b93ffa1a4515f6c3be3a76a2b0bc5eb8ff327549960c),
  (0x71bd6d23e0d2f312d47582efa609101f15b9ccc571fca8ac4fe3457c67fbc9b,
   0x3b3fdf86bd4c7fc26d60540a6439b4d179dcbf7b91efb0ddc60dfbff9a148c6),
  (0x78219ba049438385b829c13a4993874a4a326c4143de0dd581c7b9956f99b06,
   0x5505f1268dcdd4ee01b77abac3bfdcbf3f0513ab097c69ff777b4a631aaf256),
  (0xb81e924a86536dcf68bc5a2ca2065a61103ba6c9eb0ae4cf8cce9dbe286f15,
   0x653a6dfb51acfe8a844fb8362795e5549d424aed88d3a090366a44f840b5b83),
  (0x441c0d7b7aa705046dc0e07ba5f33a7d9df23f694a05192ff8c2d7be2aa3fdc,
   0x4c06568c0902bb99d428bfa0a946ed0f0ca0a51fbf07cad88e06e9c78e38a59),
  (0x2569c8c78b6d6b92533f29f767c95720d377fa63ad5a3b9827ee0a74b0488aa,
   0x4b59c81d3cfe08834f946d9d57614f5366e0bcd9349475aaaebe01341196fe0),
  (0x3f2fa285a0471647b214eac652bbad9d58a9f2dd2e812aff0210d0d8a6eb32f,
   0x4cdb18e1c2848c2b52c1a6557165bd1a8f55c2f7562f5cc0b326f73c25b696c),
  (0x5bb5141ab4fcc5290ae9151b8045a2cd8391547ce7b3b33cbbb10f8fb538092,
   0x5a36bfd52acc6a83a9913b937ec086cc27fed030b5fa70dbc5d3c12c9515f56),
  (0x3f3fed272edf91aa7f8ca5d70005d390fbc67830ffc69c5fa3ae17582d2771,
   0x459057e0883c44d8776fa217405f443e5954f08c4a5db68e437becaa664a999),
  (0x5237ca6656237a717a739a4509f70db1b9dedbb6cd232f60c9bd8c4563a6b1f,
   0x56c7799dd02896dbe7d69dd8bb9718270549592099569d107b7b49c34bf5a49),
  (0x1cf6b8499ac881e0b2fc7def9bc1a28937033b2fc52de99e75909a620c7a281,
   0x5769cf4f735366fa386b6858043dc99a100f86fbc77b16d57d77766197ba27a),
  (0x1b74b8a6b86dbf9638cdb0601e1a332b8d880753423d38c3394902c57f15e40,
   0x6bb2dc10d2ecbb913219d0ebdc8d3337d644ed8b6c4e70637ef4c7e50887488),
  (0x61e4da415661bba52a4737e2bcde1a837787c4796b2e1854778534f1582c29b,
   0x27c43e632cb7652e8508c9c38e3b4ad0d3dd6ba748d42dc84ec2685e64b9aad),
  (0x7c460a204d23f20ce86596dae6ac9b36734e4a9f7c5b43262c97a36c6a41c6e,
   0x481a11f9300ab4c4bf6924c5ca884728cc361247377065920966785d043fbbf),
  (0x124ff5e55e4effa40daa5b9618d75c49c8b6fad95cbe8c0bfdd83cb9bed8316,
   0x33a2ea15d0f71f58a00de71acd7f22ccf9002115e49dd1f7631faa0d32f9987),
  (0x61c9f8fc86715e95ff43583a865c5a6515f93381839d557ef884a68637eaf4c,
   0x5877daaa42bbab9083b571e12648a9d62ced4470d71653092b6546f4a5acceb),
  (0x70a6b9a9e5d1fcc07dd9ebef6d8f5fcf04c6cb34932d0fe2335330ac6dc8d3d,
   0x3f0cbd332ac56922e886656bee74f6e9bb4bb88f7af7bba9098678af1f38fc),
  (0x41db8a0f1ea78443a39e08a54323743c8897eed1ddc28f41aec6f2655040d9f,
   0x7d4bf32f8f4719c2e4af8b7889f3b65cfdd033dc2f971798a12170f2b26efce),
  (0x62f035e01acdfe841104942d6c8c07f0fbd618cb85998ea24bcc24cfac1f8,
   0x1caa886104b7d753fda93645a746989794cd825c62473b526ea34b3d51b5771),
  (0x441c6f016d270e86c19843727b83b864cec060cafc813b23d7e41e5abb1a60a,
   0x29fece4e40400f3acae0586f4fc8ed535e805e472123ec38d662d8a0b01c086),
  (0x2c791ba0fb0b66177815c98191fa6188dba9c795e34a7c3c8a19086215e3cee,
   0x11123151389d4b330db6a665a560407e7cd8c3807c749e2b0cffd9c3074ba77),
  (0x5292da4ca71ae75ed0554c267747e39c7a129b3b863e1af3ebb3e368439c4ea,
   0x63af6a5016deea8cc674c44f16c63c1db31f09af4fb4d2ea7917c28116661fc),
  (0x3367388d5d1b7758dc3d92e244f227bb8a54e3d9909e7b7dd62ab5965e3efc7,
   0x7ffb4833071e4b03ea755ccb9938487a478248fe9b1158a08f1ac298801c092),
  (0x95c863314b7f18090f8eee602403be823a367a1b416d54c32e5f914e67d922,
   0x159c2824f899171deee23e0ed520d4825bd667983df0a8d45d3a1f7156d91f9),
  (0x621c6e08b3c57404644ad49ac7629832c141273fa1f323781b3395393fe985c,
   0x65d1eb0140652958c4371ebec791e03317d6b2e689d90e304666f1b610783dd),
  (0x54313129bf13993952cd2b31ed06013aba85e74c1b8a00e062031f32188a84e,
   0x680129efc9eb8ec07fc180e8f6877e5f0f9f44e3000a2c586ed4ce49d12a313),
  (0x21ea57a1c8286bb45872e78617853c47b89091670ba51c124afa3362e7260d,
   0x7087e5c1536df233ec9bfe2f983e8d7622892b9bf64c450c9823898e2cc2fc8),
  (0x3793b05b99e7a57d88db4ed0dbc3b771285abcd9052da50f88595354409f3f3,
   0x12164105041c056f127e737c7cd63981e05f246bd2b6b65d1f427019c7c3801),
  (0xbefd345cef5fcae22ac37dacd6b9128cc58cbba3e3fd774e11b421c2ba392,
   0x6209d25f24f88f7876ca604db23d05f78e6b3b67fb033f2f1bee221f352b8c8),
  (0x15fa536045fda4c65ff74f10b4e669ce88b9996c6772288289d3ad725987fa6,
   0x30e0c2124a35e265e931ccc66ce5ac3697d982814beb407144ff6762cb691df),
  (0x38b795bd77ac573576dc204857a488cac2cce19809882631ca2069598c577c8,
   0x786ba555d55ebef688b068bb9186a34a08cb00bdfef51619bbf911890ae9a13),
  (0x6c66853592196c3eb8d9526dc155205e2c64097adf8684bb0e15eb460ce1c72,
   0x1bb4ebf654f4250c8dd1061a4e1b464b31a8a9999ac9960446ef8108a66871a),
  (0x5b08dfbc87ad9c00b88e78816973ad2f9c10c70f2156908892cc7b7a2a1fd30,
   0x1151f407a77e2556073173d8f5c9ff561d8a23742121ca15f7d0ac391af50ea),
  (0x309190eba106aa6ead54b5ca5817969aa68b4b4c627700799a49fc6bdd32ba1,
   0x505b6a2bc7b0d78ca6ce2abe7dfb7312369918a4599cccf8a615f6701cfd851),
  (0x89cc205966af08acc8910d563af7443d5dfbb5d88dae79c013c678c65dcecc,
   0x1f8cf955694b246a423ac725791231257b88936e00347ecaa1e17045c0ab540),
  (0x480086b61a80c36cf1e1a350baf554e58ee8d9333186b70c9c512fb9e9d5a84,
   0x511edfe58f8d36a6170df743731da1ff525cfd5108be20e30ac4183d1281570),
  (0x3caf14fb1d2e90a13ad4eb091250fe37133aabf6029633e905e5a93ead41dbb,
   0x49122aff6059dfda19e4b973aba5ebe3804c91728936c6381c1ed1ea9380920),
  (0x66d1b8fb2cabc46cd79741ce1cb7326077ad8ea3227a6427244bdd3806bdadd,
   0x4a52eb74f4d5371ba3265dffd61c844f9e68d4ff0b44dc4936182f9280bb66b),
  (0x373330c5afd53c31257fcc9050fef873e15ea9f81d9810f30744309b04e02b3,
   0x5889806607b3dc97a9c5b0c8a2f16d1792099a22866b879ca480cb89a11ef5c),
  (0x26840d0ec69a22c6818ff64b8b14633b531508c866e21d1dc9239778ae9e8c7,
   0x157971f9a6e3a24d3b307be0e7c8cd352e2eb5cad33cf276270c0f309ee63fc),
  (0xebb84848f1c38c19a754d1b5d9460e39624dadbb30800987c9419c0f933b9f,
   0x517b297cf32f4064e6d6c8e761ba8db89809604a701c7b3aa1a9c6beb370ea7),
  (0x25780380bc0795ed0dca727c55240f1d63593e552d224adb40df2d3721c0f66,
   0x10215fb5a893e0275e9f1f66b217dde35addee91ed0e8f7d79531a2ff57b8c8),
  (0x243e1581cd1abfbf18c31c19a4c3d1cedfe69a40bb57b607c9af2717eefc742,
   0x1296c27929f14535718c3a4ebe045f00afdc60afc74c7d398d8ce1b6609dc0f),
  (0x48babb8649e054bc8e0b902c89e6940c265f48464520649502ef1064eb94562,
   0x3235be7852b0526d1a16f6969ec0e5b0e09cedaadc65863dea4e47f4f398264),
  (0x592db7c27e63489ef4bcef2eafce89f40067cd9a1ba48bc3dc76b5fc62ad9ca,
   0x48b7711b570cd9ac65910e75e752f4b751fdbfb4091a28f59b8c046d3d9f8bc),
  (0x31d133456222586ae42a9ec7ce8539ee04afbe0b2ed00a2564dab0798d9b55d,
   0xa77c52fa1fd718db5c83e7fda6d7d4d9aafef9ad95cad621470f2b753729e5),
  (0x4651668379883521e7983aafcb93811b4a72ef2975b3277773746708ef3e3fc,
   0x512507f3f544d80ba5d47f73b571881e8d70d7b1d305b9704bdad036b7abc47),
  (0x26069e359b2e847affaef604f772f36224608b7642245d0e643889ed231bddc,
   0x75ae1ec379f074ebc91270077c74b4d34347ce183b676b4dbe100bfff143b9e),
  (0x3196d01d1fa11dc3803b4813c4bbc6326869f61410f2bd14bc0f570d875aebe,
   0x20313217cac79875bd2a503db1e86d1e5559911667a02524759344468d9561d),
  (0x483256607f75f06fb126addc60cadddd602154cc4782bcc08351a48745d0b97,
   0x2950a7e500ebbe9775f08be37cc2e62ccf9030de18948d1bab07a4a9173f75d),
  (0x65f07b6050a2fc6eebe2c29ffa62f764060f7f9d3c82d2cb5e4e368aaa442c9,
   0x562c9654b646cb84a213b41de203c871b3eae0a05c9c105a66a53c319c06373),
  (0x284870f6181c43f3b01d94baa9c5b6ada0deb861145523ad9169580eb7bed35,
   0x5e03e6c40c1cfa3cafb01fd0622349871832a9d35499d06408a83edc1b76d02),
  (0x32229810a52137f0e6c3d37595c46f6132822d4b05f42674b48d7a7ac3ad85,
   0x7babde959a0cf2c53ee59fc52c77c3adf899453f077f441965629f9aead30cd),
  (0x1ea8b98a6b85e74e0a2fbc18b206e290f3ed94ce99ca665e8e2351dfade990a,
   0x478e93c4724115fb1648c8d5347422adbc1a0bbf962b2312e14aec80e1be742),
  (0x270cbaa08c79140c85b864475a0bf569cc03ac785e57f543dc444f37ce746cf,
   0x3a9b8d894016680ae9d1bf3deb931d8987d4d8d8bfed45b81ccc595ec79046b),
  (0x6943922708b8ae5b40dd7031ef2e487abc4ac39a3591368285e83d6c9c51f4d,
   0x5f157c37d09634e8cbfbef90ea50af59815d011e419a691c67ca3402b5efc33),
  (0x48ac6a80979fab4912cf0cb557d917a0bd68825d8658ec100496eaae6ff62e1,
   0x2b6931350ab183402e39476340eb1177b7006f7a552915581e29a79bd7203a0),
  (0xe3adf9517d92ef22d1e2a787740a292ba32d5ca69faa9e8675f63ed816dce5,
   0x36bccf69bb12dadd610145a3399213248d193660d8dc90a2e206f23bf2c7997),
  (0x5e6c8ae5afb2fa470f767581f3d578cf6a49547e4b78665edfd45776948bef8,
   0x6cbfc11953dd7e195d2ce74e52a60df524767b44c4608bdd755be4bc85eb74c),
  (0x15a576a1242d39300f0db3ad770983825988da0457718ecd596c63a0a0eb4a6,
   0x69a42e5f6f5a63349b57683a4609bba90f556a1680fa1ec3b02ee7d3211f903),
  (0x274cd14e4fbf2ed07402e8ad8075b320c5f76b7ea45ea36af523e95ed63ab50,
   0x6ca640f9557c5f2d8b27f6ce95b108880ff4e4816b26b70b6506114389ce656),
  (0x4d8284e132e2fe81c5f71be1e3c79ab51b229e2c56c323e207cda179999d123,
   0x116cfc00e9fbee1cf16af6282123cdf20eed13021c2037ef4c86f94eb6e6cba),
  (0x4056194fb5643e97991942ef5b63cadd89080bf57a01489c4398aca03f0980a,
   0x2e2cddb434fa6f6da7859c3d518f0ced8795eea043a6c9613fb3e020103339f),
  (0x5d119d5c5ce532afc0875e0ee9b026d878c8773d34237f90a0d0670da6f01b3,
   0x4a79fc025ce076b6a4742fbcc8cad313d0a8220c58024a41a5a674c0947e64b),
  (0x11800ce4061d99b9d53fd4138802335258f7798c5a935c9979f5a949ce1d483,
   0x36745a4741a5c7290eaa8f2a3f9ec955ccb7ca323272e5d35d35c2a724ffac8),
  (0x4302525bceb97fa642fd5560a4a39fba3d2c06f68e6aff3332ff1854439ebb3,
   0xe31edfd081ce82f8177b2d7d96e69851d09e908c2517114ffb37ee12c0ac64),
  (0x2f5fcbb96f0a66fd3bdfbcc78bda361cb812570f50e7c476533d56eee01c0e3,
   0x527428a34855b5695c479d8fb7e831a299f7897f36682a74169cc60d160df2d),
  (0x52167df045ad0dc999b98de3d035aced9da4434211149b8cf4bf20e774580cf,
   0x19051d2a1ad3fab190c5dfaf45188b49b4e90cca22aae54f0a785562d3d3f41),
  (0x541b5332491dbdb2b6f6bccceb7634970c046963891fae936dd950f4432b961,
   0x78fa54da996a51e3a9c06091d58c2405a806649da2bb1f323807c4eec50eda2),
  (0x5f11e973da659b7738f87ca5bd4f3bd02207dd3c8d978f0d3e83fe81030febd,
   0x137aba7027069f62d25caed416e13537687bb1428e71e5f0a0c52d52f2e65bc),
  (0x15ec941ee6c2110b819b5541be52981c09d83484c9dc735c43f39f5778718b4,
   0x4561826142dc5b56acfcf605a78a4090472bb61235bcd605a765e05d0a7e549),
  (0x68ba398736d659522f484406110b43c68158bf4992094acf797a38979c587a4,
   0x7c1d9e1702e28afddf22fed7a7a79df4315c174d0c6c4f4c75bc77d9b56777f),
  (0x67889cea31c81a429fbae643a4fce0ecd690a5c32b99397e39ed6d7a08702df,
   0x7ea277c80b671146c9e455b98f42f45b941ac95ca2d15c8fa9ea82ee9b45e01),
  (0x596f2c68390ac26505d3c2eca5c77d46f8f3acbed192a2649d8c525a58d2334,
   0x49f3bd8c62c610d5c19c52d970bde24b270c4ff7ae900453b909e72483974a0),
  (0x567779fb8b0afe592cea284629e3621ccfae3c4d7d3dc559c9fed750591a395,
   0x6010bdc33f1cdb374facefff537e7910b72a1120502f312a7ce41df0d552ddd),
  (0xcebed0233e810aa6a29a8b0829d28f1c92f303d14dd73d6b12da98117dfc7,
   0x4bdd51e1192a00df23aa8d0673e4915877ca41ddb8c9eaf21d39dd167fde7b7),
  (0x4c7085f066adeb6781596771972b188177e63f2e2b3788d03e033cdd5af1f06,
   0x2929ee89f525862b0cedb3ab9b5166e1680cb77fb4668f10a6a3d76b5434566),
  (0x760e341bd836899c226176f47685f69438270c150c6fe7744cd723cd1e72359,
   0x1bf09f2f1aac1a10ce8bdf20d5d178db747f01a4aa0aa8a5e4bfeef562cd94e),
  (0x6016b94c00b54920027ef64902c61478244b1936337d2ad41d9a8d43dd6a4b2,
   0x3bf3dd9bce7f6d6f120de87fcbce6219340b59c2c1d75ee0d45105d33aab1cd),
  (0x4929e44ff692eb944d1045bee96e750219cda3bda0500029f0df49a1db30b5b,
   0x2e138dcbd092242699004b4ce98764ffe4e892841f56830af298581cd1e523f),
  (0x5972d0e526311bacb70a04e88969b6c63c7399b578f0dc28bbd00d65ef01da7,
   0x76b22bca9ac12d26530e7b0757e646beb3bbc5680d0f3f82fb8ee57ed4b5e39),
  (0x2ca0a42a26e26934ca2d48db960b4719113d87c5e57fb437d557c5eb4e03ac7,
   0x62778c02561d4ec5d83a132afd7763a8349207c6b5d01fba70b56ba660cba2e),
  (0x5137ee53f076e21a2c23da09f63c0d275408c31e4634a6b6373be5cf13e6c00,
   0x14fb446c077beb78e04de3282a63bfde12f9af85caaca4ddfab506cee31c0c1),
  (0x7d944853d1627b63f560aeda33acf640d35a4ee4d23a744957a2dae9d5b7c6c,
   0xbcb411a210710acbcb9ea12680d89e3e4e652228b6786d3886e95f4d9e6970),
  (0x37d412c2ffb173a728477446b60b2b702d07a5243cb5fc8963e623a5ee75843,
   0x672c79968908f92cd0cb0b4c65ba86e8f359b015623a89441e1bf859bba84cb),
  (0x5b37f472aa80398bff12cc74c8ee784c4fc89757292580d3a498bff17e9f114,
   0x7d79da1aab9cfef58a5f3d1c9ec466956a45f8d2af0c1da6dd4c93f720fae6e),
  (0x25c09b3f1188c562571536202eb0f5fc4b9a7590417b8ea58b4343685d88a63,
   0x3d5b817c73b37e9a1d24ca923351359b42ced2f3cafbcac8c2d6322dc767bb),
  (0x32e60904e73f9756f71e0a918d302aeca17cad4acacc81bab15702ab5ff78f0,
   0xbcf4c0204f8275072f98a65b09ac58b87cdc9c70c4edfe99fe18870a3a5459),
  (0x49c35575996c1517d2daed90d2fe4a58e674d6b4aaa7288d0642c8bf59e562f,
   0x57eeee00adea4ca80eeabab57852cbf03f1a57e21872cd44221e0550b9193b8),
  (0x10e1776b4c2a867bf1b028c6edec224cc6616c747e272f49e69b67b02a893dd,
   0x8d45d62ec8e627b56950f2f7622a0438647f9e9f28e723e4a37cebc039a1b0),
  (0x79a93a75ecbe943acc964fd39ecfc971dc6555b2bc335e7b53f52f4eb16cd36,
   0x146132a68ce2ca8b48363612226771ac547eb3cf52b6eb7981718faac08aa3c),
  (0x6b22d32e0590e169504e7f19864fd646d0994e7ed3e578a5b88f6e095913439,
   0x68c3b22d859fb85e5c8fa0a8aea932285945b230957e603394333e9ad5acd82),
  (0x71ce5ec8286eb8c93b8481c6d19cf0a288ef4da4397e9c80f65023e516bc097,
   0x54470babc742780cd8a05499026e738ccbf81d4170d1731734de68a8e5b402c),
  (0x27beb13a43bc6a1f6ce046da438b0beac5899ff4d57962dcfb6476b563f74b,
   0x14074e9e93ee45394dfbe833998b9d1691961f8ba3166224b36404448c61bb3),
  (0x6b1de6c8f161aa6509a1dcacf2c0aa1bcf6ee9d9b40e032a9d72f77a6fa298c,
   0x5e9312eb5b59d6cbadd7d3dcbc39f1b5bd9a8346fdcfdf1107bada6f9cc048),
  (0x32670fc3fa43bf39974ba72ea51f0d045d92d084a81fe5282dfc8309aa900b9,
   0x518fee521bf1af62356aac3b7e53fdbf57121e030c6e9572b3de69912ca4eb4),
  (0x4b9ca363eabed9c66091a347375f7065cd28f49f914447de7cc1461f1375f1e,
   0x3a1a3a2e5e7e72476befe2571ece708052d740d02cbe6fed58740968ae609c4),
  (0x4cc6da42863a3deca62fa218b7a3b50e034eb4bafd393eccba3f4cbe192ef10,
   0x20bfa683c884f203713953b26d2821287ecd305fa2cb70570474533fc07f918),
  (0x87705353c44a5ccec8de65cf5433be6b3d9bd21eea49b60e6c907cf1a67a6a,
   0x112804b13eee56e3b01aff75fa08fa8374c44fc461aed8a30ad54acd09c24eb),
  (0x6cf6eeeb9d339c0a05f72fd5af73fc7588e6d957100ee8999109437bc126cae,
   0x54fa257cea22032eac272fcd034dadf2e00d602ef9e519cf7072023c130aad1),
  (0x19b32925048c5519d929650c833661b452ef7be7963fab0b6b328ab7dd7a28a,
   0x1bd0c14a10bf9b88ea61011c0b2e64d07da151c6203800d5a5d12063838a510),
  (0x12a5fc5559428bc3b4eff97b21b63668b866e0722807f1db1f19696bacd9b0d,
   0x4c2eb07f0c24047a3d73b560144f3fd32c99d6dbd9fc7cd2fd2a72a6e4b24c7),
  (0x13662b7a7d390aa76eb86a7c3bff6d9913eb28db6bd1a7c42de5cdad2e35ce2,
   0x40626aded7f56f82cc431ae30527b096f57fbfbc04d3e12a5abae3edf301cf1),
  (0x255825bd49b8a2cce114360bd9c8fe8c641af64c8e7710107213cfcb006f43d,
   0x3619cce4482335232f9e76a1460be9d296f2d468d26e4f95a78c71524fe59cc),
  (0x7f83009eeed4f12f54d341bbf06066480cfcdf51dda103ac54d4bcecf6b3b31,
   0x4269519d28faafd7fd68bebfd8404d71ba05d62c4bb6d65d24aa6802fb84ab6),
  (0x2f325650eb316646b4eec903fe44828fcb11054f1bd42ca3a77f7e734110b35,
   0x44f976082271016f9048e22c507d97d628722bb431f8d5cc1890524e6c386bf),
  (0x750b166bb6edc0ee80fae39c7c106879036738df2d79fb2294e1c21e9a24d6b,
   0x54f8aa297a1afafe2a17a3254f45861167414327e918d17003c6aad01d0b24c),
  (0x3aedb10db9cf3285cdeee375879396fac1fb50dd259e1716f8c01e66f67ca72,
   0x7feb9400f621f58c21601f23b7ec7c94a9b6b193c1cd74a8a60846aedadd359),
  (0x4ab7151702de76faa493e7a0b1ac20ee4d10c33b83fec9477547cb1236973eb,
   0x63f1f122e3ef3acc46b0915ac69c3f5772879799cad889a817f55f5853d1235),
  (0x1675ead0d20e5bc3a7a7331999a87ac4c916ae29669e54197bb02aa6364520f,
   0x4d1122da90d49e491922d9b533a6a668e2f65a2737ebb391ebb29fb7c1f8a9d),
  (0x2f7148111ef53c613157aeec12e16a20f13481da4390b6ce18a85d1d8547087,
   0x2eeda779ab395597651d2a0b833ccf53b10280750139916ae2baf4ec57c633d),
  (0x4439c7810e7b2ba772b701ec3acdca0b80c9df23047710b87f7dc3f13b337d3,
   0x5029cfe704c602a8a4662af0a5860ec03fb88f046d0e3400f2ce7638014c621),
  (0x2248eec40b5732a6a488b681f093643af7937071bc73118acae295a32b51b05,
   0x1577e4aec30a97b648de4d0b19cf8891151b4eb11f8de9c6d7312f091552e19),
  (0x4738424e558d4e0d87a3124ca02ea24f0adc6b7a9768b0d3945ed2a6104857c,
   0x33576f92aca3f0c8ae689c3c274c2de6b918940d86a6852e02fc99e35d1614),
  (0x7829edd8b866ebf7baaf604ed13d19a9797578f44bbc51b1cd67ca53803e96b,
   0x5559040a6083f2af1f9133ccaf5bc2ce06e56ddfc7dd410e9635c0116b62722),
  (0x7f927b881f2cdc05e1a69e40bb714af47b630d1425f08ab5d574ee698f33d51,
   0x26a465288e96572de303203bd38f4a03031e8158da0591cb037c0a5111d1056),
  (0x36a65598552f8753580d1655417d645a140966e10a1e1663015f9fdfae44881,
   0x33d5bbfaebf59eae72b89b1aea12ab2ba3c9617f8c3baed1ec16bdf668381b5),
  (0x403becfa545c826782026ff409cc16c9d4fe428f1b5b6e630c92439d2fa5fd,
   0x47bd6f2bf5d74f710ecb479c79b01fb774fbdad590e683a415cdedf33f71dc5),
  (0x3a747826d241b877d3d56b16e0b810cf088eda4fd6048da174c9991a942a5eb,
   0x2c7ba19b0a3486a2cdb84d4a388d34beb077a0e467ba44590166f93f6a09d2e),
  (0x3d60cd375842714b37bda89dd1f13a7e0f3ff133b522209617d031bce05a537,
   0xf77f216451ab01ad5226844d2162a7f32744688bcb4325445539e2ce5cec4),
  (0x235bf66f67c9100e7f0e22bb299cdfaa603644b240e0770aec7e7fd163e2a65,
   0x37110b3fa83ece3990afca2bea8d5ebb3c7aace60a0147f8e6ab733e2f2b4d5),
  (0x3b796d4eb69a55471fa86108f787b3604874e92b6887a7667a6c2bfbbd9a42b,
   0x4912d6dc0419732ef82cb3278415851d4e2d7ca89e0f4d7128cc9de51b810fe),
  (0x48d53516dd51e49faa7ab46c8c10db1befd10f23c6a9d9bc3640a2f0da44518,
   0x73a2fb3d064adadf21aa1362c04affc660598f38a9e069b3afb74d0a99ae9ee),
  (0x48c32cff161ed145da0d5b73084897647abb777adf65738559ceab6939cf3e0,
   0x3d99308978e828f857c382df32b472bda81e8ec8e30c8844077ba6d6d2ba903),
  (0x2947ff091a8ec9684affbc9a62e09e598841c4a6dc638088492aa47dea57097,
   0x19a2cc97975e547f97a4d02e42f89e6ced6f5a953cfccdec347867d26926541),
  (0x1960d85f30475615f82484eba0bdafb7ea7cac3809f0518a757d66f02b01676,
   0x36c8f77baabf0cc8805d993bbe62041fcf4e3239cf9d53278a4fbd91e75eeb7),
  (0x2765f28074d21d5a055340b6d40092d2bbef807e02009fabfa08ec0b9bdf38b,
   0x7fb189e0553d5df52b6843661814824b3f3cbebbd54988f042fb256c6bf30b),
  (0x348836cb2aaa00212f4b1a4e2d7fc5417f246bf2fe5c9a16ebabda449e2e08a,
   0x3f7276fd7d69e0d55ce5ee1d2d830534a27227fe0b6d8a36c93f9a78b872969),
  (0x7afb9d34b6a42ea8c6d870e4b8191c274201dc1f93a1a2219a2392b7e345a31,
   0x42bbc20dc7115e0758b364a110227b16b64ec58fc535ce5ff1a9ad8b8a09fdd),
  (0x2cae0c2afee1767fd4c66f52e1f176d217e92e89cc19eb36d5a6c1715f641a,
   0x5335efe2d9bc3667d25ea88bf76438a4d6ab9ba5c512f9da7d0529b79b62d83),
  (0x1cc5fde334707723c3a06f00c106db88664284a2df47bb6b144d9f960aea3e2,
   0xdbbf610d100316938bcd8bcd078513512ecb50d4579690dbefaa419c05980d),
  (0x54e90cb8f3a2998d2675c5780679e06c0556b1e618f8fdf07f9a4b2466fbf1e,
   0x16248676b6f06ec5e34994bc3115f85c8147b54f34d8500928f2fdc051e2089),
  (0x525c70a2ba0dbdd68d75640f47f13d0d415ea595f7030f533f4625c2a46523b,
   0x58292c8675e5e1a438f49e0c05648d9a7aa997f2f1fd77d5de1944afe5d7eea),
  (0x54726d78d099007393348787a03107ab492e59690a46c87fb02ec554f2353bd,
   0x53b54b77184ba75a3391e0ebfa6d6974db028f3f8e34bbd5460759a5848dd76),
  (0x4ac81a66903537769d3aac6c483ccc08535cb767b6b5e1ec8017a7393ab70ae,
   0x2cb22b77a8a05d26f11a4dec80eff292633aa05553a889c5ab16b6ac6e2ab17),
  (0x21d0175349e21114988a2930b9a607d43245783cb4a0c984ce27f4c4206708,
   0x59f1f49342cc5496213d3329bf4ca7fb0044337449c579bf53147a1dac9e67c),
  (0x167f821b381f4c8adcc39789475fb55ba639e5124fe75f26dd61be396dd5e66,
   0x22002c87d4cafb47ac9d27286d5cf5ff7a6715d69814118269b0729be9e4b3a),
  (0x31010666c6db83a9f9e4db4c48173afd405783ac53852a6e38a8ff925528843,
   0x1f466dc9b5d9094107c741dbf380f9fd98d8549cd50f67169901516f8cce74c),
  (0x1ad3875769a5053388a86edc85dd80fdffbbda6a456aea497ff81a0f1f6707b,
   0x2de7cdec5e2bad56a71bd2f33a4ae4c874e1ad4210a6ac32b443cfa34e85b1b),
  (0xc489650fb7f459ce09cd05a456fc5a46b849b38a671298ed645bcdaab168b0,
   0x45610d092b8af1c43ceed474cd17f7bbee65120aa6fa4d37f949e7e41f25327),
  (0x394256a5ef4d7af5459587a0bd2edb8acaf5ecfef2563c9a04daf34a4abe4c6,
   0x1ebee390dae1403c0c53994e1d064fa64e20fcb45392e209b2b99486a559ffd),
  (0x410a1511fead6151e9bedb089b9832d0fe01fab76d3f8459929f767525aeb27,
   0x361f0a5ffe09fcc3ad4eff3f5e89508ac247af80267100b69de3c59df561cfa),
  (0x38cd437c9f659e110a869605c182ee9fdc26de36baf559d9229e258267bb734,
   0x624b1128ea7739bf1cbd0e423af92a4884323c868d2ba0ee9d362946edee2d1),
  (0x78b126e50b7042d2a019f95cb87a3213c664ca1bafe345999b1e9e2dac1e608,
   0x19e398196b22f4488cbe854c614ad8c353839abc5ab3a4f3f5c03c16ba8a198),
  (0x6d3a5ce91132f385a91823c5c8046c4b638f5fe63357424410d901457cdb867,
   0x7b80bae16d2d487e122495174f7a70992bc5dafbed72bf84127ead7c57302bb),
  (0x32d053a904dc4d88fbe7d0b96e0cbeca22a00aa5c79c753d52b0b60abf31602,
   0x3af6a02e5cae6d6490354ae51185149e3fdb6d0d9caab90e95ff58aa0c40377),
  (0x49b1fbff5bdb0aa6938b066dde0ed772c0d81f9eff52e7fe038b0ccbd78adb5,
   0x1c6e57834eb14d507eed8b36c81ddf92fa91c242467061927a742fafa82b43d),
  (0x2f28b8994ca6f234d9293d26196b43b9d1d5306844348c4a638102c05de85f5,
   0x759cfb172eab065d477248b3569f4ff5791055f01e95fe71b94b8e615d73c96),
  (0x3c2ee954ff534f856f59188fa0f29ed8a022aee0cac52d634f6dc58cd514d70,
   0x22bd162e74925f0a876bd8a206b8767dfdd7c898576a73a490f138d9a7f99c6),
  (0x5763a7cab001e1aaeabf9ab5b9b2fffe6cc2b299ab04ec4933da74d960e1ab,
   0x715ee4f8ee93ab5a1dba00f0a6abc4eec47d49b61254cc27fc36a031e32f0f8),
  (0x19976ad8d7b7f47c785408243a227401996b36e47c7a78a7bc7d4256233ba9a,
   0x896b713c5d7777b0703821a73c1d9a4c3755501042120534ff13990975e1f5),
  (0x61674b992c29827186cab5ff454758dbbed8e89bc23d0bd33193afccc3a04bc,
   0x38e1020744c13903809ea30a0662fdb5226ae760cdcf10800faabec452e00f8),
  (0x2ea2d48bcb83c0c9cda4efe11f07165cfcbc9ccd26526e5fb12556316d4b1df,
   0x1d2d68b74ad384c5c4a9c85453104216357bfcdf635680b40215f0f800974cb),
  (0x7881212050264c40c336ed3a15dd2cd868ec9a558f5b728869eab66e8b8ed54,
   0x21aaefcc8ad8a161b8971d6880321781dbd939570c540da4c330922b8c81e9b),
  (0xb6be88ce0461d20f59c5199573cda0170b61decf6e8e69a6d32f1695adc4ed,
   0x5536e4808370716f2bb3423a9a49a38ddbfe91faf3b7a35eb53d3519238b6cf),
  (0xe5972af1655eb6dde2e8c77cc58044299922441b5ee41ceaf5cafedc765bcc,
   0x550282f37a4783dd60801c237045992d6fbe82a5902e7d837ea25f6f98c7b3a),
  (0x7efc1aad1f580d8f50274f1c114c40056be19a8c96fa8c4cb5bf85e1e7f3e4,
   0x2689f1c3898b114d668be6413643ee9f879913d40c262541fd0316264c60a4f),
  (0x7939db98037f59b0113e9d60051f75ac9c3cfd1a3eb535c73e2d945068c6c5c,
   0x410914ca8bbf3c65cdf3e9772ca790c19131c50068d34b7346c10260a578a8e),
  (0x225b77ad00a2b83d26690190b74867326eca4f55bfbc3a13be036225ca3b1b5,
   0x411faafef89042ce6beb64309fdaff70fa53e9d32d79a21e7f82f80e79ff05e),
  (0x1501e64c99c8b6658b0479f2c05c9142d246eaabfccf2fcec8dc4399539d8e1,
   0x3bab1e3339e42c9ee66c65b0b20236fdd9362d3ce786ad3a9779ab578af50a8),
  (0x59b907b941f24fb8ea2458153e55f07534b388e835af7b69f3c9f54392a335,
   0x1d5438c4f2f68a417f3d56f916d899a6ffe910f5f2989ca31687f1b10f60db8),
  (0x2887d08a26f484546f360e33abbf7a998b7170a5b30070938b84f072c676bf3,
   0x62a78e8d00e5d3a59e2fc424ffa08961567ba1ef24c8531cd7bceee6074a535),
  (0x6e3cc8076b3d45377929033af35aab0c6d19ae4fd47c0daf844079ca04c46eb,
   0x7b90f338e4d848aa8f19d0b5c3bca916a2a9024acbf14bddb278bca2aa39e5f),
  (0x34844dacdd3ec54a3af328bb9d67715ab33425e194ac9977ca02ef22e8f7a88,
   0x3c1affc6372f32a1634748124f9e1a03c4f0c993971da0dc28888b0801279d),
  (0x436b192e03a49796cf9bc5e93c88268b71c9c24f9c3a85322bba634ebea309d,
   0x67a8091ef69d62abcb28ce5df4dc7d53f8dc2b9690344f75ecd03a6d9386044),
  (0x592d25b68baff87a6d7fd41ff0dadbddc1bd1316683de3b2d677501c0eb14e4,
   0x27ad1e1099683f54589010faeefb19e38569ace43653be8787a42b0591e7bc5),
  (0x89a5111ae911512ba62e87b97f643c0219702f235c70f62c6678a129302009,
   0x557fa3d98e9ce7b83b47545013a4498f3de43787fb66b1a54521222242f7c1b),
  (0x1c9b5e53377e72da5066cb08566bbf9ec31ec1877f455d932cd9b1aa375d34e,
   0x72f79555a8bc207863f32d482fca54692825449fd8963fcea3de3a8183a739a),
  (0x574a6e05eb14591729515be239ea8c1fa9e12d4049d42876f76c8ff37bca03,
   0x5f99b3af43ca68c1c73e8190d5f73c8de162ba643d7d5f0cd73cfa8135db6d3),
  (0x513fc5c2e16505b2b25a2f284e167d5401194bcac0dc3ecf8b7c9acb560daa1,
   0x687ee7a1a8954d08d3856e1a16ded808e419e789736d3f55f79f7693bad69f5),
  (0x53d48bd1205274b1c2b0a0ceb3d21c5fcd7c8892a784931603240b288a598b9,
   0x35387abd7ea59c9b956de44d36533cad1f6668c438d666651695ff3862159be),
  (0x213eb1ea99e08825110dd61094eb6e8145119dc1c507636f068730b1e086d44,
   0x744f6853f4f02f4f042468d0739e0c9f64df720b87ed77d1979547084ef7a89),
  (0x735ef017d091ca23264ad0aa7bb9b2be3309b4539605e79ed4a652ccb2fbe3c,
   0x7f0ccc7a5747c4e921fff97d431169f690763427e2cfd1ad74d7a0308d7faa9),
  (0x3f36babc5a30070b610ed97db44997e6d9115c9c0579ad8f75d295a17130001,
   0x79047908a2474e32d5c712a07bf5c4ad522590bb5d6cefda410d30528e12ca8),
  (0x51c04907ae88a5926b242fb2862cb1f2c651a94e6caad5bff8601c079fded74,
   0x10a585a269f460aed43f54c7de13cdf623fc8de5957526997278be939ef32ad),
  (0xc1e1bd626a735aa2c065831317217ecce68e377eb1f67e54ce2e97bc2ef2dc,
   0x53c5af23a9b482f420be6dfd37b6886154cfd130794098e1f51c1885ac2556a),
  (0x5aff3b30775ae4758e604a4a6262803a545f5ef4e7855fa245ac6a6431a9ece,
   0x39a4799e5519047f29333bee9c86c99bfa8056d4aa381c396c4a44331fe795f),
  (0x3d753e9723701a8e9d99b91bb93dee2eda7ffa5072fb2cd5c5fd99aebcdb299,
   0x15798bf5c17d6d5880fed1553af32dd8d8baf2888c715a886575448a24c7975),
  (0x6593e5078466b07a4222d2e544da826d2c583c9cc5f2eaea148b129b00d4aa0,
   0x11b352b08a0a61d3cd67d1dc08069dec3bde907b3da0f56de5011b956bf8744),
  (0x7a6eb353c5be9ff03fe4a06c01fb71aad2b38144179a291ebcbb2c2417cca65,
   0x3de3ecb12f2fa699b46a9d399abf77ca17bebc3e491bfb2542dd0fba991e2bb),
  (0x2c7ead583d6c32162091034a9eddfa775b4e84b8bdbea939edb2a80dcf64f6,
   0x461790ce40d9c276d962b2a1e9a74d66e9d7335962e234e8a2fc6963d31722d),
  (0x34285af023d9b4c2c2b88e8704bf2c05a9b553b00b2e70ff05f8c2970cb134f,
   0x33fe678e7671760a83836107428dbade68c3593fbe568f3f8f1b2c568099c44),
  (0x6222f720a24466263db6a11842f117fc4bb78da6705f140e48869db3e087441,
   0x6eff5b9bf3aeedc962bc5a24b66e7bdad2153450ed53a058bf2c8dbf2907693),
  (0x17c6ec5ea206eb97cbf53851e37ce391080e0d2bf1e5395610f79ab0503f7ce,
   0x3adb71ca3523d88ceb1e365f12dfb24895453c14daf0046b2626cddadfdf5f7),
  (0x70859f9771a713e54974ce11cdaf44b0dcc3e9befa0c0834908d877eeaafd27,
   0xd18f794bf0cc0623b711e7450030424e52326c45ba9b03341883ae4828a5f8),
  (0x2a820cfd0fd4ab0871e7b303cd545a3086caf8fa818c087a4017197da74efbf,
   0x5f992683ff37f6c041b84bfc01503d333ac9763505cc8f69473da01812969d1),
  (0x5b0526de2c07fe7cd73e3884f642d57a0ac5e13c68590ed03a14e530616e8c1,
   0xeec69d0cbd92c9fca31ec967dba848bec368e792d6678797946a5e34fe3487),
  (0x6cf6b3efee707210cb3a72f1e885c3d0953aefb43e5e148c740aa1641725c61,
   0x911cb630b898e2c1a9115f9e45bafe3b819edfb1eab6e15612d14289939984),
  (0x74e913de55f1e46143cb2ecfc580f8d3d3908f200281322b84e21c989cda293,
   0x761d2736c9ac7670ba905bc2629c6c0dbe988820a4454ff415ba68710f7df92),
  (0x44084305e0c911a40b7cbefe5f13cffe9a99375d1a584c4a2200958050af7a9,
   0x249c83877371564708ea525b64b1e7e12785460d83364446531c9adcacba5f0),
  (0x2bf71ad4d1bee1a67fb300477029f54bdb0e09f78bf2ac2e8afc7465a7adbcc,
   0x6244dd6cad282539049be57487bfd9900bb0d5da805d02b535096368fcb4cd5),
  (0x3a62d8f763b62def36e4089458046a49c5ecb91b861549530773e0548ff2bb,
   0x6a10a03ba61e6ac657270465c09aa9526cf1ebe96bdecdf0e7000476a47b9eb),
  (0x284eed3a17c51e0677d4fe897f056abe9def8af07a4630e6ca5723e2aa6677,
   0x516a06ac1d5626ed03d2eee9de6f60f0311eca703a99b0fb31b9c66b01c27c7),
  (0x2a2c63b16cccd685f731d06fe93ce2cffb358d34d03dda9a7368185c1eb0c32,
   0x7180baca0ba81284809f92eca1654cd76b925a9242e5d5e0f18d0a55d13c6ec),
  (0x5f9466017ec09769611389ea5370ad68dda936d3f5816c9e928ff9574abf9a7,
   0x6619b5b145bb5f4f29deb7a4cd68ef4da3995312fa6537f0d01684da4267ece),
  (0x74f229babe01b4962b3307589c1a13019134b1db6822698388bebb55d21c30f,
   0x156ae857ab3279f754facba0db36398dffec8c31e5e160473198f2f891b7531),
  (0x334b9fe3a5fd99bc966ddd1309698fd32afd1f235062f2c275b6616a185de45,
   0x221a60053583cc0607f6f2e6966b62fc9dac00538bb7eb1148e007a92116d2),
  (0x7ad710ba002a67c731efbaba2149d16fec5d2f7aa3d126fd9886172e9f4ea30,
   0x3a10f8e902a7a13aec94d66415347e1314f9bac83a7db176096b809b25ffb86),
  (0x4306dd0a184a3283c3097ff8f7434cec80912e9dc04b7df21ba73fda9f8e6d8,
   0x6d42bd3d1a8dbddafd09e872e2aa3891ae79ec939dc1b382196bc21c4ab749),
  (0x1c3f2124e1135c32a426d1d14e471edd9e0f2c7bd703ee123cbbd608e8c4be7,
   0x3cc607a3c3f1ab68dd5fa56c65996002721b8ad8ad4b0dd9e5b1467d316583),
  (0x294af33272ffcee0b56a436de1b73759cbddebef4c07888b42c2f92b0b68e1,
   0xd837164311d5dca8d37b99ef9eb22708643c83d1cbdfe852f63ea07b06fbad),
  (0x753bdb5439a19bbffdfa02b1dc24e8368f22d0a8276b109c11e6feb26f56f39,
   0x6ed396231af93647633eab467f1a034f38e76823eb85baf97cae56e2dcd9f75),
  (0x5674f0cb892b733fc0b50e121d8679afed0a925c32594cc65ffe83bebe7748e,
   0x7fbf0325dd38dd94905adab2c52758552292a6a103d9edfcb11938828e828c8),
  (0x4a8f053573a0a74251059d0229d89b6660407ba0b491779fd10f87a5117c81f,
   0x21b70112485398bf67ec9d733df24a1df30dea718a93b786f41ed04e3ae3c5e),
  (0x726c01ec4a08df8fc8de173311f50d4f3b97c5a9cf68c1536146f827db95ae8,
   0x15013cafadefa7f1c4e4dfdd70bd4d3979dd18bd7f0332572ce2a3fd8773d12),
  (0x38ac0fbfa98937257460db7e6645d7e5112b6fce7234813fc8a704e8ade8da2,
   0x73c0109f86048aad08c443f781ae60ad13b99f7b9cfdf3128fe6d6eeb799a7b),
  (0x6f6d3a38621582ace092eb50ecfe9eff265df141ebdcab8653299116fcea291,
   0x4a1bf3f39bc919c8f1b720a0b1ce952cad17f2ba98308ee6b76dd9b6f3d7b75),
  (0x6a307fc28e1df8d9ad01766419e097797d65cb674436fa1c8f012d3de2c2a1f,
   0x26911a635ba824db004875d79dd84834a97ac12643e42829015bf88c1fd6f05),
  (0x2a74860e3336d6db916555894cc8028f41508812925db1925457afe40257155,
   0x5f8da573f4c39816ce2dba8a20224223a7cfec53117ec78973930c0e9b60244),
  (0x4d2b49e1ed0799f719b8269f092cb489a466a645bc0ccabafdc678864c176d7,
   0x5410083df7d256f18cbf5697ae5e52c31e075d8a3b27e21d6f5177ca882f6c1),
  (0x110ecb9fbf6c333d168cee473cc5ad98809b6cb9eb5d1f6cd28ab5fab504fd3,
   0x7e3c54d7533d9f8c3310f219dab0cc3ea4d39b418a748eeffd6bae2b8637a43),
  (0x5be4d711b80da70e6d3ac493250bbfd16f20b25f31919b3a91cf14ffbac1096,
   0x7f55a0919f082e8885f1515e83c5b39b6022404503507498e1b4422d79c43e2),
  (0x2605125b95ca4ba93a21cbbba5762898a7cf9e988f07ab9e64cb3868e3b139d,
   0x62f0ccf55b9fc0eaf9736fc8ee484e2acdbe259813af9803cf815829a5e9d3b),
  (0x1092bbbf206f2a3068167c3dd99a72de31e206f6c504c071c8214d105ff814d,
   0x309f489f68a62089f53b96df5d4fbc3ecc5a1a42eb7ece0e49bad17ad490ff4),
  (0x2abdee9409d9c92559ca3f4e6bddd649c31aa09b90bfcb4a612af491241e18d,
   0x3ffa8eac180a29de3f8a69efca84bac046f921f5725e96a6ff0530be1436aaf),
  (0x376313f27d00bb1aae7ec991745efe6ee28c6b50de0c6cd9845cc4bb4f83543,
   0x6a8e0a9389ba528b156fa94ac090a895d7b795818d4941c29415d9e2984c547),
  (0xa80380c71bd466a696b3f0fbf02817c9459d9798f4f3899cf32edf647fe066,
   0x6a09805e814e7cdfc76eba4b79f1df5ae559e0f0aba9f728d3cba4ea5c57471),
  (0x223694b921d247d989a79b9b2b2f07496036c40cb043eab074a9d6a2cd2ffed,
   0xc247217f1b1df35e30d9e15fdaadf42d6fb0edd3a5a7e265d4cdc426c120aa),
  (0x102333620df278c6714bbc880fc087db58c1b9b4d77ed4d61b32a74bfc7c3e2,
   0x6a77d37727ccf71c2caeb151faf4404d4b94e9047f9f0a7c3966367f3b53c65),
  (0x891626f466536929ee7eadcd18b41925706dedab7528ed5f0f7abf039eb9d2,
   0x5f73d11c141c933a35b2d0d06e5cbae614a20d17dc3b439f8bcdc3413c5ea37),
  (0x215c23fd3f073f870e5e80303967391bf173f8adcdbeec72d131c557babc203,
   0x10634332e9d9439a321597dc5b0fac9ff478834c3d6e281735f21a4a5e13266),
  (0x21ea0bdc1332bc36e6aeb43be9071651c27e4ea2eadec636c8d818d4af72a36,
   0x3a523d9643dccc6bb9c7c58413312caa3e60ba9c7c7f0177e0f3f469a3241e3),
  (0x60deaed1bffb6190beed40caaf2bfab5e43d3707aff7ad3f278d571aa247eae,
   0xe41f71ff254c1418e6a66992af307789fe04d6606fb2670900bb1a089fd879),
  (0x1e1fac4a1646253fb1332fadc21fbdd3e3a24a840d129400f520ae4116a4cf5,
   0x69c406f9f46576afad68808de0ab7e8922b6226af748e721d9097e21f1800f3),
  (0x5db0ddcdf79ffe74d6454c12d2bc60b06776db03c75dc413f5be42ea9a91b5e,
   0x134c3d6c699841f17306835bb193785228ffe7ab212a01a861c56b086a18cec),
  (0x626814e320fb5bea505b248fd1c1389ad586c1cfe04923fe2f83173e915f4f8,
   0x7ae407a926e887206a8b85cf485f1f327c9bb8ccbb6897024e2d122877d8ee0),
  (0x23186237dc7d3b570cea645282ad4c359731bbfa54e7f036426bf6493812cd,
   0x7d1fbab7e61a22d3b00993290d9f4cd5d820061573e787f66c2cff9a18e1eaf),
  (0x54302dcb0e6cc1c6e44cca8f61a63bb2ca65048d53fb325d36ff12c49a58202,
   0x1b77b3e37d13504b348046268d8ae25ce98ad783c25561a879dcc77e99c2426),
  (0x13961b56b9fc0e412e468c385c22bd0680a25624ec211ffbb6bc877b2a6926c,
   0x62f7f7792c77cd981fad13cb6863fe099c4d971c1374109185eae99943f16e9),
  (0x47abd7308c70659af3f00fafe6837298af3cb530b6c2ba710ffd07a6bc1ae98,
   0x75d0c8a7377aa9f0663d0c124a5659750847afabc29e39893fd27534a4a03cb),
  (0x2c6276b764fb398fa555857dbe0ce0ec18fab7a233bf23851295739801f0585,
   0x5d8f4897ce44007ec5bfcb9aeb78b8f6e1d40a514f72d213c9300d2770d2b8c)]

/-- The Stark curve, with `Max = P − 1` as in the data model of §3. -/
def starkCurve : StarkCurve where
  P := 2 ^ 251 + 17 * 2 ^ 192 + 1
  N := 0x800000000000010ffffffffffffffffb781126dcae7b2321e66a241adc64d2f
  Gx := 0x49ee3eba8c1600700ee1b87eb599f16716b0b1022947733551fde4050ca6804
  Gy := 0x3ca0cfe4b3bc6ddf346d49d06ea0ed34e621062c0e056c1d0405d266e10268a
  EcGenX := 0x1ef15c18599971b7beced415a40f0c7deacfd9b0d1819e03d723d8bc943cfca
  EcGenY := 0x5668060aa49730b7be4801df46ec62de53ecd11abe43a32873000c36e8dc1f
  MinusShiftPointX := 0x49ee3eba8c1600700ee1b87eb599f16716b0b1022947733551fde4050ca6804
  MinusShiftPointY := 0x435f301b4c439330cb92b62f915f12cb19def9d3f1fa93e2fbfa2d991efd977
  Max := 2 ^ 251 + 17 * 2 ^ 192
  Alpha := 1
  Beta := 0x6f21413efbe40de150e596d72f7a8c5609ad26c15c915c1f4cdfcb99cee9e89
  BitSize := 252
  ConstantPoints := starkConstantPoints

/-- An account at address `0x123` whose key pair is `1` and the generator. -/
def exampleAccount : Account where
  Address := 0x123
  PublicX := starkCurve.EcGenX
  PublicY := starkCurve.EcGenY
  privateKey := 1

/-- A small curve for examples: `y² = x³ + x + 154` over the field of 65537 elements, of
prime order 65167, with generator `(5, 15572)`, shift point `12345 · (5, 15572)` and
`Max = P − 1`. -/
def toyCurve : StarkCurve where
  P := 65537
  N := 65167
  Gx := 63177
  Gy := 64168
  EcGenX := 5
  EcGenY := 15572
  MinusShiftPointX := 63177
  MinusShiftPointY := 1369
  Max := 65536
  Alpha := 1
  Beta := 154
  BitSize := 17
  ConstantPoints := []

/-! ## The group of the curve

The points of the curve `y² = x³ + α·x + β` over the integers modulo `P`, with the group
law of Mathlib, against which the reference arithmetic is checked. -/

/-- The curve `y² = x³ + α·x + β` of `sc` over the integers modulo `P`. -/
def Ref.W (sc : StarkCurve) : WeierstrassCurve.Affine (ZMod sc.P.toNat) :=
  ⟨0, 0, 0, (sc.Alpha : ZMod sc.P.toNat), (sc.Beta : ZMod sc.P.toNat)⟩

/-- The integer pair `pt` gives the coordinates, modulo `P`, of the affine point `Q`. -/
def Ref.Rep (sc : StarkCurve) (pt : Int × Int) (Q : (Ref.W sc).Point) : Prop :=
  ∃ h : (Ref.W sc).Nonsingular (pt.1 : ZMod sc.P.toNat) (pt.2 : ZMod sc.P.toNat),
    Q = WeierstrassCurve.Affine.Point.some h

/-- The point `Q` has order `N`: an integer multiple of `Q` vanishes exactly when the
integer is a multiple of `N`. -/
def Ref.HasOrder (sc : StarkCurve) [Fact (Nat.Prime sc.P.toNat)] (Q : (Ref.W sc).Point) :
    Prop :=
  ∀ j : Int, j • Q = 0 ↔ sc.N ∣ j

/-- Double-and-add as in `Ref.EcMult.go`, giving up with `none` as soon as a doubling
meets a point of order two or an addition meets two points with the same
x-coordinate. -/
def Ref.EcMult.checked (sc : StarkCurve) : Nat → Int → Int → Int → Option (Int × Int)
  | 0, _, _, _ => none
  | fuel + 1, m, x1, y1 =>
    if m ≤ 1 then some (x1, y1)
    else if (2 * y1) % sc.P = 0 then none
    else
      match Ref.EcMult.checked sc fuel (m / 2) (Ref.Double sc x1 y1).1
          (Ref.Double sc x1 y1).2 with
      | none => none
      | some h =>
        if m % 2 = 0 then some h
        else if (h.1 - x1) % sc.P = 0 then none
        else some (Ref.Add sc h.1 h.2 x1 y1)

/-- The checked double-and-add finds `(N − 1)·(EcGenX, EcGenY) = −(EcGenX, EcGenY)`; when
`N` is prime this certifies that the generator has order `N`. -/
def Ref.generatorOrderCheck (sc : StarkCurve) : Bool :=
  match Ref.EcMult.checked sc (BitLen (sc.N - 1)) (sc.N - 1) sc.EcGenX sc.EcGenY with
  | some res => decide ((res.1 - sc.EcGenX) % sc.P = 0 ∧ (res.2 + sc.EcGenY) % sc.P = 0)
  | none => false

/-! ## Hashing in the specification's words -/

/-- One step of `hash_elements` in the spec's words (§4.3): `hᵢ₊₁ = pedersen([hᵢ, eᵢ])`;
a failure is kept. -/
def HashElements.step (d : Deps) (sc : StarkCurve) (acc : Res Int) (e : FeltPtr) :
    Res Int :=
  match acc with
  | .ok h => PedersenHash d sc [some h, e]
  | .error err => .error err
  | .panic => .panic

/-- The accumulator of the Pedersen hash in the spec's words (§4.3): for the elements
from number `i` on, and for each of the 252 low bits `j` of an element in increasing
order, `CP[2 + 252·i + j]` is added into `A` when bit `j` of the element is set. -/
def pedersenPoint (d : Deps) (sc : StarkCurve) : Nat → List Int → Int × Int → Int × Int
  | _, [], A => A
  | i, e :: rest, A =>
    pedersenPoint d sc (i + 1) rest
      ((List.range 252).foldl
        (fun A j =>
          if (e / 2 ^ j) % 2 = 1 then
            d.Add sc A.1 A.2 (sc.ConstantPoints.getD (2 + 252 * i + j) (0, 0)).1
              (sc.ConstantPoints.getD (2 + 252 * i + j) (0, 0)).2
          else A)
        A)

/-- The `for _, h := range elems` loop of `HashElements` together with the values it
leaves in the elements: each `h` is the second entry of the slice handed to
`PedersenHash`, which shifts it in place. -/
def HashElements.loopRun (d : Deps) (sc : StarkCurve) :
    List FeltPtr → Int → Res Int × List FeltPtr
  | [], hash => (.ok hash, [])
  | h :: rest, hash =>
    match PedersenHash.run d sc [some hash, h] with
    | (.ok hash', left) =>
      let r := HashElements.loopRun d sc rest hash'
      (r.1, left.getD 1 h :: r.2)
    | (.error e, left) => (.error e, left.getD 1 h :: rest)
    | (.panic, left) => (.panic, left.getD 1 h :: rest)

/-- Go `HashElements` together with the values it leaves in its arguments; the element
appended for an empty input is not visible to the caller. -/
def HashElements.run (d : Deps) (sc : StarkCurve) (elems : List FeltPtr) :
    Res Int × List FeltPtr :=
  if elems.length = 0 then (HashElements.loop d sc (elems ++ [some 0]) 0, elems)
  else HashElements.loopRun d sc elems 0

/-! # Theorems -/

/-! ## The execute calldata -/

theorem fmtExecuteCalldata_foldl (calls : List Transaction) (a f : List FeltPtr) :
    calls.foldl fmtExecuteCalldata.step (a, f)
      = (a ++ callHeader f.length calls, f ++ flatCalldata calls) := by
  induction calls generalizing a f with
  | nil => simp [callHeader, flatCalldata]
  | cons tx rest ih =>
    rw [List.foldl_cons]
    by_cases h : tx.Calldata.length = 0
    · have h0 : tx.Calldata = [] := List.length_eq_zero.mp h
      simp [fmtExecuteCalldata.step, h, ih, callHeader, flatCalldata, h0]
    · simp [fmtExecuteCalldata.step, h, ih, callHeader, flatCalldata, List.append_assoc]

/-- The layout `fmtExecuteCalldata` produces: one nil pointer per call, the header, the
length tag, the flat calldata, the nonce. -/
theorem fmtExecuteCalldata_eq (nonce : FeltPtr) (calls : List Transaction) :
    fmtExecuteCalldata nonce calls
      = List.replicate calls.length none ++ callHeader 0 calls
          ++ [some ((flatCalldata calls).length : Int)] ++ flatCalldata calls ++ [nonce] := by
  simp [fmtExecuteCalldata, fmtExecuteCalldata_foldl]

theorem callHeader_length (off : Nat) (calls : List Transaction) :
    (callHeader off calls).length = 4 * calls.length := by
  induction calls generalizing off with
  | nil => simp [callHeader]
  | cons tx rest ih =>
    by_cases h : tx.Calldata.length = 0 <;> simp [callHeader, h, ih] <;> omega

/-- The result of `fmtExecuteCalldata` has `5 * m + 2 + |flat|` elements. -/
theorem fmtExecuteCalldata_length (nonce : FeltPtr) (calls : List Transaction) :
    (fmtExecuteCalldata nonce calls).length
      = 5 * calls.length + 2 + (flatCalldata calls).length := by
  simp [fmtExecuteCalldata_eq, callHeader_length]; omega

theorem fmtExecuteCalldataStrings_eq (nonce : FeltPtr) (calls : List Transaction) :
    fmtExecuteCalldataStrings nonce calls = fmtExecuteCalldata nonce calls := by
  have h : ∀ (l acc : List FeltPtr), l.foldl (fun acc data => acc ++ [data]) acc = acc ++ l := by
    intro l
    induction l with
    | nil => simp
    | cons a l ih => intro acc; simp [ih]
  simp [fmtExecuteCalldataStrings, h]

/-- C1 (code evaluated at the failing input): for the call `to = 0xABC`,
`selector = 0xDEF`, `calldata = [1, 2, 3]` with `nonce = 7`, `fmtExecuteCalldata` returns
a list whose first element is a nil pointer, not the felt 1, so the result is not
`[1, 0xABC, 0xDEF, 0, 3, 3, 1, 2, 3, 7]`; and for no call the result has 2 elements, not
`4 * 0 + 3 + 0`. -/
theorem C1_fmtExecuteCalldata_scenario :
    fmtExecuteCalldata (some 7) [⟨some 0xABC, some 0xDEF, [some 1, some 2, some 3]⟩]
        = [none, some 0xABC, some 0xDEF, some 0, some 3, some 3, some 1, some 2, some 3,
            some 7]
      ∧ fmtExecuteCalldata (some 7) [⟨some 0xABC, some 0xDEF, [some 1, some 2, some 3]⟩]
        ≠ [some 1, some 0xABC, some 0xDEF, some 0, some 3, some 3, some 1, some 2, some 3,
            some 7]
      ∧ fmtExecuteCalldata (some 7) [] = [some 0, some 7]
      ∧ (fmtExecuteCalldata (some 7) []).length ≠ 4 * 0 + 3 + 0 := by
  decide

/-! ## Pedersen hashing -/

theorem PedersenHash.bits_eq_bitsFrom (d : Deps) (sc : StarkCurve) (i n j : Nat)
    (ptx pty x : Int) :
    PedersenHash.bits d sc i n j ptx pty x
      = PedersenHash.bitsFrom d sc (sc.ConstantPoints.drop (2 + i * 252 + j)) n ptx pty x := by
  induction n generalizing j ptx pty x with
  | zero =>
    cases h : sc.ConstantPoints.drop (2 + i * 252 + j) <;>
      simp [PedersenHash.bits, PedersenHash.bitsFrom]
  | succ n ih =>
    cases h : sc.ConstantPoints.drop (2 + i * 252 + j) with
    | nil =>
      have h1 : sc.ConstantPoints.get? (2 + i * 252 + j) = none := by
        rw [List.get?_eq_none]; exact List.drop_eq_nil_iff.mp h
      simp only [PedersenHash.bits, PedersenHash.bitsFrom, h1]
    | cons hd tl =>
      have h1 : sc.ConstantPoints.get? (2 + i * 252 + j) = some hd := by
        have := List.head?_drop sc.ConstantPoints (2 + i * 252 + j)
        rw [h] at this
        simpa using this.symm
      have h2 : sc.ConstantPoints.drop (2 + i * 252 + (j + 1)) = tl := by
        have := List.tail_drop sc.ConstantPoints (2 + i * 252 + j)
        rw [h] at this
        simpa [Nat.add_assoc] using this.symm
      obtain ⟨xin, yin⟩ := hd
      simp only [PedersenHash.bits, PedersenHash.bitsFrom, h1]
      split
      · rfl
      · rw [ih, h2]

theorem PedersenHash.loop_eq_loopFrom (d : Deps) (sc : StarkCurve) (i : Nat)
    (elems : List FeltPtr) (ptx pty : Int) :
    PedersenHash.loop d sc i elems ptx pty
      = PedersenHash.loopFrom d sc (sc.ConstantPoints.drop (2 + i * 252)) elems ptx pty := by
  induction elems generalizing i ptx pty with
  | nil => simp [PedersenHash.loop, PedersenHash.loopFrom]
  | cons e rest ih =>
    cases e with
    | none => simp [PedersenHash.loop, PedersenHash.loopFrom]
    | some x =>
      have hd : List.drop 252 (List.drop (2 + i * 252) sc.ConstantPoints)
          = List.drop (2 + (i + 1) * 252) sc.ConstantPoints := by
        rw [List.drop_drop]; congr 1; ring
      simp only [PedersenHash.loop, PedersenHash.loopFrom, PedersenHash.bits_eq_bitsFrom,
        Nat.add_zero, ih, hd]

/-- The hash of `PedersenHash` may be evaluated with the table read sequentially. -/
theorem PedersenHash_eq_fast (d : Deps) (sc : StarkCurve) (elems : List FeltPtr) :
    PedersenHash d sc elems = PedersenHash.fast d sc elems := by
  unfold PedersenHash PedersenHash.run PedersenHash.fast
  split
  · rfl
  · rw [PedersenHash.loop_eq_loopFrom]

/-! ## Hashes on the Stark curve -/

theorem Example.pedersen_zero_zero :
    PedersenHash refDeps starkCurve
        [some 0x0,
         some 0x0]
      = .ok 0x49ee3eba8c1600700ee1b87eb599f16716b0b1022947733551fde4050ca6804 :=
  (PedersenHash_eq_fast _ _ _).trans (by decide!)

theorem Example.pedersen_flat_nonce :
    PedersenHash refDeps starkCurve
        [some 0x49ee3eba8c1600700ee1b87eb599f16716b0b1022947733551fde4050ca6804,
         some 0x5]
      = .ok 0x55aa7c32b043014bb7a82cf9a565a45f32b5f07a0adf67e53e47dcd05544b73 :=
  (PedersenHash_eq_fast _ _ _).trans (by decide!)

theorem Example.pedersen_calldata_len :
    PedersenHash refDeps starkCurve
        [some 0x55aa7c32b043014bb7a82cf9a565a45f32b5f07a0adf67e53e47dcd05544b73,
         some 0x2]
      = .ok 0x5211937f4bd0dd4e5045a298804be965093d7cffa21153692cf637a224c20f9 :=
  (PedersenHash_eq_fast _ _ _).trans (by decide!)

theorem Example.pedersen_invoke :
    PedersenHash refDeps starkCurve
        [some 0x0,
         some 0x696e766f6b65]
      = .ok 0x19d1f8a68e1f633c5b8ea6eb9dbe35e5fdd52215fef7d17e19a25f2a7cdabcc :=
  (PedersenHash_eq_fast _ _ _).trans (by decide!)

theorem Example.pedersen_version :
    PedersenHash refDeps starkCurve
        [some 0x19d1f8a68e1f633c5b8ea6eb9dbe35e5fdd52215fef7d17e19a25f2a7cdabcc,
         some 0x0]
      = .ok 0x50693622ed314cd0c51384e1ff9bd3d41d7c7c73f0703a667529b07d05e12e9 :=
  (PedersenHash_eq_fast _ _ _).trans (by decide!)

theorem Example.pedersen_address :
    PedersenHash refDeps starkCurve
        [some 0x50693622ed314cd0c51384e1ff9bd3d41d7c7c73f0703a667529b07d05e12e9,
         some 0x123]
      = .ok 0x70f02d38092d7ba4018a84475bbe4e5a93732730dc5b3e81ce84cef614c4a79 :=
  (PedersenHash_eq_fast _ _ _).trans (by decide!)

theorem Example.pedersen_selector :
    PedersenHash refDeps starkCurve
        [some 0x70f02d38092d7ba4018a84475bbe4e5a93732730dc5b3e81ce84cef614c4a79,
         some 0x15d40a3d6ca2ac30f4031e42be28da9b056fef9bb7357ac5e85627ee876e5ad]
      = .ok 0x6ffe28e918cf4061d23b1657950d32a21d6efa8ae6cc6076c19214f3c7abf92 :=
  (PedersenHash_eq_fast _ _ _).trans (by decide!)

theorem Example.pedersen_cdHash :
    PedersenHash refDeps starkCurve
        [some 0x6ffe28e918cf4061d23b1657950d32a21d6efa8ae6cc6076c19214f3c7abf92,
         some 0x5211937f4bd0dd4e5045a298804be965093d7cffa21153692cf637a224c20f9]
      = .ok 0x6ed4d31690d1fe7a69efef5c91ff2098cdd11ca43b19c8a7599dff0fd10f352 :=
  (PedersenHash_eq_fast _ _ _).trans (by decide!)

theorem Example.pedersen_fee :
    PedersenHash refDeps starkCurve
        [some 0x6ed4d31690d1fe7a69efef5c91ff2098cdd11ca43b19c8a7599dff0fd10f352,
         some 0x3e8]
      = .ok 0x1ad8d5c57d7362ba1f8257852e1faaa93a58b3c177c0aa8e37dda667b3732e6 :=
  (PedersenHash_eq_fast _ _ _).trans (by decide!)

theorem Example.pedersen_chain :
    PedersenHash refDeps starkCurve
        [some 0x1ad8d5c57d7362ba1f8257852e1faaa93a58b3c177c0aa8e37dda667b3732e6,
         some 0x534e5f474f45524c49]
      = .ok 0x6fa3500e2552e7fd7135923e774b1108be1234cd624524cd0393156dc21d701 :=
  (PedersenHash_eq_fast _ _ _).trans (by decide!)

theorem Example.pedersen_len :
    PedersenHash refDeps starkCurve
        [some 0x6fa3500e2552e7fd7135923e774b1108be1234cd624524cd0393156dc21d701,
         some 0x7]
      = .ok 0x603cb9cf139c4bd47b98b715653b0d3b88a31e76ae3fd6708bac165f8dbafb8 :=
  (PedersenHash_eq_fast _ _ _).trans (by decide!)

theorem HashElements.loop_cons (d : Deps) (sc : StarkCurve) (e : FeltPtr)
    (rest : List FeltPtr) (hash hash' : Int)
    (h : PedersenHash d sc [some hash, e] = .ok hash') :
    HashElements.loop d sc (e :: rest) hash = HashElements.loop d sc rest hash' := by
  simp only [HashElements.loop, h]

theorem HashElements.loop_nil (d : Deps) (sc : StarkCurve) (hash : Int) :
    HashElements.loop d sc [] hash = .ok hash := rfl

theorem HashElements_cons (d : Deps) (sc : StarkCurve) (e : FeltPtr) (rest : List FeltPtr) :
    HashElements d sc (e :: rest) = HashElements.loop d sc (e :: rest) 0 := by
  simp [HashElements]

/-- What `HashMultiCall` returns once the provider has answered and the calldata hash is
known: the hash of the seven-element literal followed by its length 7. -/
theorem HashMultiCall_of_cdHash (d : Deps) (Curve : StarkCurve) (account : Account)
    (chainID : String) (fee : Int) (nonce : FeltPtr) (calls : List Transaction)
    (cdHash : Int)
    (h : HashElements d Curve
        (fmtExecuteCalldata nonce calls
          ++ [some ((fmtExecuteCalldata nonce calls).length : Int)]) = .ok cdHash) :
    HashMultiCall d Curve account (.ok chainID) (some fee) nonce calls
      = HashElements d Curve
          [some (UTF8StrToBig "invoke"), some 0, some account.Address,
           some (d.GetSelectorFromName "__execute__"), some cdHash, some fee,
           some (UTF8StrToBig chainID), some 7] := by
  have h' : HashElements d Curve (HashMultiCall.callArray nonce calls) = .ok cdHash := h
  simp only [HashMultiCall, h', HashMultiCall.multiHashData, TRANSACTION_PREFIX,
    TRANSACTION_VERSION, EXECUTE_SELECTOR]
  rfl

theorem Example.pedersen_minus_one :
    PedersenHash refDeps starkCurve [some (-1)]
      = .ok 0x49adceb2d1a90f3234445601a8de8affac5ac849ae24b3b0bc01b9b5b349ef0 :=
  (PedersenHash_eq_fast _ _ _).trans (by decide!)

theorem Example.invoke_felt : UTF8StrToBig "invoke" = 0x696e766f6b65 := by decide

theorem Example.chain_felt : UTF8StrToBig "SN_GOERLI" = 0x534e5f474f45524c49 := by decide

theorem Example.selector :
    refDeps.GetSelectorFromName "__execute__"
      = 0x15d40a3d6ca2ac30f4031e42be28da9b056fef9bb7357ac5e85627ee876e5ad := by
  decide!

theorem Example.calldata : fmtExecuteCalldata (some 5) [] = [some 0, some 5] := by decide

/-- The hash of the execute calldata `[0, 5]` of an empty call list with nonce 5. -/
theorem Example.hash_calldata :
    HashElements refDeps starkCurve (fmtExecuteCalldata (some 5) [])
      = .ok 0x55aa7c32b043014bb7a82cf9a565a45f32b5f07a0adf67e53e47dcd05544b73 := by
  rw [Example.calldata, HashElements_cons,
    HashElements.loop_cons _ _ _ _ _ _ Example.pedersen_zero_zero,
    HashElements.loop_cons _ _ _ _ _ _ Example.pedersen_flat_nonce,
    HashElements.loop_nil]

/-- The hash of that calldata followed by its length 2: the `cdHash` of `HashMultiCall`. -/
theorem Example.hash_calldata_len :
    HashElements refDeps starkCurve
        (fmtExecuteCalldata (some 5) []
          ++ [some ((fmtExecuteCalldata (some 5) []).length : Int)])
      = .ok 0x5211937f4bd0dd4e5045a298804be965093d7cffa21153692cf637a224c20f9 := by
  have h : fmtExecuteCalldata (some 5) []
      ++ [some ((fmtExecuteCalldata (some 5) []).length : Int)]
        = [some 0, some 5, some 2] := by decide
  rw [h, HashElements_cons,
    HashElements.loop_cons _ _ _ _ _ _ Example.pedersen_zero_zero,
    HashElements.loop_cons _ _ _ _ _ _ Example.pedersen_flat_nonce,
    HashElements.loop_cons _ _ _ _ _ _ Example.pedersen_calldata_len,
    HashElements.loop_nil]

theorem Example.address : exampleAccount.Address = 0x123 := rfl

/-- The hash of the seven-element list for `exampleAccount`, fee 1000, chain `SN_GOERLI`
and the `cdHash` of `Example.hash_calldata_len`. -/
theorem Example.hash_seven :
    HashElements refDeps starkCurve
        [some (UTF8StrToBig "invoke"), some 0, some exampleAccount.Address,
         some (refDeps.GetSelectorFromName "__execute__"),
         some 0x5211937f4bd0dd4e5045a298804be965093d7cffa21153692cf637a224c20f9,
         some 1000, some (UTF8StrToBig "SN_GOERLI")]
      = .ok 0x6fa3500e2552e7fd7135923e774b1108be1234cd624524cd0393156dc21d701 := by
  rw [Example.invoke_felt, Example.chain_felt, Example.selector, Example.address, HashElements_cons,
    HashElements.loop_cons _ _ _ _ _ _ Example.pedersen_invoke,
    HashElements.loop_cons _ _ _ _ _ _ Example.pedersen_version,
    HashElements.loop_cons _ _ _ _ _ _ Example.pedersen_address,
    HashElements.loop_cons _ _ _ _ _ _ Example.pedersen_selector,
    HashElements.loop_cons _ _ _ _ _ _ Example.pedersen_cdHash,
    HashElements.loop_cons _ _ _ _ _ _ Example.pedersen_fee,
    HashElements.loop_cons _ _ _ _ _ _ Example.pedersen_chain,
    HashElements.loop_nil]

/-- The hash `HashMultiCall` returns for `exampleAccount`, fee 1000, nonce 5, no call and
chain `SN_GOERLI`. -/
theorem Example.hashMultiCall :
    HashMultiCall refDeps starkCurve exampleAccount (.ok "SN_GOERLI") (some 1000) (some 5) []
      = .ok 0x603cb9cf139c4bd47b98b715653b0d3b88a31e76ae3fd6708bac165f8dbafb8 := by
  rw [HashMultiCall_of_cdHash _ _ _ _ _ _ _ _ Example.hash_calldata_len,
    Example.invoke_felt, Example.chain_felt, Example.selector, Example.address, HashElements_cons,
    HashElements.loop_cons _ _ _ _ _ _ Example.pedersen_invoke,
    HashElements.loop_cons _ _ _ _ _ _ Example.pedersen_version,
    HashElements.loop_cons _ _ _ _ _ _ Example.pedersen_address,
    HashElements.loop_cons _ _ _ _ _ _ Example.pedersen_selector,
    HashElements.loop_cons _ _ _ _ _ _ Example.pedersen_cdHash,
    HashElements.loop_cons _ _ _ _ _ _ Example.pedersen_fee,
    HashElements.loop_cons _ _ _ _ _ _ Example.pedersen_chain,
    HashElements.loop_cons _ _ _ _ _ _ Example.pedersen_len,
    HashElements.loop_nil]

/-! ## The transaction hash -/

/-- For a non-empty call list the execute calldata starts with a nil pointer. -/
theorem fmtExecuteCalldata_head (nonce : FeltPtr) (calls : List Transaction)
    (h : calls ≠ []) : ∃ rest, fmtExecuteCalldata nonce calls = none :: rest := by
  rw [fmtExecuteCalldata_eq]
  cases calls with
  | nil => exact absurd rfl h
  | cons tx rest =>
    simp only [List.length_cons, List.replicate_succ, List.cons_append]
    exact ⟨_, rfl⟩

/-- A nil pointer in second place: `PedersenHash` never returns a hash, and it panics
when the first element alone would have been hashed. -/
theorem PedersenHash.nil_second (d : Deps) (sc : StarkCurve) (h0 : Int) :
    (∀ v, PedersenHash d sc [some h0, none] ≠ .ok v)
      ∧ ((∃ v, PedersenHash d sc [some h0, some 0] = .ok v) →
          PedersenHash d sc [some h0, none] = .panic) := by
  unfold PedersenHash PedersenHash.run
  by_cases ht : sc.ConstantPoints.length = 0
  · simp [ht]
  · simp only [ht, if_false]
    rw [PedersenHash.loop, PedersenHash.loop]
    by_cases hg : 0 ≤ h0 ∧ sc.P ≤ h0
    · simp [hg]
    · simp only [hg, if_false]
      cases hb : PedersenHash.bits d sc 0 252 0 sc.Gx sc.Gy h0 with
      | mk res x' =>
        cases res with
        | ok pt => simp [PedersenHash.loop]
        | error e => simp
        | panic => simp

/-- A list that starts with a nil pointer: `HashElements` never returns a hash, and it
panics on a curve where `PedersenHash([0, 0])` returns a hash. -/
theorem HashElements.nil_head (d : Deps) (sc : StarkCurve) (rest : List FeltPtr) :
    (∀ v, HashElements d sc (none :: rest) ≠ .ok v)
      ∧ ((∃ v, PedersenHash d sc [some 0, some 0] = .ok v) →
          HashElements d sc (none :: rest) = .panic) := by
  rw [HashElements_cons, HashElements.loop]
  have h := PedersenHash.nil_second d sc 0
  cases hp : PedersenHash d sc [some 0, none] with
  | ok v => exact absurd hp (h.1 v)
  | error e =>
    refine ⟨fun v hv => (by cases hv), fun hex => ?_⟩
    have := h.2 hex
    rw [hp] at this
    cases this
  | panic => exact ⟨fun v hv => (by cases hv), fun _ => rfl⟩

/-- For a non-empty call list the list whose hash would be `cdHash` starts with a nil
pointer, so no `cdHash` is computed. -/
theorem HashMultiCall.callArray_fails (d : Deps) (sc : StarkCurve) (nonce : FeltPtr)
    (calls : List Transaction) (h : calls ≠ []) :
    (∀ v, HashElements d sc
        (fmtExecuteCalldata nonce calls
          ++ [some ((fmtExecuteCalldata nonce calls).length : Int)]) ≠ .ok v)
      ∧ ((∃ v, PedersenHash d sc [some 0, some 0] = .ok v) →
          HashElements d sc
            (fmtExecuteCalldata nonce calls
              ++ [some ((fmtExecuteCalldata nonce calls).length : Int)]) = .panic) := by
  obtain ⟨rest, hr⟩ := fmtExecuteCalldata_head nonce calls h
  rw [hr, List.cons_append]
  exact HashElements.nil_head d sc _

/-- What `HashMultiCall` does once the provider has answered: it hashes the execute
calldata followed by its length, and on success the seven-element literal followed by
its length 7. -/
theorem HashMultiCall_eq (d : Deps) (Curve : StarkCurve) (account : Account)
    (chainID : String) (fee : Int) (nonce : FeltPtr) (calls : List Transaction) :
    HashMultiCall d Curve account (.ok chainID) (some fee) nonce calls
      = (match HashElements d Curve
            (fmtExecuteCalldata nonce calls
              ++ [some ((fmtExecuteCalldata nonce calls).length : Int)]) with
        | .ok cdHash =>
          HashElements d Curve
            [some (UTF8StrToBig "invoke"), some 0, some account.Address,
             some (d.GetSelectorFromName "__execute__"), some cdHash, some fee,
             some (UTF8StrToBig chainID), some 7]
        | .error e => .error e
        | .panic => .panic) := by
  cases hcd : HashElements d Curve
      (fmtExecuteCalldata nonce calls
        ++ [some ((fmtExecuteCalldata nonce calls).length : Int)]) with
  | ok cdHash => exact HashMultiCall_of_cdHash d Curve account chainID fee nonce calls _ hcd
  | error e =>
    have h' : HashElements d Curve (HashMultiCall.callArray nonce calls) = .error e := hcd
    simp only [HashMultiCall, h']
  | panic =>
    have h' : HashElements d Curve (HashMultiCall.callArray nonce calls) = .panic := hcd
    simp only [HashMultiCall, h']

/-- C2 (amended): once the provider has returned chain id `c`, `HashMultiCall` hashes the
execute calldata followed by its length and, when that gives `cdHash`, returns
`HashElements` of the eight-element list `[UTF8StrToBig "invoke", 0, address,
GetSelectorFromName "__execute__", cdHash, fee, UTF8StrToBig c, 7]`: the length 7 is
appended as an eighth element before hashing.  This happens for the empty call list only:
for a non-empty call list no `cdHash` is computed and `HashMultiCall` returns no hash, and
it panics on a curve where `PedersenHash([0, 0])` returns a hash. -/
theorem C2_HashMultiCall_hashes_eight_elements (d : Deps) (Curve : StarkCurve)
    (account : Account) (c : String) (fee : Int) (nonce : FeltPtr)
    (calls : List Transaction) :
    HashMultiCall d Curve account (.ok c) (some fee) nonce calls
        = (match HashElements d Curve
              (fmtExecuteCalldata nonce calls
                ++ [some ((fmtExecuteCalldata nonce calls).length : Int)]) with
          | .ok cdHash =>
            HashElements d Curve
              [some (UTF8StrToBig "invoke"), some 0, some account.Address,
               some (d.GetSelectorFromName "__execute__"), some cdHash, some fee,
               some (UTF8StrToBig c), some 7]
          | .error e => .error e
          | .panic => .panic)
      ∧ (calls ≠ [] →
          ∀ hash, HashMultiCall d Curve account (.ok c) (some fee) nonce calls ≠ .ok hash)
      ∧ (calls ≠ [] → (∃ v, PedersenHash d Curve [some 0, some 0] = .ok v) →
          HashMultiCall d Curve account (.ok c) (some fee) nonce calls = .panic) := by
  have heq := HashMultiCall_eq d Curve account c fee nonce calls
  refine ⟨heq, fun hne hash => ?_, fun hne hex => ?_⟩
  · have hf := (HashMultiCall.callArray_fails d Curve nonce calls hne).1
    rw [heq]
    cases hcd : HashElements d Curve
        (fmtExecuteCalldata nonce calls
          ++ [some ((fmtExecuteCalldata nonce calls).length : Int)]) with
    | ok cdHash => exact absurd hcd (hf cdHash)
    | error e => simp
    | panic => simp
  · rw [heq, (HashMultiCall.callArray_fails d Curve nonce calls hne).2 hex]

/-- C2 (witness): on the Stark curve, for `exampleAccount`, fee 1000, nonce 5 and chain id
`SN_GOERLI`: with no call the calldata hashes and `HashMultiCall` is the hash of the
eight-element list; with the one call `to = 0xABC`, `selector = 0xDEF`,
`calldata = [1, 2, 3]` it panics. -/
theorem C2_HashMultiCall_hashes_eight_elements_witness :
    HashElements refDeps starkCurve
        (fmtExecuteCalldata (some 5) []
          ++ [some ((fmtExecuteCalldata (some 5) []).length : Int)])
      = .ok 0x5211937f4bd0dd4e5045a298804be965093d7cffa21153692cf637a224c20f9
    ∧ HashMultiCall refDeps starkCurve exampleAccount (.ok "SN_GOERLI") (some 1000)
          (some 5) []
      = HashElements refDeps starkCurve
          [some (UTF8StrToBig "invoke"), some 0, some exampleAccount.Address,
           some (refDeps.GetSelectorFromName "__execute__"),
           some 0x5211937f4bd0dd4e5045a298804be965093d7cffa21153692cf637a224c20f9,
           some 1000, some (UTF8StrToBig "SN_GOERLI"), some 7]
    ∧ [(⟨some 0xABC, some 0xDEF, [some 1, some 2, some 3]⟩ : Transaction)] ≠ []
    ∧ PedersenHash refDeps starkCurve [some 0, some 0]
      = .ok 0x49ee3eba8c1600700ee1b87eb599f16716b0b1022947733551fde4050ca6804
    ∧ HashMultiCall refDeps starkCurve exampleAccount (.ok "SN_GOERLI") (some 1000)
          (some 5) [⟨some 0xABC, some 0xDEF, [some 1, some 2, some 3]⟩]
      = .panic := by
  refine ⟨Example.hash_calldata_len, ?_, List.cons_ne_nil _ _, Example.pedersen_zero_zero, ?_⟩
  · have h := (C2_HashMultiCall_hashes_eight_elements refDeps starkCurve exampleAccount
      "SN_GOERLI" 1000 (some 5) []).1
    rw [Example.hash_calldata_len] at h
    exact h
  · exact (C2_HashMultiCall_hashes_eight_elements refDeps starkCurve exampleAccount
      "SN_GOERLI" 1000 (some 5) [⟨some 0xABC, some 0xDEF, [some 1, some 2, some 3]⟩]).2.2
      (List.cons_ne_nil _ _) ⟨_, Example.pedersen_zero_zero⟩

/-- C2 (counterexample): on the Stark curve, for `exampleAccount`, fee 1000, nonce 5, no
call and chain id `SN_GOERLI`, the calldata hash is `0x5211…0f9` and `HashMultiCall`
does not return `HashElements` of the seven-element list. -/
theorem C2_counterexample :
    HashElements refDeps starkCurve (HashMultiCall.callArray (some 5) [])
      = .ok 0x5211937f4bd0dd4e5045a298804be965093d7cffa21153692cf637a224c20f9
    ∧ HashMultiCall refDeps starkCurve exampleAccount (.ok "SN_GOERLI") (some 1000)
          (some 5) []
      ≠ HashElements refDeps starkCurve
          [some (UTF8StrToBig "invoke"), some 0, some exampleAccount.Address,
           some (refDeps.GetSelectorFromName "__execute__"),
           some 0x5211937f4bd0dd4e5045a298804be965093d7cffa21153692cf637a224c20f9,
           some 1000, some (UTF8StrToBig "SN_GOERLI")] := by
  refine ⟨Example.hash_calldata_len, ?_⟩
  rw [Example.hashMultiCall, Example.hash_seven]
  decide

/-- C3 (amended): in `HashMultiCall` the fifth element `cdHash` of the list hashed last is
`HashElements` of the execute calldata followed by its own length, the execute calldata
being the list `fmtExecute` puts into the request; for no call that list is
`[0, nonce, 2]`.  For a non-empty call list it starts with a nil pointer, so no `cdHash`
is computed: `HashElements` returns no hash for it, and panics on a curve where
`PedersenHash([0, 0])` returns a hash. -/
theorem C3_cdHash_hashes_calldata_and_length (d : Deps) (Curve : StarkCurve)
    (account : Account) (c : String) (fee : Int) (nonce : FeltPtr)
    (calls : List Transaction) :
    HashMultiCall d Curve account (.ok c) (some fee) nonce calls
        = (match HashElements d Curve
              (fmtExecuteCalldata nonce calls
                ++ [some ((fmtExecuteCalldata nonce calls).length : Int)]) with
          | .ok cdHash =>
            HashElements d Curve (HashMultiCall.multiHashData d account cdHash fee c)
          | .error e => .error e
          | .panic => .panic)
      ∧ (∀ cdHash : Int,
          (HashMultiCall.multiHashData d account cdHash fee c).get? 4 = some (some cdHash))
      ∧ fmtExecuteCalldataStrings nonce calls = fmtExecuteCalldata nonce calls
      ∧ fmtExecuteCalldata nonce []
          ++ [some ((fmtExecuteCalldata nonce []).length : Int)] = [some 0, nonce, some 2]
      ∧ (calls ≠ [] →
          ∀ cdHash, HashElements d Curve
            (fmtExecuteCalldata nonce calls
              ++ [some ((fmtExecuteCalldata nonce calls).length : Int)]) ≠ .ok cdHash)
      ∧ (calls ≠ [] → (∃ v, PedersenHash d Curve [some 0, some 0] = .ok v) →
          HashElements d Curve
            (fmtExecuteCalldata nonce calls
              ++ [some ((fmtExecuteCalldata nonce calls).length : Int)]) = .panic) := by
  refine ⟨?_, fun _ => rfl, fmtExecuteCalldataStrings_eq nonce calls, ?_,
    fun hne => (HashMultiCall.callArray_fails d Curve nonce calls hne).1,
    fun hne => (HashMultiCall.callArray_fails d Curve nonce calls hne).2⟩
  · have h' : HashMultiCall.callArray nonce calls
        = fmtExecuteCalldata nonce calls
          ++ [some ((fmtExecuteCalldata nonce calls).length : Int)] := rfl
    unfold HashMultiCall
    simp only []
    rw [h']
    cases HashElements d Curve
      (fmtExecuteCalldata nonce calls
        ++ [some ((fmtExecuteCalldata nonce calls).length : Int)]) <;> rfl
  · simp [fmtExecuteCalldata]

/-- C3 (witness): on the Stark curve, with nonce 5: for no call the list `[0, 5, 2]` has
the hash `cdHash = 0x5211…0f9`, which `HashMultiCall` puts in fifth place; for the one
call `to = 0xABC`, `selector = 0xDEF`, `calldata = [1, 2, 3]` hashing the execute
calldata followed by its length panics. -/
theorem C3_cdHash_hashes_calldata_and_length_witness :
    HashMultiCall refDeps starkCurve exampleAccount (.ok "SN_GOERLI") (some 1000) (some 5) []
      = HashElements refDeps starkCurve
          (HashMultiCall.multiHashData refDeps exampleAccount
            0x5211937f4bd0dd4e5045a298804be965093d7cffa21153692cf637a224c20f9 1000
            "SN_GOERLI")
    ∧ (HashMultiCall.multiHashData refDeps exampleAccount
          0x5211937f4bd0dd4e5045a298804be965093d7cffa21153692cf637a224c20f9 1000
          "SN_GOERLI").get? 4
      = some (some 0x5211937f4bd0dd4e5045a298804be965093d7cffa21153692cf637a224c20f9)
    ∧ [(⟨some 0xABC, some 0xDEF, [some 1, some 2, some 3]⟩ : Transaction)] ≠ []
    ∧ PedersenHash refDeps starkCurve [some 0, some 0]
      = .ok 0x49ee3eba8c1600700ee1b87eb599f16716b0b1022947733551fde4050ca6804
    ∧ HashElements refDeps starkCurve
        (fmtExecuteCalldata (some 5) [⟨some 0xABC, some 0xDEF, [some 1, some 2, some 3]⟩]
          ++ [some ((fmtExecuteCalldata (some 5)
                [⟨some 0xABC, some 0xDEF, [some 1, some 2, some 3]⟩]).length : Int)])
      = .panic := by
  refine ⟨?_, ?_, List.cons_ne_nil _ _, Example.pedersen_zero_zero, ?_⟩
  · have h := (C3_cdHash_hashes_calldata_and_length refDeps starkCurve exampleAccount
      "SN_GOERLI" 1000 (some 5) []).1
    rw [Example.hash_calldata_len] at h
    exact h
  · exact (C3_cdHash_hashes_calldata_and_length refDeps starkCurve exampleAccount
      "SN_GOERLI" 1000 (some 5) []).2.1 _
  · exact (C3_cdHash_hashes_calldata_and_length refDeps starkCurve exampleAccount
      "SN_GOERLI" 1000 (some 5)
      [⟨some 0xABC, some 0xDEF, [some 1, some 2, some 3]⟩]).2.2.2.2.2
      (List.cons_ne_nil _ _) ⟨_, Example.pedersen_zero_zero⟩

/-- C3 (counterexample): on the Stark curve, with nonce 5 and no call, the list whose hash
is `cdHash` is `[0, 5, 2]` while the execute calldata is `[0, 5]`, and `cdHash` is not
`HashElements` of the execute calldata. -/
theorem C3_counterexample :
    HashMultiCall.callArray (some 5) [] = [some 0, some 5, some 2]
    ∧ fmtExecuteCalldata (some 5) [] = [some 0, some 5]
    ∧ HashElements refDeps starkCurve (HashMultiCall.callArray (some 5) [])
      ≠ HashElements refDeps starkCurve (fmtExecuteCalldata (some 5) []) := by
  refine ⟨by decide, by decide, ?_⟩
  have h : HashElements refDeps starkCurve (HashMultiCall.callArray (some 5) [])
      = .ok 0x5211937f4bd0dd4e5045a298804be965093d7cffa21153692cf637a224c20f9 :=
    Example.hash_calldata_len
  rw [h, Example.hash_calldata]
  decide

/-- C10 (code evaluated at the failing input): on the Stark curve, whose table holds 506
constant points, `PedersenHash` of the one-element list `[-1]` returns a hash and no
error, although `-1` is outside `[0, P)`. -/
theorem C10_PedersenHash_accepts_negative_element :
    starkCurve.ConstantPoints.length = 506
    ∧ ¬ (0 ≤ (-1 : Int) ∧ (-1 : Int) < starkCurve.P)
    ∧ PedersenHash refDeps starkCurve [some (-1)]
      = .ok 0x49adceb2d1a90f3234445601a8de8affac5ac849ae24b3b0bc01b9b5b349ef0 :=
  ⟨by decide!, by decide, Example.pedersen_minus_one⟩

/-! ## Modular inverse -/

theorem inv_mod.go_spec (m a : Nat) (hm : 1 < m) :
    ∀ (fuel r0 r1 s0 s1 : Nat), r1 < fuel →
      ((s0 * a : Nat) : ZMod m) = r0 → ((s1 * a : Nat) : ZMod m) = r1 →
      Nat.gcd r0 r1 = 1 →
      ((inv_mod.go m fuel r0 r1 s0 s1 * a : Nat) : ZMod m) = 1 := by
  intro fuel
  induction fuel with
  | zero => intro r0 r1 s0 s1 h; omega
  | succ fuel ih =>
    intro r0 r1 s0 s1 hlt h0 h1 hg
    cases r1 with
    | zero =>
      simp only [inv_mod.go]
      rw [Nat.gcd_zero_right] at hg
      rw [h0, hg]; simp
    | succ r =>
      simp only [inv_mod.go]
      apply ih
      · have : r0 % (r + 1) < r + 1 := Nat.mod_lt _ (Nat.succ_pos r)
        show r0 % (r + 1) < fuel
        omega
      · exact h1
      · show (((s0 + (m - r0 / (r + 1) % m) * s1) % m * a : Nat) : ZMod m)
            = ((r0 % (r + 1) : Nat) : ZMod m)
        have hq : r0 / (r + 1) % m ≤ m := (Nat.mod_lt _ (by omega)).le
        have hdiv : ((r0 : Nat) : ZMod m)
            = ((r + 1 : Nat) : ZMod m) * ((r0 / (r + 1) : Nat) : ZMod m)
              + ((r0 % (r + 1) : Nat) : ZMod m) := by
          rw [← Nat.cast_mul, ← Nat.cast_add, Nat.div_add_mod]
        rw [Nat.cast_mul] at h0 h1
        rw [Nat.cast_mul, ZMod.natCast_mod, Nat.cast_add, Nat.cast_mul, Nat.cast_sub hq,
          ZMod.natCast_mod, ZMod.natCast_self]
        linear_combination h0 + hdiv - ((r0 / (r + 1) : Nat) : ZMod m) * h1
      · show Nat.gcd (r + 1) (r0 % (r + 1)) = 1
        rw [Nat.gcd_comm, ← Nat.gcd_rec, Nat.gcd_comm]; exact hg

/-- When `a` is prime to `m > 1`, `inv_mod a m` is the inverse of `a` modulo `m`. -/
theorem inv_mod_mul (a m : Int) (hm : 1 < m) (hg : Int.gcd a m = 1) :
    inv_mod a m * a % m = 1 := by
  have hm0 : (0 : Int) < m := by omega
  obtain ⟨n, rfl⟩ : ∃ n : Nat, m = n := ⟨m.toNat, (Int.toNat_of_nonneg hm0.le).symm⟩
  have hn : 1 < n := by exact_mod_cast hm
  have ha0 : 0 ≤ a % (n : Int) := Int.emod_nonneg _ (by omega)
  obtain ⟨a', ha'⟩ : ∃ a' : Nat, a % (n : Int) = a' :=
    ⟨(a % n).toNat, (Int.toNat_of_nonneg ha0).symm⟩
  have hgcd : Nat.gcd n a' = 1 := by
    have hc : IsCoprime a (n : Int) := Int.isCoprime_iff_gcd_eq_one.2 hg
    have hc' : IsCoprime (a % n) (n : Int) := by
      rw [Int.emod_def, sub_eq_add_neg, ← mul_neg]
      exact hc.add_mul_left_left _
    rw [ha'] at hc'
    exact (Nat.isCoprime_iff_coprime.1 hc').symm
  have key := inv_mod.go_spec n a' hn (a' + 1) n a' 0 1 (by omega) (by simp) (by simp) hgcd
  have k2 : (inv_mod.go n (a' + 1) n a' 0 1 * a') % n = 1 := by
    have := (ZMod.natCast_eq_natCast_iff' (inv_mod.go n (a' + 1) n a' 0 1 * a') 1 n).1
      (by rw [Nat.cast_one]; exact key)
    rwa [Nat.mod_eq_of_lt hn] at this
  have e : inv_mod a n = ((inv_mod.go n (a' + 1) n a' 0 1 : Nat) : Int) := by
    simp [inv_mod, ha']
  rw [e, Int.mul_emod, ha', ← Int.natCast_mod, ← Nat.cast_mul, ← Int.natCast_mod,
    Nat.mod_mul_mod]
  exact_mod_cast k2

/-- When `x` is prime to `p > 1`, `DivMod n x p` times `x` is `n` modulo `p`. -/
theorem DivMod_mul (n x p : Int) (hp : 1 < p) (hg : Int.gcd x p = 1) :
    DivMod n x p * x % p = n % p := by
  have h := inv_mod_mul x p hp hg
  unfold DivMod
  rw [Int.mul_emod, Int.emod_emod_of_dvd _ (dvd_refl p), ← Int.mul_emod, mul_assoc,
    Int.mul_emod, h, mul_one, Int.emod_emod_of_dvd _ (dvd_refl p)]

/-- Modulo a prime `p`, what is not `0` is prime to `p`. -/
theorem gcd_eq_one_of_prime (x p : Int) (hp : Nat.Prime p.toNat) (hx : x % p ≠ 0) :
    Int.gcd x p = 1 := by
  have hp0 : (0 : Int) < p := by
    by_contra h
    have : p.toNat = 0 := Int.toNat_eq_zero.2 (by omega)
    rw [this] at hp
    exact Nat.not_prime_zero hp
  have hpe : (p.toNat : Int) = p := Int.toNat_of_nonneg hp0.le
  rw [Int.gcd_comm, Int.gcd_eq_natAbs]
  have : p.natAbs = p.toNat := by omega
  rw [this]
  apply (Nat.Prime.coprime_iff_not_dvd hp).2
  intro hd
  apply hx
  have : (p.toNat : Int) ∣ x := Int.natCast_dvd.2 hd
  rw [hpe] at this
  exact Int.emod_eq_zero_of_dvd this

/-! ## `GenerateSecret`: more fuel never changes a result -/

theorem GenerateSecret.fill_mono (d : Deps) (sc : StarkCurve) (k : List Nat) :
    ∀ (f f' : Nat) (t v : List Nat) (res : List Nat × List Nat),
      GenerateSecret.fill d sc k f t v = some res → f ≤ f' →
      GenerateSecret.fill d sc k f' t v = some res := by
  intro f
  induction f with
  | zero => intro f' t v res h; simp [GenerateSecret.fill] at h
  | succ f ih =>
    intro f' t v res h hle
    obtain ⟨f'', rfl⟩ : ∃ f'', f' = f'' + 1 := ⟨f' - 1, by omega⟩
    simp only [GenerateSecret.fill] at h ⊢
    split
    · rename_i hc
      rw [if_pos hc] at h
      exact ih _ _ _ _ h (by omega)
    · rename_i hc
      rw [if_neg hc] at h
      exact h

theorem GenerateSecret.loop_mono (d : Deps) (sc : StarkCurve) (fuel fuel' : Nat)
    (hf : fuel ≤ fuel') :
    ∀ (n n' : Nat) (k v : List Nat) (x : Int),
      GenerateSecret.loop d sc fuel n k v = some x → n ≤ n' →
      GenerateSecret.loop d sc fuel' n' k v = some x := by
  intro n
  induction n with
  | zero => intro n' k v x h; simp [GenerateSecret.loop] at h
  | succ n ih =>
    intro n' k v x h hle
    obtain ⟨n'', rfl⟩ : ∃ n'', n' = n'' + 1 := ⟨n' - 1, by omega⟩
    simp only [GenerateSecret.loop] at h ⊢
    cases hfill : GenerateSecret.fill d sc k fuel [] v with
    | none => rw [hfill] at h; simp at h
    | some res =>
      rw [hfill] at h
      rw [GenerateSecret.fill_mono d sc k fuel fuel' [] v res hfill hf]
      obtain ⟨t, v'⟩ := res
      simp only [] at h ⊢
      split
      · rename_i hc
        rw [if_pos hc] at h
        exact h
      · rename_i hc
        rw [if_neg hc] at h
        exact ih _ _ _ _ h (by omega)

theorem GenerateSecret_mono (d : Deps) (sc : StarkCurve) (f f' : Nat)
    (msgHash privKey seed k : Int)
    (h : GenerateSecret d sc f msgHash privKey seed = some k) (hle : f ≤ f') :
    GenerateSecret d sc f' msgHash privKey seed = some k := by
  unfold GenerateSecret at h ⊢
  exact GenerateSecret.loop_mono d sc f f' hle f f' _ _ k h hle

/-- Whatever the fuel, `GenerateSecret` has one result for given arguments. -/
theorem GenerateSecret_unique (d : Deps) (sc : StarkCurve) (f f' : Nat)
    (msgHash privKey seed k k' : Int)
    (h : GenerateSecret d sc f msgHash privKey seed = some k)
    (h' : GenerateSecret d sc f' msgHash privKey seed = some k') : k = k' := by
  have h1 := GenerateSecret_mono d sc f (max f f') msgHash privKey seed k h (le_max_left _ _)
  have h2 := GenerateSecret_mono d sc f' (max f f') msgHash privKey seed k' h'
    (le_max_right _ _)
  rw [h1] at h2
  exact Option.some.inj h2

/-! ## `Sign` -/

theorem Sign.loop_succ (d : Deps) (sc : StarkCurve) (fuel : Nat)
    (msgHash privKey : Int) (seed : List Int) (n : Nat) (k : Int)
    (hk : GenerateSecret d sc fuel msgHash privKey (Sign.inSeed seed) = some k) :
    Sign.loop d sc fuel msgHash privKey seed (n + 1)
      = if (d.EcMult sc k sc.EcGenX sc.EcGenY).1 ≤ 0
            ∨ sc.Max ≤ (d.EcMult sc k sc.EcGenX sc.EcGenY).1 then
          Sign.loop d sc fuel msgHash privKey seed n
        else if sc.N = 0 then some .panic
        else if ((d.EcMult sc k sc.EcGenX sc.EcGenY).1 * privKey + msgHash) % sc.N = 0 then
          Sign.loop d sc fuel msgHash privKey seed n
        else if DivMod k ((d.EcMult sc k sc.EcGenX sc.EcGenY).1 * privKey + msgHash) sc.N ≤ 0
            ∨ sc.Max
              ≤ DivMod k ((d.EcMult sc k sc.EcGenX sc.EcGenY).1 * privKey + msgHash) sc.N then
          Sign.loop d sc fuel msgHash privKey seed n
        else
          some (.ok ((d.EcMult sc k sc.EcGenX sc.EcGenY).1,
            InvModCurveSize sc
              (DivMod k ((d.EcMult sc k sc.EcGenX sc.EcGenY).1 * privKey + msgHash) sc.N))) := by
  simp only [Sign.loop, hk]

theorem Sign.loop_none_of_generateSecret (d : Deps) (sc : StarkCurve) (fuel : Nat)
    (msgHash privKey : Int) (seed : List Int) (n : Nat)
    (hk : GenerateSecret d sc fuel msgHash privKey (Sign.inSeed seed) = none) :
    Sign.loop d sc fuel msgHash privKey seed n = none := by
  cases n with
  | zero => rfl
  | succ n => simp only [Sign.loop, hk]

/-- The loop of `Sign` never produces an error. -/
theorem Sign.loop_ne_error (d : Deps) (sc : StarkCurve) (fuel : Nat)
    (msgHash privKey : Int) (seed : List Int) (e : Err) :
    ∀ n, Sign.loop d sc fuel msgHash privKey seed n ≠ some (.error e) := by
  intro n
  induction n with
  | zero => simp [Sign.loop]
  | succ n ih =>
    cases hk : GenerateSecret d sc fuel msgHash privKey (Sign.inSeed seed) with
    | none => rw [Sign.loop_none_of_generateSecret _ _ _ _ _ _ _ hk]; simp
    | some k =>
      rw [Sign.loop_succ _ _ _ _ _ _ _ _ hk]
      split_ifs <;> first | exact ih | simp

/-- When the candidate is rejected, `Sign`'s loop returns nothing, whatever the fuel. -/
theorem Sign.loop_rejected (d : Deps) (sc : StarkCurve) (f0 : Nat)
    (msgHash privKey : Int) (seed : List Int) (k : Int)
    (hk : GenerateSecret d sc f0 msgHash privKey (Sign.inSeed seed) = some k)
    (hN : sc.N ≠ 0) (hrej : Sign.rejects d sc msgHash privKey k) :
    ∀ fuel n, Sign.loop d sc fuel msgHash privKey seed n = none := by
  intro fuel n
  induction n with
  | zero => rfl
  | succ n ih =>
    cases hk' : GenerateSecret d sc fuel msgHash privKey (Sign.inSeed seed) with
    | none => exact Sign.loop_none_of_generateSecret _ _ _ _ _ _ _ hk'
    | some k' =>
      have hkk : k = k' := GenerateSecret_unique d sc f0 fuel _ _ _ k k' hk hk'
      subst hkk
      rw [Sign.loop_succ _ _ _ _ _ _ _ _ hk']
      unfold Sign.rejects at hrej
      simp only [] at hrej
      split_ifs with h1 h3 h4
      · exact ih
      · exact ih
      · exact ih
      · exfalso
        rcases hrej with h | h | h
        · exact h1 h
        · exact h3 h
        · exact h4 h

/-- When the candidate is accepted, `Sign`'s loop returns it for every sufficient fuel. -/
theorem Sign.loop_accepted (d : Deps) (sc : StarkCurve) (f0 : Nat)
    (msgHash privKey : Int) (seed : List Int) (k : Int)
    (hk : GenerateSecret d sc f0 msgHash privKey (Sign.inSeed seed) = some k)
    (hN : sc.N ≠ 0) (hacc : ¬ Sign.rejects d sc msgHash privKey k) :
    ∀ fuel n, f0 ≤ fuel →
      Sign.loop d sc fuel msgHash privKey seed (n + 1)
        = some (.ok ((d.EcMult sc k sc.EcGenX sc.EcGenY).1,
            InvModCurveSize sc
              (DivMod k ((d.EcMult sc k sc.EcGenX sc.EcGenY).1 * privKey + msgHash) sc.N))) := by
  intro fuel n hle
  have hk' := GenerateSecret_mono d sc f0 fuel _ _ _ k hk hle
  rw [Sign.loop_succ _ _ _ _ _ _ _ _ hk']
  unfold Sign.rejects at hacc
  simp only [] at hacc
  push_neg at hacc
  obtain ⟨⟨a1, a2⟩, a3, a4, a5⟩ := hacc
  rw [if_neg (by push_neg; exact ⟨a1, a2⟩), if_neg hN, if_neg a3,
    if_neg (by push_neg; exact ⟨a4, a5⟩)]

/-- What a returned signature comes from. -/
theorem Sign.loop_ok (d : Deps) (sc : StarkCurve) (fuel : Nat)
    (msgHash privKey : Int) (seed : List Int) (r s : Int) :
    ∀ n, Sign.loop d sc fuel msgHash privKey seed n = some (.ok (r, s)) →
      ∃ k, GenerateSecret d sc fuel msgHash privKey (Sign.inSeed seed) = some k
        ∧ r = (d.EcMult sc k sc.EcGenX sc.EcGenY).1
        ∧ sc.N ≠ 0
        ∧ ¬ Sign.rejects d sc msgHash privKey k
        ∧ s = InvModCurveSize sc (DivMod k (r * privKey + msgHash) sc.N) := by
  intro n
  induction n with
  | zero => intro h; simp [Sign.loop] at h
  | succ n ih =>
    intro h
    cases hk : GenerateSecret d sc fuel msgHash privKey (Sign.inSeed seed) with
    | none => rw [Sign.loop_none_of_generateSecret _ _ _ _ _ _ _ hk] at h; simp at h
    | some k =>
      rw [Sign.loop_succ _ _ _ _ _ _ _ _ hk] at h
      split_ifs at h with h1 h2 h3 h4
      · obtain ⟨k', hk', rest⟩ := ih h
        rw [hk] at hk'
        exact ⟨k', hk', rest⟩
      · simp at h
      · obtain ⟨k', hk', rest⟩ := ih h
        rw [hk] at hk'
        exact ⟨k', hk', rest⟩
      · obtain ⟨k', hk', rest⟩ := ih h
        rw [hk] at hk'
        exact ⟨k', hk', rest⟩
      · simp only [Option.some.injEq, Res.ok.injEq, Prod.mk.injEq] at h
        obtain ⟨hr, hs⟩ := h
        refine ⟨k, rfl, hr.symm, h2, ?_, ?_⟩
        · unfold Sign.rejects
          simp only []
          push_neg at h1 h4 ⊢
          exact ⟨h1, h3, h4⟩
        · rw [← hr]; exact hs.symm

theorem Sign_in_range (d : Deps) (sc : StarkCurve) (fuel : Nat) (msgHash privKey : Int)
    (seed : List Int) (h : 0 < msgHash ∧ msgHash < sc.Max) :
    Sign d sc fuel msgHash privKey seed = Sign.loop d sc fuel msgHash privKey seed fuel := by
  unfold Sign
  rw [if_neg (by omega)]

/-- C5: `Sign` returns an error exactly when `msgHash ≤ 0` or `msgHash ≥ Max`, whatever
the fuel, and the error is then "invalid bit length"; for `0 < msgHash < Max` it never
returns an error. -/
theorem C5_Sign_error_iff_out_of_range (d : Deps) (sc : StarkCurve) (fuel : Nat)
    (msgHash privKey : Int) (seed : List Int) (e : Err) :
    (Sign d sc fuel msgHash privKey seed = some (.error e)
      ↔ (msgHash ≤ 0 ∨ sc.Max ≤ msgHash) ∧ e = .invalidBitLength)
    ∧ Err.invalidBitLength.format = "invalid bit length" := by
  refine ⟨?_, rfl⟩
  unfold Sign
  split
  · rename_i h
    constructor
    · intro he
      simp only [Option.some.injEq, Res.error.injEq] at he
      exact ⟨h, he.symm⟩
    · rintro ⟨_, rfl⟩; rfl
  · rename_i h
    constructor
    · intro he
      exact absurd he (Sign.loop_ne_error d sc fuel msgHash privKey seed e fuel)
    · rintro ⟨h', _⟩; exact absurd h' h

/-- C6: a signature `(r, s)` returned by `Sign` on a curve of prime order `N` comes from
`k = GenerateSecret(msgHash, priv, seed or 0)` with `r` the x-coordinate of
`EcMult(k, EcGen)`, `0 < r < Max`, `agg = r * priv + msgHash` not `0` modulo `N`,
`w = DivMod(k, agg, N) = k * agg⁻¹ mod N` with `0 < w < Max`, and
`s = InvModCurveSize(w) = w⁻¹ mod N`; hence `s * k ≡ msgHash + r * priv (mod N)`. -/
theorem C6_Sign_signature_equation (d : Deps) (sc : StarkCurve) (fuel : Nat)
    (msgHash privKey : Int) (seed : List Int) (r s : Int)
    (hN : Nat.Prime sc.N.toNat)
    (h : Sign d sc fuel msgHash privKey seed = some (.ok (r, s))) :
    ∃ k, GenerateSecret d sc fuel msgHash privKey (Sign.inSeed seed) = some k
      ∧ r = (d.EcMult sc k sc.EcGenX sc.EcGenY).1
      ∧ 0 < r ∧ r < sc.Max
      ∧ (r * privKey + msgHash) % sc.N ≠ 0
      ∧ inv_mod (r * privKey + msgHash) sc.N * (r * privKey + msgHash) % sc.N = 1
      ∧ DivMod k (r * privKey + msgHash) sc.N
          = k * inv_mod (r * privKey + msgHash) sc.N % sc.N
      ∧ 0 < DivMod k (r * privKey + msgHash) sc.N
      ∧ DivMod k (r * privKey + msgHash) sc.N < sc.Max
      ∧ s = InvModCurveSize sc (DivMod k (r * privKey + msgHash) sc.N)
      ∧ s * DivMod k (r * privKey + msgHash) sc.N % sc.N = 1
      ∧ s * k % sc.N = (msgHash + r * privKey) % sc.N := by
  have hN1 : 1 < sc.N := by
    have := hN.one_lt
    omega
  have hloop : Sign.loop d sc fuel msgHash privKey seed fuel = some (.ok (r, s)) := by
    unfold Sign at h
    split at h
    · simp at h
    · exact h
  obtain ⟨k, hk, hr, _, hacc, hs⟩ := Sign.loop_ok d sc fuel msgHash privKey seed r s fuel hloop
  unfold Sign.rejects at hacc
  simp only [] at hacc
  rw [← hr] at hacc
  push_neg at hacc
  obtain ⟨⟨r1, r2⟩, hagg, w1, w2⟩ := hacc
  have hg : Int.gcd (r * privKey + msgHash) sc.N = 1 := gcd_eq_one_of_prime _ _ hN hagg
  have hinv := inv_mod_mul _ _ hN1 hg
  have hwlt : DivMod k (r * privKey + msgHash) sc.N < sc.N := by
    unfold DivMod; exact Int.emod_lt_of_pos _ (by omega)
  have hwN : DivMod k (r * privKey + msgHash) sc.N % sc.N ≠ 0 := by
    rw [Int.emod_eq_of_lt (by omega) hwlt]; omega
  have hgw : Int.gcd (DivMod k (r * privKey + msgHash) sc.N) sc.N = 1 :=
    gcd_eq_one_of_prime _ _ hN hwN
  have hsw : s * DivMod k (r * privKey + msgHash) sc.N % sc.N = 1 := by
    rw [hs]; exact inv_mod_mul _ _ hN1 hgw
  have hwk : DivMod k (r * privKey + msgHash) sc.N * (r * privKey + msgHash) % sc.N
      = k % sc.N := DivMod_mul _ _ _ hN1 hg
  refine ⟨k, hk, hr, by omega, by omega, hagg, hinv, rfl, by omega, by omega, hs, hsw, ?_⟩
  have e1 : (s * k) ≡ s * (DivMod k (r * privKey + msgHash) sc.N * (r * privKey + msgHash))
      [ZMOD sc.N] := (Int.ModEq.mul_left s hwk).symm
  have e2 : s * DivMod k (r * privKey + msgHash) sc.N ≡ 1 [ZMOD sc.N] := by
    unfold Int.ModEq
    rw [hsw, Int.emod_eq_of_lt (by omega) hN1]
  have e3 := Int.ModEq.mul_right (r * privKey + msgHash) e2
  have e4 : s * k ≡ 1 * (r * privKey + msgHash) [ZMOD sc.N] := by
    refine e1.trans ?_
    rw [← mul_assoc]
    exact e3
  unfold Int.ModEq at e4
  rw [e4, one_mul, add_comm]

/-- C7 (amended): every iteration of `Sign`'s loop calls `GenerateSecret` with the same
arguments and so draws the same `k`; when that candidate is rejected `Sign` never
returns, and when it is accepted `Sign` returns it for every sufficient fuel. -/
theorem C7_Sign_repeats_same_candidate (d : Deps) (sc : StarkCurve) (f0 : Nat)
    (msgHash privKey : Int) (seed : List Int) (k : Int)
    (hmsg : 0 < msgHash ∧ msgHash < sc.Max) (hN : sc.N ≠ 0)
    (hk : GenerateSecret d sc f0 msgHash privKey (Sign.inSeed seed) = some k) :
    (∀ fuel k', GenerateSecret d sc fuel msgHash privKey (Sign.inSeed seed) = some k' →
        k' = k)
    ∧ (Sign.rejects d sc msgHash privKey k →
        ∀ fuel, Sign d sc fuel msgHash privKey seed = none)
    ∧ (¬ Sign.rejects d sc msgHash privKey k →
        ∀ fuel, f0 ≤ fuel → 1 ≤ fuel →
          Sign d sc fuel msgHash privKey seed
            = some (.ok ((d.EcMult sc k sc.EcGenX sc.EcGenY).1,
                InvModCurveSize sc
                  (DivMod k ((d.EcMult sc k sc.EcGenX sc.EcGenY).1 * privKey + msgHash)
                    sc.N)))) := by
  refine ⟨?_, ?_, ?_⟩
  · intro fuel k' hk'
    exact GenerateSecret_unique d sc fuel f0 _ _ _ k' k hk' hk
  · intro hrej fuel
    rw [Sign_in_range d sc fuel msgHash privKey seed hmsg]
    exact Sign.loop_rejected d sc f0 msgHash privKey seed k hk hN hrej fuel fuel
  · intro hacc fuel hle h1
    rw [Sign_in_range d sc fuel msgHash privKey seed hmsg]
    obtain ⟨n, rfl⟩ : ∃ n, fuel = n + 1 := ⟨fuel - 1, by omega⟩
    exact Sign.loop_accepted d sc f0 msgHash privKey seed k hk hN hacc (n + 1) n hle

/-! ## `Verify` -/

/-- C8: `Verify` returns false whenever `r`, `s` or `msgHash` is outside `(0, Max)`, or
`w = InvModCurveSize(s)` is outside `(0, Max)`, or the public point is not on the curve,
given `N ≤ Max`. -/
theorem C8_Verify_rejects_out_of_range (d : Deps) (sc : StarkCurve)
    (msgHash r s pubX pubY : Int) (hNMax : sc.N ≤ sc.Max)
    (h : ¬ (0 < r ∧ r < sc.Max) ∨ ¬ (0 < s ∧ s < sc.Max)
        ∨ ¬ (0 < msgHash ∧ msgHash < sc.Max)
        ∨ ¬ (0 < InvModCurveSize sc s ∧ InvModCurveSize sc s < sc.Max)
        ∨ d.IsOnCurve sc pubX pubY = false) :
    Verify d sc msgHash r s pubX pubY = false := by
  unfold Verify
  simp only []
  split_ifs with h1 h2 h3 h4 h5
  · rfl
  · rfl
  · rfl
  · rfl
  · rfl
  · exfalso
    simp only [Bool.not_eq_true', Bool.not_eq_false] at h5
    rcases h with h | h | h | h | h
    · omega
    · omega
    · omega
    · omega
    · rw [h5] at h; cases h

/-- C9 (amended): for inputs that pass the range and on-curve checks, `Verify` accepts
exactly when `x_out == r` in the branch computed with `pub_y`, or that branch completed
with `x_out ≠ r` and `x_out == r` in the branch computed with `−pub_y`; a multiplier
error in the `pub_y` branch makes `Verify` return false. -/
theorem C9_Verify_accepts_iff (d : Deps) (sc : StarkCurve) (msgHash r s pubX pubY : Int)
    (hs : 0 < s ∧ s < sc.N) (hr : 0 < r ∧ r < sc.Max)
    (hw : 0 < InvModCurveSize sc s ∧ InvModCurveSize sc s < sc.Max)
    (hm : 0 < msgHash ∧ msgHash < sc.Max) (hc : d.IsOnCurve sc pubX pubY = true) :
    Verify d sc msgHash r s pubX pubY = true
      ↔ Verify.xOut d sc msgHash r (InvModCurveSize sc s) pubX pubY = some r
        ∨ ((∃ x, Verify.xOut d sc msgHash r (InvModCurveSize sc s) pubX pubY = some x
              ∧ x ≠ r)
            ∧ Verify.xOut d sc msgHash r (InvModCurveSize sc s) pubX (-pubY) = some r) := by
  unfold Verify Verify.xOut
  simp only []
  rw [if_neg (by omega), if_neg (by omega), if_neg (by omega), if_neg (by omega),
    if_neg (by simp [hc])]
  cases d.MimicEcMultAir sc msgHash sc.EcGenX sc.EcGenY sc.MinusShiftPointX
      sc.MinusShiftPointY with
  | error e => simp
  | ok zG =>
    simp only []
    cases d.MimicEcMultAir sc r pubX pubY sc.Gx sc.Gy with
    | error e => simp
    | ok rQ =>
      simp only []
      cases d.MimicEcMultAir sc (InvModCurveSize sc s) (d.Add sc zG.1 zG.2 rQ.1 rQ.2).1
          (d.Add sc zG.1 zG.2 rQ.1 rQ.2).2 sc.Gx sc.Gy with
      | error e => simp
      | ok wB =>
        simp only []
        by_cases hx : r = (d.Add sc wB.1 wB.2 sc.MinusShiftPointX sc.MinusShiftPointY).1
        · simp [← hx]
        · rw [if_neg hx]
          have hx' : (d.Add sc wB.1 wB.2 sc.MinusShiftPointX sc.MinusShiftPointY).1 ≠ r :=
            fun h => hx h.symm
          cases d.MimicEcMultAir sc r pubX (-pubY) sc.Gx sc.Gy with
          | error e => simp [hx']
          | ok rQ' =>
            simp only []
            cases d.MimicEcMultAir sc (InvModCurveSize sc s)
                (d.Add sc zG.1 zG.2 rQ'.1 rQ'.2).1 (d.Add sc zG.1 zG.2 rQ'.1 rQ'.2).2
                sc.Gx sc.Gy with
            | error e => simp [hx']
            | ok wB' =>
              simp only [hx', Option.some.injEq, false_or, ne_eq, exists_eq_left',
                not_false_eq_true, true_and]
              constructor
              · intro h
                split at h
                · rename_i h2; exact h2.symm
                · cases h
              · intro h
                rw [if_pos h.symm]

/-! ## Examples on the toy curve -/

theorem Example.toy_prime : Nat.Prime toyCurve.N.toNat := by
  show Nat.Prime 65167
  norm_num

set_option maxRecDepth 100000 in
/-- The secret for message hash 2 and private key 1. -/
theorem Example.toy_secret :
    GenerateSecret refDeps toyCurve 2 2 1 (Sign.inSeed []) = some 36797 := by
  decide!

set_option maxRecDepth 100000 in
theorem Example.toy_accepted : ¬ Sign.rejects refDeps toyCurve 2 1 36797 := by
  unfold Sign.rejects
  decide!

set_option maxRecDepth 100000 in
/-- The signature of message hash 2 under private key 1. -/
theorem Example.toy_sign :
    Sign refDeps toyCurve 2 2 1 [] = some (.ok (43927, 51629)) := by
  rw [Sign_in_range _ _ _ _ _ _ (by decide),
    Sign.loop_accepted refDeps toyCurve 2 2 1 [] 36797 Example.toy_secret (by decide)
      Example.toy_accepted 2 1 (le_refl _)]
  decide!

set_option maxRecDepth 100000 in
/-- The secret for message hash 1338 and private key 4. -/
theorem Example.toy_secret_rejected :
    GenerateSecret refDeps toyCurve 2 1338 4 (Sign.inSeed []) = some 28051 := by
  decide!

set_option maxRecDepth 100000 in
theorem Example.toy_rejected : Sign.rejects refDeps toyCurve 1338 4 28051 := by
  unfold Sign.rejects
  decide!

/-- C6 (witness): on the toy curve, of prime order, `Sign` returns `(43927, 51629)` for
message hash 2 and private key 1. -/
theorem C6_Sign_signature_equation_witness :
    Nat.Prime toyCurve.N.toNat
    ∧ Sign refDeps toyCurve 2 2 1 [] = some (.ok (43927, 51629))
    ∧ ∃ k, GenerateSecret refDeps toyCurve 2 2 1 (Sign.inSeed []) = some k
      ∧ (43927 : Int) = (refDeps.EcMult toyCurve k toyCurve.EcGenX toyCurve.EcGenY).1
      ∧ 0 < (43927 : Int) ∧ (43927 : Int) < toyCurve.Max
      ∧ (43927 * 1 + 2 : Int) % toyCurve.N ≠ 0
      ∧ inv_mod (43927 * 1 + 2) toyCurve.N * (43927 * 1 + 2) % toyCurve.N = 1
      ∧ DivMod k (43927 * 1 + 2) toyCurve.N
          = k * inv_mod (43927 * 1 + 2) toyCurve.N % toyCurve.N
      ∧ 0 < DivMod k (43927 * 1 + 2) toyCurve.N
      ∧ DivMod k (43927 * 1 + 2) toyCurve.N < toyCurve.Max
      ∧ (51629 : Int) = InvModCurveSize toyCurve (DivMod k (43927 * 1 + 2) toyCurve.N)
      ∧ 51629 * DivMod k (43927 * 1 + 2) toyCurve.N % toyCurve.N = 1
      ∧ 51629 * k % toyCurve.N = (2 + 43927 * 1) % toyCurve.N :=
  ⟨Example.toy_prime, Example.toy_sign,
    C6_Sign_signature_equation refDeps toyCurve 2 2 1 [] 43927 51629 Example.toy_prime
      Example.toy_sign⟩

/-- C7 (witness): on the toy curve the candidate for message hash 2 and private key 1 is
36797 and is accepted, so `Sign` returns for every fuel from 2. -/
theorem C7_Sign_repeats_same_candidate_witness :
    (0 < (2 : Int) ∧ (2 : Int) < toyCurve.Max) ∧ toyCurve.N ≠ 0
    ∧ GenerateSecret refDeps toyCurve 2 2 1 (Sign.inSeed []) = some 36797
    ∧ (∀ fuel k', GenerateSecret refDeps toyCurve fuel 2 1 (Sign.inSeed []) = some k' →
        k' = 36797)
    ∧ (¬ Sign.rejects refDeps toyCurve 2 1 36797 →
        ∀ fuel, 2 ≤ fuel → 1 ≤ fuel →
          Sign refDeps toyCurve fuel 2 1 []
            = some (.ok ((refDeps.EcMult toyCurve 36797 toyCurve.EcGenX toyCurve.EcGenY).1,
                InvModCurveSize toyCurve
                  (DivMod 36797
                    ((refDeps.EcMult toyCurve 36797 toyCurve.EcGenX toyCurve.EcGenY).1 * 1 + 2)
                    toyCurve.N)))) :=
  ⟨by decide, by decide, Example.toy_secret,
    (C7_Sign_repeats_same_candidate refDeps toyCurve 2 2 1 [] 36797 (by decide) (by decide)
      Example.toy_secret).1,
    (C7_Sign_repeats_same_candidate refDeps toyCurve 2 2 1 [] 36797 (by decide) (by decide)
      Example.toy_secret).2.2⟩

set_option maxRecDepth 100000 in
/-- C7 (counterexample): on the toy curve, for message hash 1338 and private key 4 the
candidate is `k = 28051`, for which `r = 32249` and `r * 4 + 1338 ≡ 0 (mod N)`; it is
rejected, every iteration draws it again, and `Sign` never returns. -/
theorem C7_counterexample :
    (0 < (1338 : Int) ∧ (1338 : Int) < toyCurve.Max)
    ∧ GenerateSecret refDeps toyCurve 2 1338 4 (Sign.inSeed []) = some 28051
    ∧ (refDeps.EcMult toyCurve 28051 toyCurve.EcGenX toyCurve.EcGenY).1 = 32249
    ∧ (32249 * 4 + 1338 : Int) % toyCurve.N = 0
    ∧ ∀ fuel, Sign refDeps toyCurve fuel 1338 4 [] = none := by
  refine ⟨by decide, Example.toy_secret_rejected, by decide!, by decide, ?_⟩
  intro fuel
  rw [Sign_in_range _ _ _ _ _ _ (by decide)]
  exact Sign.loop_rejected refDeps toyCurve 2 1338 4 [] 28051 Example.toy_secret_rejected
    (by decide) Example.toy_rejected fuel fuel

/-- C8 (witness): on the Stark curve `N ≤ Max`, and `Verify` rejects `r = 0`. -/
theorem C8_Verify_rejects_out_of_range_witness :
    starkCurve.N ≤ starkCurve.Max
    ∧ ¬ (0 < (0 : Int) ∧ (0 : Int) < starkCurve.Max)
    ∧ Verify refDeps starkCurve 1 0 1 starkCurve.EcGenX starkCurve.EcGenY = false :=
  ⟨by decide!, by decide,
    C8_Verify_rejects_out_of_range refDeps starkCurve 1 0 1 starkCurve.EcGenX
      starkCurve.EcGenY (by decide!) (Or.inl (by decide))⟩

set_option maxRecDepth 100000 in
theorem Example.toy_w : InvModCurveSize toyCurve 51629 = 32054 := by decide!

set_option maxRecDepth 100000 in
theorem Example.toy_xOut :
    Verify.xOut refDeps toyCurve 2 43927 (InvModCurveSize toyCurve 51629) 5 15572
      = some 43927 := by
  decide!

/-- C9 (witness): on the toy curve the signature `(43927, 51629)` of message hash 2 passes
the checks for the public key `(5, 15572)`, and `Verify` accepts it in the first branch. -/
theorem C9_Verify_accepts_iff_witness :
    (0 < (51629 : Int) ∧ (51629 : Int) < toyCurve.N)
    ∧ (0 < (43927 : Int) ∧ (43927 : Int) < toyCurve.Max)
    ∧ (0 < InvModCurveSize toyCurve 51629 ∧ InvModCurveSize toyCurve 51629 < toyCurve.Max)
    ∧ (0 < (2 : Int) ∧ (2 : Int) < toyCurve.Max)
    ∧ refDeps.IsOnCurve toyCurve 5 15572 = true
    ∧ Verify refDeps toyCurve 2 43927 51629 5 15572 = true :=
  ⟨by decide, by decide, by rw [Example.toy_w]; decide, by decide, by decide,
    (C9_Verify_accepts_iff refDeps toyCurve 2 43927 51629 5 15572 (by decide) (by decide)
      (by rw [Example.toy_w]; decide) (by decide) (by decide)).2 (Or.inl Example.toy_xOut)⟩

set_option maxRecDepth 100000 in
/-- C9 (counterexample): on the toy curve, for message hash 20, `r = 60953`, `s = 46732`
and the public key `(31379, 55496)`, the inputs pass the range and on-curve checks, the
multiplier fails in the `pub_y` branch, the `−pub_y` branch yields `x_out = r`, and
`Verify` returns false. -/
theorem C9_counterexample :
    (0 < (46732 : Int) ∧ (46732 : Int) < toyCurve.N)
    ∧ (0 < (60953 : Int) ∧ (60953 : Int) < toyCurve.Max)
    ∧ InvModCurveSize toyCurve 46732 = 56623
    ∧ (0 < (56623 : Int) ∧ (56623 : Int) < toyCurve.Max)
    ∧ (0 < (20 : Int) ∧ (20 : Int) < toyCurve.Max)
    ∧ refDeps.IsOnCurve toyCurve 31379 55496 = true
    ∧ Verify.xOut refDeps toyCurve 20 60953 56623 31379 55496 = none
    ∧ Verify.xOut refDeps toyCurve 20 60953 56623 31379 (-55496) = some 60953
    ∧ Verify refDeps toyCurve 20 60953 46732 31379 55496 = false := by
  refine ⟨by decide, by decide, by decide!, by decide, by decide, by decide, by decide!,
    by decide!, by decide!⟩

/-! ## The reference arithmetic and the group of the curve -/

section CurveGroup

open WeierstrassCurve.Affine

theorem Ref.P_pos (sc : StarkCurve) [hP : Fact (Nat.Prime sc.P.toNat)] : (0 : Int) < sc.P := by
  by_contra h
  have : sc.P.toNat = 0 := Int.toNat_eq_zero.2 (by omega)
  have hp := hP.out
  rw [this] at hp
  exact Nat.not_prime_zero hp

theorem Ref.P_cast (sc : StarkCurve) [hP : Fact (Nat.Prime sc.P.toNat)]
    : ((sc.P.toNat : Nat) : Int) = sc.P :=
  Int.toNat_of_nonneg (Ref.P_pos sc).le

theorem Ref.cast_emod (sc : StarkCurve) [hP : Fact (Nat.Prime sc.P.toNat)]
    (a : Int) : ((a % sc.P : Int) : ZMod sc.P.toNat) = a := by
  have h := ZMod.intCast_mod a sc.P.toNat
  rwa [Ref.P_cast] at h

theorem Ref.emod_eq_zero_iff (sc : StarkCurve) [hP : Fact (Nat.Prime sc.P.toNat)]
    (a : Int) : a % sc.P = 0 ↔ (a : ZMod sc.P.toNat) = 0 := by
  rw [ZMod.intCast_zmod_eq_zero_iff_dvd, Ref.P_cast]
  exact ⟨Int.dvd_of_emod_eq_zero, Int.emod_eq_zero_of_dvd⟩

theorem Ref.cast_DivMod (sc : StarkCurve) [hP : Fact (Nat.Prime sc.P.toNat)]
    (a b : Int) (hb : (b : ZMod sc.P.toNat) ≠ 0) :
    ((DivMod a b sc.P : Int) : ZMod sc.P.toNat) = (a : ZMod sc.P.toNat) / b := by
  have hP1 : 1 < sc.P := by
    have := hP.out.one_lt
    have := Ref.P_cast sc
    omega
  have hg : Int.gcd b sc.P = 1 := by
    apply gcd_eq_one_of_prime _ _ hP.out
    intro h
    exact hb ((Ref.emod_eq_zero_iff sc b).1 h)
  have h := inv_mod_mul b sc.P hP1 hg
  have h' : ((inv_mod b sc.P : Int) : ZMod sc.P.toNat) * b = 1 := by
    have := congrArg (fun z : Int => (z : ZMod sc.P.toNat)) h
    simp only [Ref.cast_emod] at this
    push_cast at this
    exact this
  unfold DivMod
  rw [Ref.cast_emod, Int.cast_mul, div_eq_mul_inv]
  congr 1
  exact eq_inv_of_mul_eq_one_left h'

theorem Ref.Rep.of_eq (sc : StarkCurve) [hP : Fact (Nat.Prime sc.P.toNat)]
    {pt : Int × Int} {Q : (Ref.W sc).Point} {x y : ZMod sc.P.toNat}
    (h : (Ref.W sc).Nonsingular x y) (hQ : Q = Point.some h)
    (hx : (pt.1 : ZMod sc.P.toNat) = x) (hy : (pt.2 : ZMod sc.P.toNat) = y) :
    Ref.Rep sc pt Q := by
  subst hx hy
  exact ⟨h, hQ⟩

theorem Ref.Rep.ne_zero (sc : StarkCurve)
    {pt : Int × Int} {Q : (Ref.W sc).Point} (h : Ref.Rep sc pt Q) :
    Q ≠ 0 := by
  obtain ⟨h, rfl⟩ := h
  exact Point.some_ne_zero h

theorem Ref.negY_eq (sc : StarkCurve) [hP : Fact (Nat.Prime sc.P.toNat)]
    (x y : ZMod sc.P.toNat) : (Ref.W sc).negY x y = -y := by
  simp [negY, Ref.W]

theorem Ref.cast_Double (sc : StarkCurve) [hP : Fact (Nat.Prime sc.P.toNat)]
    (x y : Int) (hy : (y : ZMod sc.P.toNat) ≠ -(y : ZMod sc.P.toNat)) :
    (((Ref.Double sc x y).1 : Int) : ZMod sc.P.toNat)
        = (Ref.W sc).addX x x ((Ref.W sc).slope x x y y)
    ∧ (((Ref.Double sc x y).2 : Int) : ZMod sc.P.toNat)
        = (Ref.W sc).addY x x y ((Ref.W sc).slope x x y y) := by
  have h2y : ((2 * y : Int) : ZMod sc.P.toNat) ≠ 0 := by
    push_cast
    intro h
    apply hy
    linear_combination h
  have hs : (Ref.W sc).slope (x : ZMod sc.P.toNat) x y y
      = ((3 * x * x + sc.Alpha : Int) : ZMod sc.P.toNat)
        / ((2 * y : Int) : ZMod sc.P.toNat) := by
    rw [slope_of_Y_ne rfl (by rw [Ref.negY_eq]; exact hy), Ref.negY_eq]
    simp only [Ref.W]
    push_cast
    congr 1 <;> ring
  rw [hs, ← Ref.cast_DivMod sc _ _ h2y]
  unfold Ref.Double
  simp only [Ref.cast_emod, Int.cast_sub, Int.cast_mul, Int.cast_add, Int.cast_ofNat,
    addX, addY, negAddY, negY, Ref.W]
  constructor <;> ring

theorem Ref.cast_Add_chord (sc : StarkCurve) [hP : Fact (Nat.Prime sc.P.toNat)]
    (x1 y1 x2 y2 : Int)
    (hx : (x1 : ZMod sc.P.toNat) ≠ x2) :
    (((Ref.Add sc x1 y1 x2 y2).1 : Int) : ZMod sc.P.toNat)
        = (Ref.W sc).addX x1 x2 ((Ref.W sc).slope x1 x2 y1 y2)
    ∧ (((Ref.Add sc x1 y1 x2 y2).2 : Int) : ZMod sc.P.toNat)
        = (Ref.W sc).addY x1 x2 y1 ((Ref.W sc).slope x1 x2 y1 y2) := by
  have hx' : ((x1 - x2 : Int) : ZMod sc.P.toNat) ≠ 0 := by
    push_cast
    exact sub_ne_zero.2 hx
  have hc : ¬ (x1 - x2) % sc.P = 0 := fun h => hx' ((Ref.emod_eq_zero_iff sc _).1 h)
  have hs : (Ref.W sc).slope (x1 : ZMod sc.P.toNat) x2 y1 y2
      = ((y1 - y2 : Int) : ZMod sc.P.toNat) / ((x1 - x2 : Int) : ZMod sc.P.toNat) := by
    rw [slope_of_X_ne hx]
    push_cast
    rfl
  rw [hs, ← Ref.cast_DivMod sc _ _ hx']
  unfold Ref.Add
  rw [if_neg hc]
  simp only [Ref.cast_emod, Int.cast_sub, Int.cast_mul, Int.cast_add, Int.cast_ofNat,
    addX, addY, negAddY, negY, Ref.W]
  constructor <;> ring

theorem Ref.Rep.add (sc : StarkCurve) [hP : Fact (Nat.Prime sc.P.toNat)]
    {a b : Int × Int} {A B : (Ref.W sc).Point}
    (ha : Ref.Rep sc a A) (hb : Ref.Rep sc b B) (hne : A + B ≠ 0) :
    Ref.Rep sc (Ref.Add sc a.1 a.2 b.1 b.2) (A + B) := by
  obtain ⟨h1, rfl⟩ := ha
  obtain ⟨h2, rfl⟩ := hb
  have hxy : (a.1 : ZMod sc.P.toNat) = b.1
      → (a.2 : ZMod sc.P.toNat) ≠ (Ref.W sc).negY b.1 b.2 :=
    fun hx hy => hne (Point.add_of_Y_eq hx hy)
  have key : (((Ref.Add sc a.1 a.2 b.1 b.2).1 : Int) : ZMod sc.P.toNat)
        = (Ref.W sc).addX a.1 b.1 ((Ref.W sc).slope a.1 b.1 a.2 b.2)
      ∧ (((Ref.Add sc a.1 a.2 b.1 b.2).2 : Int) : ZMod sc.P.toNat)
        = (Ref.W sc).addY a.1 b.1 a.2 ((Ref.W sc).slope a.1 b.1 a.2 b.2) := by
    by_cases hx : (a.1 : ZMod sc.P.toNat) = b.1
    · have hy : (a.2 : ZMod sc.P.toNat) = b.2 :=
        (Y_eq_of_X_eq h1.1 h2.1 hx).resolve_right (hxy hx)
      have hAdd : Ref.Add sc a.1 a.2 b.1 b.2 = Ref.Double sc a.1 a.2 := by
        unfold Ref.Add
        rw [if_pos, if_pos]
        · rw [Ref.emod_eq_zero_iff, Int.cast_sub, hy, sub_self]
        · rw [Ref.emod_eq_zero_iff, Int.cast_sub, hx, sub_self]
      have hyy : (a.2 : ZMod sc.P.toNat) ≠ -(a.2 : ZMod sc.P.toNat) := by
        have := hxy hx
        rw [Ref.negY_eq, ← hy] at this
        exact this
      rw [hAdd, ← hx, ← hy]
      exact Ref.cast_Double sc a.1 a.2 hyy
    · exact Ref.cast_Add_chord sc a.1 a.2 b.1 b.2 hx
  exact Ref.Rep.of_eq sc (nonsingular_add h1 h2 hxy) (Point.add_of_imp hxy) key.1 key.2

theorem Ref.Rep.double (sc : StarkCurve) [hP : Fact (Nat.Prime sc.P.toNat)]
    {a : Int × Int} {A : (Ref.W sc).Point}
    (ha : Ref.Rep sc a A) (hne : A + A ≠ 0) :
    Ref.Rep sc (Ref.Double sc a.1 a.2) (A + A) := by
  obtain ⟨h1, rfl⟩ := ha
  have hyy : (a.2 : ZMod sc.P.toNat) ≠ -(a.2 : ZMod sc.P.toNat) := by
    intro hy
    exact hne (Point.add_of_Y_eq rfl (by rw [Ref.negY_eq]; exact hy))
  have hxy : (a.1 : ZMod sc.P.toNat) = a.1
      → (a.2 : ZMod sc.P.toNat) ≠ (Ref.W sc).negY a.1 a.2 := by
    intro _
    rw [Ref.negY_eq]
    exact hyy
  have key := Ref.cast_Double sc a.1 a.2 hyy
  exact Ref.Rep.of_eq sc (nonsingular_add h1 h1 hxy) (Point.add_of_imp hxy) key.1 key.2

theorem Ref.Rep.neg (sc : StarkCurve) [hP : Fact (Nat.Prime sc.P.toNat)]
    {a b : Int × Int} {A : (Ref.W sc).Point}
    (ha : Ref.Rep sc a A) (hx : (b.1 - a.1) % sc.P = 0) (hy : (b.2 + a.2) % sc.P = 0) :
    Ref.Rep sc b (-A) := by
  obtain ⟨h1, rfl⟩ := ha
  rw [Ref.emod_eq_zero_iff] at hx hy
  push_cast at hx hy
  refine Ref.Rep.of_eq sc (nonsingular_neg h1) (Point.neg_some h1) ?_ ?_
  · exact sub_eq_zero.1 hx
  · rw [Ref.negY_eq]
    exact eq_neg_of_add_eq_zero_left hy

theorem Ref.Rep.congr (sc : StarkCurve) [hP : Fact (Nat.Prime sc.P.toNat)]
    {a b : Int × Int} {A : (Ref.W sc).Point}
    (ha : Ref.Rep sc a A) (hx : (b.1 - a.1) % sc.P = 0) (hy : (b.2 - a.2) % sc.P = 0) :
    Ref.Rep sc b A := by
  obtain ⟨h1, rfl⟩ := ha
  rw [Ref.emod_eq_zero_iff] at hx hy
  push_cast at hx hy
  exact Ref.Rep.of_eq sc h1 rfl (sub_eq_zero.1 hx) (sub_eq_zero.1 hy)

theorem Ref.Rep.x_eq (sc : StarkCurve) [hP : Fact (Nat.Prime sc.P.toNat)]
    {a b : Int × Int} {A : (Ref.W sc).Point}
    (ha : Ref.Rep sc a A) (hb : Ref.Rep sc b A) :
    (a.1 : ZMod sc.P.toNat) = b.1 := by
  obtain ⟨h1, rfl⟩ := ha
  obtain ⟨h2, h⟩ := hb
  rw [Point.some.injEq] at h
  exact h.1

theorem Ref.Rep.add_ne_zero (sc : StarkCurve) [hP : Fact (Nat.Prime sc.P.toNat)]
    {a b : Int × Int} {A B : (Ref.W sc).Point}
    (ha : Ref.Rep sc a A) (hb : Ref.Rep sc b B) (hx : ¬ (a.1 - b.1) % sc.P = 0) :
    A + B ≠ 0 := by
  obtain ⟨h1, rfl⟩ := ha
  obtain ⟨h2, rfl⟩ := hb
  have hx' : (a.1 : ZMod sc.P.toNat) ≠ b.1 := by
    intro h
    apply hx
    rw [Ref.emod_eq_zero_iff, Int.cast_sub, h, sub_self]
  rw [Point.add_of_X_ne hx']
  exact Point.some_ne_zero _

theorem Ref.Rep.of_isOnCurve (sc : StarkCurve) [hP : Fact (Nat.Prime sc.P.toNat)] (x y : Int)
    (hd : (16 * (4 * sc.Alpha ^ 3 + 27 * sc.Beta ^ 2)) % sc.P ≠ 0)
    (h : Ref.IsOnCurve sc x y = true) :
    ∃ Q : (Ref.W sc).Point, Ref.Rep sc (x, y) Q := by
  have hΔ : (Ref.W sc).Δ ≠ 0 := by
    intro h0
    apply hd
    rw [Ref.emod_eq_zero_iff]
    have : (Ref.W sc).Δ = -(((16 * (4 * sc.Alpha ^ 3 + 27 * sc.Beta ^ 2) : Int) : Int)
        : ZMod sc.P.toNat) := by
      simp only [WeierstrassCurve.Δ, WeierstrassCurve.b₂, WeierstrassCurve.b₄,
        WeierstrassCurve.b₆, WeierstrassCurve.b₈, Ref.W]
      push_cast
      ring
    rw [this] at h0
    exact neg_eq_zero.1 h0
  have he : (Ref.W sc).Equation (x : ZMod sc.P.toNat) y := by
    rw [equation_iff]
    unfold Ref.IsOnCurve at h
    have h' := of_decide_eq_true h
    rw [Ref.emod_eq_zero_iff] at h'
    push_cast at h'
    simp only [Ref.W]
    linear_combination h'
  have hn := nonsingular_of_Δ_ne_zero (Ref.W sc) he hΔ
  exact ⟨Point.some hn, hn, rfl⟩

theorem Ref.Rep.isOnCurve (sc : StarkCurve) [hP : Fact (Nat.Prime sc.P.toNat)]
    {a : Int × Int} {A : (Ref.W sc).Point} (ha : Ref.Rep sc a A) :
    Ref.IsOnCurve sc a.1 a.2 = true := by
  obtain ⟨h1, -⟩ := ha
  have he := h1.1
  rw [equation_iff] at he
  unfold Ref.IsOnCurve
  apply decide_eq_true
  rw [Ref.emod_eq_zero_iff]
  push_cast
  simp only [Ref.W] at he
  linear_combination he

/-! ### Points of order `N` -/

theorem Ref.N_prime_int (sc : StarkCurve) (hN : Nat.Prime sc.N.toNat) : Prime sc.N := by
  have h0 : 0 ≤ sc.N := by
    by_contra h
    have : sc.N.toNat = 0 := Int.toNat_eq_zero.2 (by omega)
    rw [this] at hN
    exact Nat.not_prime_zero hN
  have := Nat.prime_iff_prime_int.1 hN
  rwa [Int.toNat_of_nonneg h0] at this

theorem Ref.HasOrder.smul (sc : StarkCurve) [hP : Fact (Nat.Prime sc.P.toNat)]
    {Q : (Ref.W sc).Point} (hQ : Ref.HasOrder sc Q)
    (hN : Prime sc.N) (c : Int) (hc : ¬ sc.N ∣ c) : Ref.HasOrder sc (c • Q) := by
  intro j
  rw [smul_smul, hQ]
  constructor
  · intro h
    exact (hN.dvd_or_dvd h).resolve_right hc
  · intro h
    exact Dvd.dvd.mul_right h c

theorem Ref.HasOrder.not_dvd_two (sc : StarkCurve)
    (hN : Prime sc.N) (hN2 : sc.N ≠ 2) (hN0 : 0 < sc.N) :
    ¬ sc.N ∣ 2 := by
  intro h
  have hle := Int.le_of_dvd (by norm_num) h
  have h1 : sc.N ≠ 1 := fun h1 => hN.not_unit (by rw [h1]; exact isUnit_one)
  omega

theorem Ref.HasOrder.add_self (sc : StarkCurve) [hP : Fact (Nat.Prime sc.P.toNat)]
    {Q : (Ref.W sc).Point} (hQ : Ref.HasOrder sc Q)
    (hN : Prime sc.N) (hN2 : sc.N ≠ 2) (hN0 : 0 < sc.N) :
    Ref.HasOrder sc (Q + Q) ∧ Q + Q ≠ 0 := by
  have h2 : Q + Q = (2 : Int) • Q := (two_zsmul Q).symm
  rw [h2]
  refine ⟨hQ.smul sc hN 2 (Ref.HasOrder.not_dvd_two sc hN hN2 hN0), ?_⟩
  intro h
  exact Ref.HasOrder.not_dvd_two sc hN hN2 hN0 ((hQ 2).1 h)

theorem Ref.HasOrder.smul_congr (sc : StarkCurve) [hP : Fact (Nat.Prime sc.P.toNat)]
    {Q : (Ref.W sc).Point} (hQ : Ref.HasOrder sc Q)
    (a b : Int) (h : (a - b) % sc.N = 0) : a • Q = b • Q := by
  have := (hQ (a - b)).2 (Int.dvd_of_emod_eq_zero h)
  rw [sub_zsmul] at this
  exact sub_eq_zero.1 this

/-! ### Scalar multiplication -/

theorem BitLen.go_lt : ∀ (fuel n : Nat), n ≤ fuel → n < 2 ^ BitLen.go fuel n := by
  intro fuel
  induction fuel with
  | zero =>
    intro n hn
    have : n = 0 := by omega
    subst this
    simp [BitLen.go]
  | succ f ih =>
    intro n hn
    unfold BitLen.go
    split_ifs with h0
    · subst h0
      simp
    · have := ih (n / 2) (by omega)
      rw [pow_succ]
      omega

theorem BitLen_lt (k : Int) (hk : 0 ≤ k) : k < 2 ^ BitLen k := by
  have := BitLen.go_lt k.natAbs k.natAbs le_rfl
  unfold BitLen
  have h2 : ((k.natAbs : Nat) : Int) < ((2 ^ BitLen.go k.natAbs k.natAbs : Nat) : Int) :=
    Int.ofNat_lt.2 this
  rw [Int.natAbs_of_nonneg hk] at h2
  push_cast at h2
  exact h2

theorem Ref.EcMult.go_rep (sc : StarkCurve) [hP : Fact (Nat.Prime sc.P.toNat)]
    (hN : Prime sc.N) (hN2 : sc.N ≠ 2) (hN0 : 0 < sc.N) :
    ∀ (fuel : Nat) (m : Int) (pt : Int × Int) (Q : (Ref.W sc).Point),
      Ref.Rep sc pt Q → Ref.HasOrder sc Q → 0 < m → m < sc.N → m < 2 ^ fuel →
      Ref.Rep sc (Ref.EcMult.go sc fuel m pt.1 pt.2) (m • Q) := by
  intro fuel
  induction fuel with
  | zero =>
    intro m pt Q _ _ h0 _ h2
    simp at h2
    omega
  | succ f ih =>
    intro m pt Q hpt hQ h0 hlt h2
    rw [Ref.EcMult.go]
    split_ifs with h1 hev
    · have : m = 1 := by omega
      subst this
      rw [one_zsmul]
      exact hpt
    · have hd := hQ.add_self sc hN hN2 hN0
      have := ih (m / 2) (Ref.Double sc pt.1 pt.2) (Q + Q) (hpt.double sc hd.2) hd.1
        (by omega) (by omega) (by rw [pow_succ] at h2; omega)
      have e : (m / 2) • (Q + Q) = m • Q := by
        rw [← two_zsmul, smul_smul]
        congr 1
        omega
      rw [e] at this
      exact this
    · have hd := hQ.add_self sc hN hN2 hN0
      have := ih (m / 2) (Ref.Double sc pt.1 pt.2) (Q + Q) (hpt.double sc hd.2) hd.1
        (by omega) (by omega) (by rw [pow_succ] at h2; omega)
      have e : (m / 2) • (Q + Q) + Q = m • Q := by
        rw [← two_zsmul, smul_smul]
        nth_rewrite 2 [← one_zsmul Q]
        rw [← add_zsmul]
        congr 1
        omega
      have hne : (m / 2) • (Q + Q) + Q ≠ 0 := by
        rw [e]
        intro h
        have := Int.le_of_dvd h0 ((hQ m).1 h)
        omega
      have r := this.add sc hpt hne
      rw [e] at r
      exact r

theorem Ref.EcMult_rep (sc : StarkCurve) [hP : Fact (Nat.Prime sc.P.toNat)]
    (hN : Prime sc.N) (hN2 : sc.N ≠ 2) (hN0 : 0 < sc.N)
    (m : Int) (pt : Int × Int) (Q : (Ref.W sc).Point)
    (hpt : Ref.Rep sc pt Q) (hQ : Ref.HasOrder sc Q) (hm : m % sc.N ≠ 0) :
    Ref.Rep sc (Ref.EcMult sc m pt.1 pt.2) (m • Q) := by
  unfold Ref.EcMult
  simp only
  rw [if_neg hm]
  have h0 : 0 ≤ m % sc.N := Int.emod_nonneg _ (by omega)
  have := Ref.EcMult.go_rep sc hN hN2 hN0 (BitLen (m % sc.N)) (m % sc.N) pt Q hpt hQ
    (by omega) (Int.emod_lt_of_pos _ hN0) (BitLen_lt _ h0)
  rw [hQ.smul_congr sc (m % sc.N) m (by
    rw [Int.sub_emod, Int.emod_emod_of_dvd _ (dvd_refl _), sub_self, Int.zero_emod])] at this
  exact this

theorem Ref.EcMult.checked_rep (sc : StarkCurve) [hP : Fact (Nat.Prime sc.P.toNat)] :
    ∀ (fuel : Nat) (m : Int) (pt res : Int × Int) (Q : (Ref.W sc).Point),
      Ref.Rep sc pt Q → 0 < m →
      Ref.EcMult.checked sc fuel m pt.1 pt.2 = some res →
      Ref.Rep sc res (m • Q) := by
  intro fuel
  induction fuel with
  | zero =>
    intro m pt res Q _ _ h
    simp [Ref.EcMult.checked] at h
  | succ f ih =>
    intro m pt res Q hpt h0 h
    rw [Ref.EcMult.checked] at h
    by_cases h1 : m ≤ 1
    · rw [if_pos h1] at h
      have : m = 1 := by omega
      subst this
      rw [one_zsmul]
      simp only [Option.some.injEq] at h
      rw [← h]
      exact hpt
    · rw [if_neg h1] at h
      by_cases h2 : (2 * pt.2) % sc.P = 0
      · rw [if_pos h2] at h
        simp at h
      · rw [if_neg h2] at h
        have hne : Q + Q ≠ 0 := by
          obtain ⟨hh, rfl⟩ := hpt
          intro hz
          apply h2
          rw [Ref.emod_eq_zero_iff]
          push_cast
          by_contra hc
          have hxy : (pt.1 : ZMod sc.P.toNat) = pt.1
              → (pt.2 : ZMod sc.P.toNat) ≠ (Ref.W sc).negY pt.1 pt.2 := by
            intro _ hy
            apply hc
            rw [Ref.negY_eq] at hy
            linear_combination hy
          rw [Point.add_of_imp hxy] at hz
          exact Point.some_ne_zero _ hz
        have hd := hpt.double sc hne
        cases hc : Ref.EcMult.checked sc f (m / 2) (Ref.Double sc pt.1 pt.2).1
            (Ref.Double sc pt.1 pt.2).2 with
        | none =>
          rw [hc] at h
          simp at h
        | some hh =>
          rw [hc] at h
          have hr := ih (m / 2) _ hh (Q + Q) hd (by omega) hc
          simp only at h
          by_cases hev : m % 2 = 0
          · rw [if_pos hev] at h
            simp only [Option.some.injEq] at h
            rw [← h]
            have e : (m / 2) • (Q + Q) = m • Q := by
              rw [← two_zsmul, smul_smul]
              congr 1
              omega
            rw [← e]
            exact hr
          · rw [if_neg hev] at h
            by_cases hx : (hh.1 - pt.1) % sc.P = 0
            · rw [if_pos hx] at h
              simp at h
            · rw [if_neg hx] at h
              simp only [Option.some.injEq] at h
              rw [← h]
              have e : (m / 2) • (Q + Q) + Q = m • Q := by
                rw [← two_zsmul, smul_smul]
                nth_rewrite 2 [← one_zsmul Q]
                rw [← add_zsmul]
                congr 1
                omega
              rw [← e]
              exact hr.add sc hpt (hr.add_ne_zero sc hpt hx)

/-! ### The shift-point ladder -/

theorem Ref.emod_two_pow_succ (m : Int) (hm : 0 ≤ m) (n : Nat) :
    m % 2 ^ (n + 1) = m % 2 + 2 * ((m / 2) % 2 ^ n) := by
  lift m to Nat using hm
  have := @Nat.mod_mul 2 (2 ^ n) m
  rw [pow_succ']
  exact_mod_cast this

theorem Ref.MimicEcMultAir.ladder_rep (sc : StarkCurve) [hP : Fact (Nat.Prime sc.P.toNat)]
    (hN : Prime sc.N) (hN2 : sc.N ≠ 2) (hN0 : 0 < sc.N) :
    ∀ (n : Nat) (m : Int) (pt ps res : Int × Int) (Q PS : (Ref.W sc).Point),
      Ref.Rep sc pt Q → Ref.HasOrder sc Q → Ref.Rep sc ps PS → 0 ≤ m →
      Ref.MimicEcMultAir.go sc n m pt.1 pt.2 ps.1 ps.2 = .ok res →
      Ref.Rep sc res (PS + (m % 2 ^ n) • Q) := by
  intro n
  induction n with
  | zero =>
    intro m pt ps res Q PS _ _ hps _ h
    simp only [Ref.MimicEcMultAir.go, Except.ok.injEq, Prod.mk.eta] at h
    rw [← h]
    simp only [pow_zero, Int.emod_one, zero_zsmul, add_zero]
    exact hps
  | succ n ih =>
    intro m pt ps res Q PS hpt hQ hps hm h
    rw [Ref.MimicEcMultAir.go] at h
    by_cases hx : (ps.1 - pt.1) % sc.P = 0
    · rw [if_pos hx] at h
      simp at h
    rw [if_neg hx] at h
    have hd := hQ.add_self sc hN hN2 hN0
    have hdbl := hpt.double sc hd.2
    simp only at h
    by_cases hodd : m % 2 = 1
    · rw [if_pos hodd] at h
      have hadd := hps.add sc hpt (hps.add_ne_zero sc hpt hx)
      have := ih (m / 2) _ _ res (Q + Q) (PS + Q) hdbl hd.1 hadd (by omega) h
      have e : PS + Q + (m / 2 % 2 ^ n) • (Q + Q) = PS + (m % 2 ^ (n + 1)) • Q := by
        rw [Ref.emod_two_pow_succ m hm n, hodd, ← two_zsmul, smul_smul, add_assoc]
        congr 1
        nth_rewrite 1 [← one_zsmul Q]
        rw [← add_zsmul]
        congr 1
        ring
      rw [e] at this
      exact this
    · rw [if_neg hodd] at h
      have := ih (m / 2) _ _ res (Q + Q) PS hdbl hd.1 hps (by omega) h
      have e : PS + (m / 2 % 2 ^ n) • (Q + Q) = PS + (m % 2 ^ (n + 1)) • Q := by
        rw [Ref.emod_two_pow_succ m hm n, ← two_zsmul, smul_smul]
        congr 2
        have : m % 2 = 0 := by omega
        rw [this]
        ring
      rw [e] at this
      exact this

/-! ### From a signature to the verifier's `x_out` -/

theorem Ref.Rep.unique (sc : StarkCurve) {a : Int × Int} {A B : (Ref.W sc).Point}
    (ha : Ref.Rep sc a A) (hb : Ref.Rep sc a B) : A = B := by
  obtain ⟨h1, rfl⟩ := ha
  obtain ⟨h2, rfl⟩ := hb
  rfl

theorem Ref.HasOrder.of_check (sc : StarkCurve) [hP : Fact (Nat.Prime sc.P.toNat)]
    (hN : Prime sc.N) (hN1 : 1 < sc.N) {G : (Ref.W sc).Point}
    (hG : Ref.Rep sc (sc.EcGenX, sc.EcGenY) G) (hc : Ref.generatorOrderCheck sc = true) :
    Ref.HasOrder sc G := by
  unfold Ref.generatorOrderCheck at hc
  cases hres : Ref.EcMult.checked sc (BitLen (sc.N - 1)) (sc.N - 1) sc.EcGenX sc.EcGenY with
  | none =>
    rw [hres] at hc
    simp at hc
  | some res =>
    rw [hres] at hc
    have hc' := of_decide_eq_true hc
    have h1 := Ref.EcMult.checked_rep sc _ (sc.N - 1) (sc.EcGenX, sc.EcGenY) res G hG
      (by omega) hres
    have h2 : Ref.Rep sc res (-G) := hG.neg sc hc'.1 hc'.2
    have h3 := h1.unique sc h2
    have hNG : sc.N • G = 0 := by
      have : sc.N = (sc.N - 1) + 1 := by ring
      rw [this, add_zsmul, h3, one_zsmul, neg_add_cancel]
    intro j
    constructor
    · intro hj
      by_contra hnd
      obtain ⟨u, v, huv⟩ := (Prime.coprime_iff_not_dvd hN).2 hnd
      apply hG.ne_zero sc
      calc G = (1 : Int) • G := (one_zsmul G).symm
        _ = (u * sc.N + v * j) • G := by rw [huv]
        _ = 0 := by
          rw [add_zsmul, ← smul_smul, ← smul_smul, hNG, hj, zsmul_zero, zsmul_zero, add_zero]
    · rintro ⟨c, rfl⟩
      rw [mul_comm, ← smul_smul, hNG, zsmul_zero]

theorem Ref.Add_fst_range (sc : StarkCurve) (x1 y1 x2 y2 : Int) (hP0 : 0 < sc.P) :
    0 ≤ (Ref.Add sc x1 y1 x2 y2).1 ∧ (Ref.Add sc x1 y1 x2 y2).1 < sc.P := by
  unfold Ref.Add Ref.Double
  split_ifs
  · exact ⟨Int.emod_nonneg _ (by omega), Int.emod_lt_of_pos _ hP0⟩
  · exact ⟨le_refl _, hP0⟩
  · exact ⟨Int.emod_nonneg _ (by omega), Int.emod_lt_of_pos _ hP0⟩

theorem Ref.MimicEcMultAir_rep (sc : StarkCurve) [hP : Fact (Nat.Prime sc.P.toNat)]
    (hN : Prime sc.N) (hN2 : sc.N ≠ 2) (hN0 : 0 < sc.N)
    (m : Int) (pt ps res : Int × Int) (Q PS : (Ref.W sc).Point)
    (hpt : Ref.Rep sc pt Q) (hQ : Ref.HasOrder sc Q) (hps : Ref.Rep sc ps PS)
    (hm : 0 ≤ m ∧ m < 2 ^ 251)
    (h : Ref.MimicEcMultAir sc m pt.1 pt.2 ps.1 ps.2 = .ok res) :
    Ref.Rep sc res (PS + m • Q) := by
  have := Ref.MimicEcMultAir.ladder_rep sc hN hN2 hN0 251 m pt ps res Q PS hpt hQ hps hm.1 h
  rwa [Int.emod_eq_of_lt hm.1 hm.2] at this

theorem Ref.xOut_eq (sc : StarkCurve) [hP : Fact (Nat.Prime sc.P.toNat)]
    (hN : Prime sc.N) (hN2 : sc.N ≠ 2) (hN0 : 0 < sc.N)
    {G S : (Ref.W sc).Point}
    (hG : Ref.Rep sc (sc.EcGenX, sc.EcGenY) G) (hS : Ref.Rep sc (sc.Gx, sc.Gy) S)
    (hMS : Ref.Rep sc (sc.MinusShiftPointX, sc.MinusShiftPointY) (-S))
    (hQ : Ref.HasOrder sc G)
    (msgHash r w k privKey : Int) (pub kG : Int × Int)
    (hpub : Ref.Rep sc pub (privKey • G)) (hpriv : ¬ sc.N ∣ privKey)
    (hkG : Ref.Rep sc kG (k • G)) (hk : ¬ sc.N ∣ k)
    (hagg : ¬ sc.N ∣ (r * privKey + msgHash))
    (hw : (w * (r * privKey + msgHash) - k) % sc.N = 0)
    (hm : 0 ≤ msgHash ∧ msgHash < 2 ^ 251) (hr : 0 ≤ r ∧ r < 2 ^ 251)
    (hw2 : 0 ≤ w ∧ w < 2 ^ 251) (x : Int)
    (hx : Verify.xOut refDeps sc msgHash r w pub.1 pub.2 = some x) :
    (x : ZMod sc.P.toNat) = kG.1 ∧ 0 ≤ x ∧ x < sc.P := by
  unfold Verify.xOut at hx
  simp only [refDeps] at hx
  cases h1 : Ref.MimicEcMultAir sc msgHash sc.EcGenX sc.EcGenY sc.MinusShiftPointX
      sc.MinusShiftPointY with
  | error e =>
    rw [h1] at hx
    simp at hx
  | ok zG =>
    rw [h1] at hx
    simp only at hx
    cases h2 : Ref.MimicEcMultAir sc r pub.1 pub.2 sc.Gx sc.Gy with
    | error e =>
      rw [h2] at hx
      simp at hx
    | ok rQ =>
      rw [h2] at hx
      simp only at hx
      cases h3 : Ref.MimicEcMultAir sc w (Ref.Add sc zG.1 zG.2 rQ.1 rQ.2).1
          (Ref.Add sc zG.1 zG.2 rQ.1 rQ.2).2 sc.Gx sc.Gy with
      | error e =>
        rw [h3] at hx
        simp at hx
      | ok wB =>
        rw [h3] at hx
        simp only [Option.some.injEq] at hx
        have hzG := Ref.MimicEcMultAir_rep sc hN hN2 hN0 msgHash (sc.EcGenX, sc.EcGenY)
          (sc.MinusShiftPointX, sc.MinusShiftPointY) zG G (-S) hG hQ hMS hm h1
        have hrQ := Ref.MimicEcMultAir_rep sc hN hN2 hN0 r pub (sc.Gx, sc.Gy) rQ
          (privKey • G) S hpub (hQ.smul sc hN privKey hpriv) hS hr h2
        have e : -S + msgHash • G + (S + r • privKey • G)
            = (r * privKey + msgHash) • G := by
          rw [smul_smul, add_zsmul]
          abel
        have hB := hzG.add sc hrQ (by
          rw [e]
          intro h
          exact hagg ((hQ _).1 h))
        rw [e] at hB
        have hwB := Ref.MimicEcMultAir_rep sc hN hN2 hN0 w _ (sc.Gx, sc.Gy) wB
          ((r * privKey + msgHash) • G) S hB (hQ.smul sc hN _ hagg) hS hw2 h3
        have e2 : S + w • (r * privKey + msgHash) • G + -S = k • G := by
          rw [smul_smul, hQ.smul_congr sc _ _ hw]
          abel
        have hout := hwB.add sc hMS (by
          rw [e2]
          intro h
          exact hk ((hQ _).1 h))
        rw [e2] at hout
        have hP0 := Ref.P_pos sc
        rw [← hx]
        exact ⟨hout.x_eq sc hkG, Ref.Add_fst_range sc _ _ _ _ hP0⟩

end CurveGroup

/-! ## Inverses modulo `N` are involutive -/

theorem inv_mod.go_below (m : Nat) :
    ∀ (fuel r0 r1 s0 s1 : Nat), s0 < m → s1 < m → inv_mod.go m fuel r0 r1 s0 s1 < m := by
  intro fuel
  induction fuel with
  | zero =>
    intro r0 r1 s0 s1 h0 _
    simpa [inv_mod.go] using h0
  | succ f ih =>
    intro r0 r1 s0 s1 h0 h1
    cases r1 with
    | zero => simpa [inv_mod.go] using h0
    | succ r =>
      simp only [inv_mod.go]
      exact ih _ _ _ _ h1 (Nat.mod_lt _ (by omega))

theorem inv_mod_range (a m : Int) (hm : 1 < m) : 0 ≤ inv_mod a m ∧ inv_mod a m < m := by
  have h := inv_mod.go_below m.toNat ((a % m).toNat + 1) m.toNat (a % m).toNat 0 1
    (by omega) (by omega)
  unfold inv_mod
  constructor
  · exact Int.natCast_nonneg _
  · omega

theorem inv_mod_inv_mod (w n : Int) (hn : Nat.Prime n.toNat) (hw : 0 < w ∧ w < n) :
    0 < inv_mod w n ∧ inv_mod w n < n ∧ inv_mod (inv_mod w n) n = w := by
  have hn1 : 1 < n := by
    have := hn.one_lt
    omega
  have hwm : w % n ≠ 0 := by
    rw [Int.emod_eq_of_lt hw.1.le hw.2]
    omega
  have h1 := inv_mod_mul w n hn1 (gcd_eq_one_of_prime w n hn hwm)
  have hs := inv_mod_range w n hn1
  have hs0 : inv_mod w n ≠ 0 := by
    intro h0
    rw [h0, zero_mul, Int.zero_emod] at h1
    omega
  have hsm : inv_mod w n % n ≠ 0 := by
    rw [Int.emod_eq_of_lt hs.1 hs.2]
    exact hs0
  have h2 := inv_mod_mul (inv_mod w n) n hn1 (gcd_eq_one_of_prime _ n hn hsm)
  have ht := inv_mod_range (inv_mod w n) n hn1
  have one_mod : (1 : Int) % n = 1 := Int.emod_eq_of_lt (by norm_num) hn1
  have e1 : inv_mod w n * w ≡ 1 [ZMOD n] := by
    unfold Int.ModEq
    rw [h1, one_mod]
  have e2 : inv_mod (inv_mod w n) n * inv_mod w n ≡ 1 [ZMOD n] := by
    unfold Int.ModEq
    rw [h2, one_mod]
  have e3 : inv_mod (inv_mod w n) n ≡ w [ZMOD n] :=
    calc inv_mod (inv_mod w n) n = inv_mod (inv_mod w n) n * 1 := (mul_one _).symm
      _ ≡ inv_mod (inv_mod w n) n * (inv_mod w n * w) [ZMOD n] := (e1.symm).mul_left _
      _ = (inv_mod (inv_mod w n) n * inv_mod w n) * w := by ring
      _ ≡ 1 * w [ZMOD n] := e2.mul_right _
      _ = w := one_mul w
  unfold Int.ModEq at e3
  rw [Int.emod_eq_of_lt ht.1 ht.2, Int.emod_eq_of_lt hw.1.le hw.2] at e3
  exact ⟨by omega, hs.2, e3⟩

/-! ## What `Sign` returns, and what `Verify` needs -/

theorem Sign_ok_facts (d : Deps) (sc : StarkCurve) (fuel : Nat) (msgHash privKey : Int)
    (seed : List Int) (r s : Int)
    (h : Sign d sc fuel msgHash privKey seed = some (.ok (r, s))) :
    (0 < msgHash ∧ msgHash < sc.Max)
      ∧ ∃ k, r = (d.EcMult sc k sc.EcGenX sc.EcGenY).1
        ∧ (0 < r ∧ r < sc.Max)
        ∧ (r * privKey + msgHash) % sc.N ≠ 0
        ∧ (0 < DivMod k (r * privKey + msgHash) sc.N
            ∧ DivMod k (r * privKey + msgHash) sc.N < sc.Max)
        ∧ s = InvModCurveSize sc (DivMod k (r * privKey + msgHash) sc.N) := by
  unfold Sign at h
  by_cases h0 : msgHash ≤ 0 ∨ sc.Max ≤ msgHash
  · rw [if_pos h0] at h
    simp at h
  rw [if_neg h0] at h
  have hm : 0 < msgHash ∧ msgHash < sc.Max := by omega
  refine ⟨hm, ?_⟩
  obtain ⟨k, -, hr, -, hacc, hs⟩ := Sign.loop_ok d sc fuel msgHash privKey seed r s fuel h
  unfold Sign.rejects at hacc
  simp only at hacc
  rw [← hr] at hacc
  push_neg at hacc
  exact ⟨k, hr, hacc.1, hacc.2.1, hacc.2.2, hs⟩

theorem Verify_of_xOut (d : Deps) (sc : StarkCurve) (msgHash r s pubX pubY : Int)
    (hs : 0 < s ∧ s < sc.N) (hr : 0 < r ∧ r < sc.Max)
    (hw : 0 < InvModCurveSize sc s ∧ InvModCurveSize sc s < sc.Max)
    (hm : 0 < msgHash ∧ msgHash < sc.Max) (hc : d.IsOnCurve sc pubX pubY = true)
    (hx : Verify.xOut d sc msgHash r (InvModCurveSize sc s) pubX pubY = some r) :
    Verify d sc msgHash r s pubX pubY = true := by
  unfold Verify
  unfold Verify.xOut at hx
  simp only []
  rw [if_neg (by omega), if_neg (by omega), if_neg (by omega), if_neg (by omega),
    if_neg (by simp [hc])]
  cases h1 : d.MimicEcMultAir sc msgHash sc.EcGenX sc.EcGenY sc.MinusShiftPointX
      sc.MinusShiftPointY with
  | error e =>
    rw [h1] at hx
    simp at hx
  | ok zG =>
    rw [h1] at hx
    simp only [] at hx ⊢
    cases h2 : d.MimicEcMultAir sc r pubX pubY sc.Gx sc.Gy with
    | error e =>
      rw [h2] at hx
      simp at hx
    | ok rQ =>
      rw [h2] at hx
      simp only [] at hx ⊢
      cases h3 : d.MimicEcMultAir sc (InvModCurveSize sc s) (d.Add sc zG.1 zG.2 rQ.1 rQ.2).1
          (d.Add sc zG.1 zG.2 rQ.1 rQ.2).2 sc.Gx sc.Gy with
      | error e =>
        rw [h3] at hx
        simp at hx
      | ok wB =>
        rw [h3] at hx
        simp only [Option.some.injEq] at hx
        simp only []
        rw [if_pos hx.symm]

/-- C4 (amended): with the callees of the specification, on a non-singular curve over a
prime field whose generator has prime order `N ≠ 2` and whose `MinusShiftPoint` is the
negated shift point, with `Max ≤ P`: when `Sign` returns `(r, s)` for a private key in
`(0, N)`, the three scalars fed to the 251-step multiplier (`msgHash`, `r` and
`w = InvModCurveSize(s)`) are below `2^251`, and the multipliers of the `pub_y` branch
complete, `Verify` accepts `(r, s)` for the public point `privKey · EcGen`. -/
theorem C4_round_trip_when_multipliers_complete (sc : StarkCurve) (fuel : Nat)
    (msgHash privKey r s : Int) (seed : List Int)
    (hP : Nat.Prime sc.P.toNat) (hN : Nat.Prime sc.N.toNat) (hN2 : sc.N ≠ 2)
    (hd : (16 * (4 * sc.Alpha ^ 3 + 27 * sc.Beta ^ 2)) % sc.P ≠ 0)
    (hG : Ref.IsOnCurve sc sc.EcGenX sc.EcGenY = true)
    (hS : Ref.IsOnCurve sc sc.Gx sc.Gy = true)
    (hMS : (sc.MinusShiftPointX - sc.Gx) % sc.P = 0
      ∧ (sc.MinusShiftPointY + sc.Gy) % sc.P = 0)
    (hord : Ref.generatorOrderCheck sc = true)
    (hMaxP : sc.Max ≤ sc.P)
    (hpriv : 0 < privKey ∧ privKey < sc.N)
    (hsign : Sign refDeps sc fuel msgHash privKey seed = some (.ok (r, s)))
    (hbits : msgHash < 2 ^ 251 ∧ r < 2 ^ 251 ∧ InvModCurveSize sc s < 2 ^ 251)
    (hlad : Verify.xOut refDeps sc msgHash r (InvModCurveSize sc s)
      (Ref.EcMult sc privKey sc.EcGenX sc.EcGenY).1
      (Ref.EcMult sc privKey sc.EcGenX sc.EcGenY).2 ≠ none) :
    Verify refDeps sc msgHash r s (Ref.EcMult sc privKey sc.EcGenX sc.EcGenY).1
      (Ref.EcMult sc privKey sc.EcGenX sc.EcGenY).2 = true := by
  haveI : Fact (Nat.Prime sc.P.toNat) := ⟨hP⟩
  have hNp := Ref.N_prime_int sc hN
  have hN1 : 1 < sc.N := by
    have := hN.one_lt
    omega
  have hN0 : 0 < sc.N := by omega
  obtain ⟨hm, k, hr, hrr, hagg, hw, hs⟩ :=
    Sign_ok_facts refDeps sc fuel msgHash privKey seed r s hsign
  obtain ⟨G, hGr⟩ := Ref.Rep.of_isOnCurve sc _ _ hd hG
  obtain ⟨S, hSr⟩ := Ref.Rep.of_isOnCurve sc _ _ hd hS
  have hMSr : Ref.Rep sc (sc.MinusShiftPointX, sc.MinusShiftPointY) (-S) :=
    hSr.neg sc hMS.1 hMS.2
  have hQ := Ref.HasOrder.of_check sc hNp hN1 hGr hord
  have hwN : DivMod k (r * privKey + msgHash) sc.N < sc.N := by
    unfold DivMod
    exact Int.emod_lt_of_pos _ hN0
  obtain ⟨hs0, hsN, hinv⟩ := inv_mod_inv_mod _ sc.N hN ⟨hw.1, hwN⟩
  have hws : InvModCurveSize sc s = DivMod k (r * privKey + msgHash) sc.N := by
    rw [hs]
    exact hinv
  have hkN : ¬ sc.N ∣ k := by
    intro hdvd
    have : DivMod k (r * privKey + msgHash) sc.N = 0 := by
      unfold DivMod
      exact Int.emod_eq_zero_of_dvd (Dvd.dvd.mul_right hdvd _)
    omega
  have hpN : ¬ sc.N ∣ privKey := by
    intro h
    have := Int.le_of_dvd hpriv.1 h
    omega
  have haggN : ¬ sc.N ∣ (r * privKey + msgHash) := fun h => hagg (Int.emod_eq_zero_of_dvd h)
  have hkG := Ref.EcMult_rep sc hNp hN2 hN0 k _ G hGr hQ
    (fun h => hkN (Int.dvd_of_emod_eq_zero h))
  have hpub := Ref.EcMult_rep sc hNp hN2 hN0 privKey _ G hGr hQ
    (fun h => hpN (Int.dvd_of_emod_eq_zero h))
  have hwk : (DivMod k (r * privKey + msgHash) sc.N * (r * privKey + msgHash) - k) % sc.N
      = 0 := by
    have := DivMod_mul k (r * privKey + msgHash) sc.N hN1
      (gcd_eq_one_of_prime _ sc.N hN hagg)
    exact Int.emod_eq_emod_iff_emod_sub_eq_zero.1 this
  rw [hws] at hlad hbits
  obtain ⟨x, hx⟩ := Option.ne_none_iff_exists'.1 hlad
  obtain ⟨hxc, hx0, hxP⟩ := Ref.xOut_eq sc hNp hN2 hN0 hGr hSr hMSr hQ msgHash r _ k privKey
    _ _ hpub hpN hkG hkN haggN hwk ⟨hm.1.le, hbits.1⟩ ⟨hrr.1.le, hbits.2.1⟩
    ⟨hw.1.le, hbits.2.2⟩ x hx
  have hxr : x = r := by
    have hr' : r = (Ref.EcMult sc k sc.EcGenX sc.EcGenY).1 := hr
    rw [← hr'] at hxc
    have h0 : (x - r) % sc.P = 0 := by
      rw [Ref.emod_eq_zero_iff, Int.cast_sub, hxc, sub_self]
    have h1 := Int.emod_eq_emod_iff_emod_sub_eq_zero.2 h0
    rw [Int.emod_eq_of_lt hx0 hxP, Int.emod_eq_of_lt hrr.1.le (by omega)] at h1
    exact h1
  apply Verify_of_xOut refDeps sc msgHash r s _ _ ⟨by rw [hs]; exact hs0, by rw [hs]; exact hsN⟩
    hrr (by rw [hws]; exact hw) hm (hpub.isOnCurve sc)
  rw [hws, hx, hxr]

/-! ## The round trip on the toy curve -/

theorem Example.toy_field_prime : Nat.Prime toyCurve.P.toNat := by
  show Nat.Prime 65537
  norm_num

set_option maxRecDepth 100000 in
/-- On the toy curve the generator has order `N`. -/
theorem Example.toy_order : Ref.generatorOrderCheck toyCurve = true := by
  decide!

set_option maxRecDepth 100000 in
/-- The public point of private key 1 is the generator. -/
theorem Example.toy_public :
    Ref.EcMult toyCurve 1 toyCurve.EcGenX toyCurve.EcGenY = (5, 15572) := by
  decide!

set_option maxRecDepth 100000 in
/-- C4 (witness): on the toy curve, for message hash 2 and private key 1, `Sign` returns
`(43927, 51629)`, the multipliers complete, and `Verify` accepts. -/
theorem C4_round_trip_when_multipliers_complete_witness :
    Nat.Prime toyCurve.P.toNat ∧ Nat.Prime toyCurve.N.toNat ∧ toyCurve.N ≠ 2
    ∧ (16 * (4 * toyCurve.Alpha ^ 3 + 27 * toyCurve.Beta ^ 2)) % toyCurve.P ≠ 0
    ∧ Ref.IsOnCurve toyCurve toyCurve.EcGenX toyCurve.EcGenY = true
    ∧ Ref.IsOnCurve toyCurve toyCurve.Gx toyCurve.Gy = true
    ∧ ((toyCurve.MinusShiftPointX - toyCurve.Gx) % toyCurve.P = 0
      ∧ (toyCurve.MinusShiftPointY + toyCurve.Gy) % toyCurve.P = 0)
    ∧ Ref.generatorOrderCheck toyCurve = true
    ∧ toyCurve.Max ≤ toyCurve.P
    ∧ (0 < (1 : Int) ∧ (1 : Int) < toyCurve.N)
    ∧ Sign refDeps toyCurve 2 2 1 [] = some (.ok (43927, 51629))
    ∧ ((2 : Int) < 2 ^ 251 ∧ (43927 : Int) < 2 ^ 251
      ∧ InvModCurveSize toyCurve 51629 < 2 ^ 251)
    ∧ Verify.xOut refDeps toyCurve 2 43927 (InvModCurveSize toyCurve 51629)
        (Ref.EcMult toyCurve 1 toyCurve.EcGenX toyCurve.EcGenY).1
        (Ref.EcMult toyCurve 1 toyCurve.EcGenX toyCurve.EcGenY).2 ≠ none
    ∧ Verify refDeps toyCurve 2 43927 51629
        (Ref.EcMult toyCurve 1 toyCurve.EcGenX toyCurve.EcGenY).1
        (Ref.EcMult toyCurve 1 toyCurve.EcGenX toyCurve.EcGenY).2 = true :=
  have hd : (16 * (4 * toyCurve.Alpha ^ 3 + 27 * toyCurve.Beta ^ 2)) % toyCurve.P ≠ 0 := by
    decide
  have hG : Ref.IsOnCurve toyCurve toyCurve.EcGenX toyCurve.EcGenY = true := by decide
  have hS : Ref.IsOnCurve toyCurve toyCurve.Gx toyCurve.Gy = true := by decide
  have hMS : (toyCurve.MinusShiftPointX - toyCurve.Gx) % toyCurve.P = 0
      ∧ (toyCurve.MinusShiftPointY + toyCurve.Gy) % toyCurve.P = 0 := by decide
  have hbits : (2 : Int) < 2 ^ 251 ∧ (43927 : Int) < 2 ^ 251
      ∧ InvModCurveSize toyCurve 51629 < 2 ^ 251 := by
    rw [Example.toy_w]
    decide
  have hlad : Verify.xOut refDeps toyCurve 2 43927 (InvModCurveSize toyCurve 51629)
      (Ref.EcMult toyCurve 1 toyCurve.EcGenX toyCurve.EcGenY).1
      (Ref.EcMult toyCurve 1 toyCurve.EcGenX toyCurve.EcGenY).2 ≠ none := by
    rw [Example.toy_public, Example.toy_xOut]
    simp
  ⟨Example.toy_field_prime, Example.toy_prime, by decide, hd, hG, hS, hMS, Example.toy_order,
    by decide, by decide, Example.toy_sign, hbits, hlad,
    C4_round_trip_when_multipliers_complete toyCurve 2 2 1 43927 51629 []
      Example.toy_field_prime Example.toy_prime (by decide) hd hG hS hMS Example.toy_order
      (by decide) (by decide) Example.toy_sign hbits hlad⟩

/-! ## A signature on the Stark curve that does not verify -/

set_option maxRecDepth 100000 in
/-- The secret for message hash `2^251` and private key 1 on the Stark curve. -/
theorem Example.stark_secret :
    GenerateSecret refDeps starkCurve 2 (2 ^ 251) 1 (Sign.inSeed [])
      = some 3338321563645780070311917070465591490500676069942501359389473240339249719365 := by
  decide!

set_option maxRecDepth 100000 in
/-- The x-coordinate of the secret multiple of the generator. -/
theorem Example.stark_r :
    (refDeps.EcMult starkCurve
      3338321563645780070311917070465591490500676069942501359389473240339249719365
      starkCurve.EcGenX starkCurve.EcGenY).1
      = 3448484346566275821504306696064992723849886070920446240234402503957080360981 := by
  decide!

set_option maxRecDepth 100000 in
theorem Example.stark_accepted :
    ¬ Sign.rejects refDeps starkCurve (2 ^ 251) 1
      3338321563645780070311917070465591490500676069942501359389473240339249719365 := by
  unfold Sign.rejects
  simp only []
  rw [Example.stark_r]
  decide!

set_option maxRecDepth 100000 in
/-- The signature of message hash `2^251` under private key 1 on the Stark curve. -/
theorem Example.stark_sign :
    Sign refDeps starkCurve 2 (2 ^ 251) 1 []
      = some (.ok
          (3448484346566275821504306696064992723849886070920446240234402503957080360981,
            822718849719039022000299066601804875088690118152152407467812347395677993494)) := by
  rw [Sign_in_range _ _ _ _ _ _ (by decide!),
    Sign.loop_accepted refDeps starkCurve 2 (2 ^ 251) 1 [] _ Example.stark_secret (by decide!)
      Example.stark_accepted 2 1 (le_refl _), Example.stark_r]
  decide!

set_option maxRecDepth 100000 in
/-- With the generator as public point, `Verify` rejects that signature. -/
theorem Example.stark_verify :
    Verify refDeps starkCurve (2 ^ 251)
      3448484346566275821504306696064992723849886070920446240234402503957080360981
      822718849719039022000299066601804875088690118152152407467812347395677993494
      starkCurve.EcGenX starkCurve.EcGenY = false := by
  decide!

set_option maxRecDepth 100000 in
/-- C4 (counterexample): on the Stark curve with `Max = P − 1`, the private key 1 lies in
`(0, N)` and the message hash `2^251` in `(0, Max)`; `Sign` returns a signature without
error, the public point `1 · EcGen` is the generator, and `Verify` rejects the
signature. -/
theorem C4_counterexample :
    (0 < (1 : Int) ∧ (1 : Int) < starkCurve.N)
    ∧ (0 < (2 ^ 251 : Int) ∧ (2 ^ 251 : Int) < starkCurve.Max)
    ∧ starkCurve.Max = starkCurve.P - 1
    ∧ Sign refDeps starkCurve 2 (2 ^ 251) 1 []
      = some (.ok
          (3448484346566275821504306696064992723849886070920446240234402503957080360981,
            822718849719039022000299066601804875088690118152152407467812347395677993494))
    ∧ Ref.EcMult starkCurve 1 starkCurve.EcGenX starkCurve.EcGenY
      = (starkCurve.EcGenX, starkCurve.EcGenY)
    ∧ Verify refDeps starkCurve (2 ^ 251)
        3448484346566275821504306696064992723849886070920446240234402503957080360981
        822718849719039022000299066601804875088690118152152407467812347395677993494
        starkCurve.EcGenX starkCurve.EcGenY = false :=
  ⟨by decide!, by decide!, by decide!, Example.stark_sign, by decide!, Example.stark_verify⟩

/-! ## `HashElements` is a left fold -/

theorem HashElements.foldl_error (d : Deps) (sc : StarkCurve) (l : List FeltPtr) (e : Err) :
    l.foldl (HashElements.step d sc) (.error e) = .error e := by
  induction l with
  | nil => rfl
  | cons a l ih => simpa [HashElements.step] using ih

theorem HashElements.foldl_panic (d : Deps) (sc : StarkCurve) (l : List FeltPtr) :
    l.foldl (HashElements.step d sc) .panic = .panic := by
  induction l with
  | nil => rfl
  | cons a l ih => simpa [HashElements.step] using ih

theorem HashElements.loop_eq_foldl (d : Deps) (sc : StarkCurve) (l : List FeltPtr)
    (h : Int) :
    HashElements.loop d sc l h = l.foldl (HashElements.step d sc) (.ok h) := by
  induction l generalizing h with
  | nil => rfl
  | cons a l ih =>
    rw [List.foldl_cons, HashElements.loop]
    cases hp : PedersenHash d sc [some h, a] with
    | ok h' =>
      simp only [HashElements.step, hp]
      exact ih h'
    | error e =>
      simp only [HashElements.step, hp]
      exact (HashElements.foldl_error d sc l e).symm
    | panic =>
      simp only [HashElements.step, hp]
      exact (HashElements.foldl_panic d sc l).symm

/-- C11: `HashElements(elems)` is the left fold of `h ↦ PedersenHash([h, e])` from
`h₀ = 0` over `elems` (over `[0]` when `elems` is empty), a fold that stops at the first
call that fails and returns its failure; on the empty list it returns
`PedersenHash([0, 0])`, which is also `HashElements([0])`. -/
theorem C11_HashElements_left_fold (d : Deps) (sc : StarkCurve) (elems : List FeltPtr) :
    HashElements d sc elems
        = (if elems = [] then [some 0] else elems).foldl (HashElements.step d sc) (.ok 0)
      ∧ (∀ (pre post : List FeltPtr) (h : Int) (e : FeltPtr) (err : Err),
          elems = pre ++ e :: post →
          pre.foldl (HashElements.step d sc) (.ok 0) = .ok h →
          PedersenHash d sc [some h, e] = .error err →
          HashElements d sc elems = .error err)
      ∧ HashElements d sc [] = PedersenHash d sc [some 0, some 0]
      ∧ HashElements d sc [] = HashElements d sc [some 0] := by
  have key : ∀ l : List FeltPtr, HashElements d sc l
      = (if l = [] then [some 0] else l).foldl (HashElements.step d sc) (.ok 0) := by
    intro l
    unfold HashElements
    simp only [List.length_eq_zero]
    cases l with
    | nil => simp [HashElements.loop_eq_foldl]
    | cons a l => simp [HashElements.loop_eq_foldl]
  refine ⟨key elems, ?_, ?_, ?_⟩
  · intro pre post h e err hel hpre herr
    rw [key, hel]
    have hne : ¬ (pre ++ e :: post = []) := by simp
    rw [if_neg hne, List.foldl_append, hpre, List.foldl_cons]
    simp only [HashElements.step, herr]
    exact HashElements.foldl_error d sc post err
  · rw [key]
    simp [HashElements.step]
  · rw [key, key]
    simp

/-- C11 (witness): on a curve without constant points the first call `PedersenHash([0, 5])`
of `HashElements([5])` fails, and `HashElements([5])` returns that error. -/
theorem C11_HashElements_left_fold_witness :
    ([some 5] : List FeltPtr) = [] ++ some 5 :: []
    ∧ ([] : List FeltPtr).foldl (HashElements.step refDeps toyCurve) (.ok 0) = .ok 0
    ∧ PedersenHash refDeps toyCurve [some 0, some 5] = .error .constantPointsMissing
    ∧ HashElements refDeps toyCurve [some 5] = .error .constantPointsMissing :=
  ⟨rfl, rfl, by decide,
    (C11_HashElements_left_fold refDeps toyCurve [some 5]).2.1 [] [] 0 (some 5)
      .constantPointsMissing rfl rfl (by decide)⟩

/-! ## The layout of the execute calldata -/

theorem flatCalldata_eq_flatMap (calls : List Transaction) :
    flatCalldata calls = calls.flatMap (fun tx => tx.Calldata) := by
  induction calls with
  | nil => rfl
  | cons tx rest ih => simp [flatCalldata, ih]

/-- The four header elements of call number `i`. -/
theorem callHeader_slice (off : Nat) (calls : List Transaction) (i : Nat)
    (hi : i < calls.length) :
    ((callHeader off calls).drop (4 * i)).take 4
      = [calls[i].ContractAddress, calls[i].EntryPointSelector]
        ++ (if calls[i].Calldata.length = 0 then [some 0, some 0]
            else [some ((off + (flatCalldata (calls.take i)).length : Nat) : Int),
              some (calls[i].Calldata.length : Int)]) := by
  induction calls generalizing off i with
  | nil => simp at hi
  | cons tx rest ih =>
    cases i with
    | zero =>
      by_cases h : tx.Calldata.length = 0 <;> simp [callHeader, h, flatCalldata]
    | succ i =>
      have hi' : i < rest.length := by simpa using hi
      have hd : (callHeader off (tx :: rest)).drop (4 * (i + 1))
          = (callHeader (off + tx.Calldata.length) rest).drop (4 * i) := by
        have h4 : 4 * (i + 1) = 4 + 4 * i := by ring
        rw [h4, ← List.drop_drop]
        by_cases h : tx.Calldata.length = 0 <;> simp [callHeader, h]
      rw [hd, ih (off + tx.Calldata.length) i hi']
      simp [flatCalldata, Nat.add_assoc]

/-- C12: for every nonce and every list of `m` calls, also the empty one, the result of
`fmtExecuteCalldata` ends with `[|flat|] ++ flat ++ [nonce]`, `flat` being the calls'
calldata concatenated in order; and for every `i < m` the four elements for call `i`
among the `4 * m` before the `|flat|` tag are `to_i, selector_i` followed by `0, 0` when
the call has no calldata and otherwise by the number of calldata elements of the earlier
calls and `|calldata_i|`. -/
theorem C12_fmtExecuteCalldata_layout (nonce : FeltPtr) (calls : List Transaction) :
    (fmtExecuteCalldata nonce calls).drop (5 * calls.length)
        = [some ((calls.flatMap (fun tx => tx.Calldata)).length : Int)]
          ++ calls.flatMap (fun tx => tx.Calldata) ++ [nonce]
      ∧ ∀ (i : Nat) (hi : i < calls.length),
          (((fmtExecuteCalldata nonce calls).take (5 * calls.length)).drop
              (calls.length + 4 * i)).take 4
            = [calls[i].ContractAddress, calls[i].EntryPointSelector]
              ++ (if calls[i].Calldata.length = 0 then [some 0, some 0]
                  else
                    [some
                      ((((calls.take i).flatMap (fun tx => tx.Calldata)).length : Nat) : Int),
                     some (calls[i].Calldata.length : Int)]) := by
  have hlen : (List.replicate calls.length (none : FeltPtr) ++ callHeader 0 calls).length
      = 5 * calls.length := by
    simp [callHeader_length]
    omega
  have hsplit : fmtExecuteCalldata nonce calls
      = (List.replicate calls.length none ++ callHeader 0 calls)
        ++ ([some ((flatCalldata calls).length : Int)] ++ flatCalldata calls ++ [nonce]) := by
    rw [fmtExecuteCalldata_eq]
    simp
  constructor
  · rw [hsplit, ← hlen, List.drop_left, flatCalldata_eq_flatMap]
  · intro i hi
    rw [hsplit, ← hlen, List.take_left, List.drop_append_eq_append_drop]
    have h1 : (List.replicate calls.length (none : FeltPtr)).drop (calls.length + 4 * i)
        = [] := by
      simp
    have h2 : calls.length + 4 * i - (List.replicate calls.length (none : FeltPtr)).length
        = 4 * i := by
      simp
    rw [h1, h2, List.nil_append, callHeader_slice 0 calls i hi, flatCalldata_eq_flatMap]
    simp

/-- C12 (witness): three calls with calldata `[1, 2, 3]`, `[]` and `[4, 5]` and nonce 7: the
result ends with `[5, 1, 2, 3, 4, 5, 7]`, and the headers are `0xA, 0xB, 0, 3`, then
`0xC, 0xD, 0, 0`, then `0xE, 0xF, 3, 2`, the offset 3 being the length of the first
call's calldata.  One call without calldata: the header pair is `0, 0` and the tag of the
flat calldata is `0`.  No call: the result ends with `[0, 7]`. -/
theorem C12_fmtExecuteCalldata_layout_witness :
    (fmtExecuteCalldata (some 7)
        [⟨some 0xA, some 0xB, [some 1, some 2, some 3]⟩, ⟨some 0xC, some 0xD, []⟩,
          ⟨some 0xE, some 0xF, [some 4, some 5]⟩]).drop 15
      = [some 5, some 1, some 2, some 3, some 4, some 5, some 7]
    ∧ (((fmtExecuteCalldata (some 7)
          [⟨some 0xA, some 0xB, [some 1, some 2, some 3]⟩, ⟨some 0xC, some 0xD, []⟩,
            ⟨some 0xE, some 0xF, [some 4, some 5]⟩]).take 15).drop 3).take 4
      = [some 0xA, some 0xB, some 0, some 3]
    ∧ (((fmtExecuteCalldata (some 7)
          [⟨some 0xA, some 0xB, [some 1, some 2, some 3]⟩, ⟨some 0xC, some 0xD, []⟩,
            ⟨some 0xE, some 0xF, [some 4, some 5]⟩]).take 15).drop 7).take 4
      = [some 0xC, some 0xD, some 0, some 0]
    ∧ (((fmtExecuteCalldata (some 7)
          [⟨some 0xA, some 0xB, [some 1, some 2, some 3]⟩, ⟨some 0xC, some 0xD, []⟩,
            ⟨some 0xE, some 0xF, [some 4, some 5]⟩]).take 15).drop 11).take 4
      = [some 0xE, some 0xF, some 3, some 2]
    ∧ (fmtExecuteCalldata (some 7) [⟨some 0xABC, some 0xDEF, []⟩]).drop 5
        = [some 0, some 7]
    ∧ (((fmtExecuteCalldata (some 7) [⟨some 0xABC, some 0xDEF, []⟩]).take 5).drop 1).take 4
        = [some 0xABC, some 0xDEF, some 0, some 0]
    ∧ (fmtExecuteCalldata (some 7) []).drop 0 = [some 0, some 7] :=
  ⟨(C12_fmtExecuteCalldata_layout (some 7)
      [⟨some 0xA, some 0xB, [some 1, some 2, some 3]⟩, ⟨some 0xC, some 0xD, []⟩,
        ⟨some 0xE, some 0xF, [some 4, some 5]⟩]).1,
    (C12_fmtExecuteCalldata_layout (some 7)
      [⟨some 0xA, some 0xB, [some 1, some 2, some 3]⟩, ⟨some 0xC, some 0xD, []⟩,
        ⟨some 0xE, some 0xF, [some 4, some 5]⟩]).2 0 (by decide),
    (C12_fmtExecuteCalldata_layout (some 7)
      [⟨some 0xA, some 0xB, [some 1, some 2, some 3]⟩, ⟨some 0xC, some 0xD, []⟩,
        ⟨some 0xE, some 0xF, [some 4, some 5]⟩]).2 1 (by decide),
    (C12_fmtExecuteCalldata_layout (some 7)
      [⟨some 0xA, some 0xB, [some 1, some 2, some 3]⟩, ⟨some 0xC, some 0xD, []⟩,
        ⟨some 0xE, some 0xF, [some 4, some 5]⟩]).2 2 (by decide),
    (C12_fmtExecuteCalldata_layout (some 7) [⟨some 0xABC, some 0xDEF, []⟩]).1,
    (C12_fmtExecuteCalldata_layout (some 7) [⟨some 0xABC, some 0xDEF, []⟩]).2 0 (by decide),
    (C12_fmtExecuteCalldata_layout (some 7) []).1⟩

/-! ## The secret lies in `(0, N)` -/

theorem GenerateSecret.loop_range (d : Deps) (sc : StarkCurve) (fuel : Nat) :
    ∀ (n : Nat) (k v : List Nat) (secret : Int),
      GenerateSecret.loop d sc fuel n k v = some secret → 0 < secret ∧ secret < sc.N := by
  intro n
  induction n with
  | zero =>
    intro k v secret h
    simp [GenerateSecret.loop] at h
  | succ n ih =>
    intro k v secret h
    rw [GenerateSecret.loop] at h
    cases hf : GenerateSecret.fill d sc k fuel [] v with
    | none =>
      rw [hf] at h
      simp at h
    | some tv =>
      obtain ⟨t, v'⟩ := tv
      rw [hf] at h
      simp only at h
      by_cases hc : 0 < d.bits2int (SetBytes t) sc.BitSize
          ∧ d.bits2int (SetBytes t) sc.BitSize < sc.N
      · rw [if_pos hc] at h
        simp only [Option.some.injEq] at h
        rw [← h]
        exact hc
      · rw [if_neg hc] at h
        exact ih _ _ _ h

/-- A candidate outside `(0, N)` is not returned: `K` and `V` are updated and the loop
goes on. -/
theorem GenerateSecret.loop_redraw (d : Deps) (sc : StarkCurve) (fuel n : Nat)
    (k v t v' : List Nat)
    (hf : GenerateSecret.fill d sc k fuel [] v = some (t, v'))
    (hc : ¬ (0 < d.bits2int (SetBytes t) sc.BitSize
      ∧ d.bits2int (SetBytes t) sc.BitSize < sc.N)) :
    GenerateSecret.loop d sc fuel (n + 1) k v
      = GenerateSecret.loop d sc fuel n (d.mac k (v' ++ [0x00]))
          (d.mac (d.mac k (v' ++ [0x00])) v') := by
  rw [GenerateSecret.loop, hf]
  simp only
  rw [if_neg hc]

/-- C13: every value `k` that `GenerateSecret` returns satisfies `0 < k < N`; in its final
loop a candidate that is not in `(0, N)` is not returned, `K` and `V` are updated with two
HMAC calls and the loop continues with the next candidate. -/
theorem C13_GenerateSecret_in_range (d : Deps) (sc : StarkCurve) (fuel : Nat)
    (msgHash privKey seed k : Int)
    (h : GenerateSecret d sc fuel msgHash privKey seed = some k) :
    (0 < k ∧ k < sc.N)
      ∧ ∀ (n : Nat) (K V t V' : List Nat),
          GenerateSecret.fill d sc K fuel [] V = some (t, V') →
          ¬ (0 < d.bits2int (SetBytes t) sc.BitSize
            ∧ d.bits2int (SetBytes t) sc.BitSize < sc.N) →
          GenerateSecret.loop d sc fuel (n + 1) K V
            = GenerateSecret.loop d sc fuel n (d.mac K (V' ++ [0x00]))
                (d.mac (d.mac K (V' ++ [0x00])) V') := by
  refine ⟨?_, fun n K V t V' hf hc => GenerateSecret.loop_redraw d sc fuel n K V t V' hf hc⟩
  unfold GenerateSecret at h
  exact GenerateSecret.loop_range d sc fuel _ _ _ _ h

/-! ## `Verify` after its range checks -/

/-- Past the range checks, `Verify` is decided by the on-curve check and the two
branches. -/
theorem Verify_iff_of_range (d : Deps) (sc : StarkCurve) (msgHash r s pubX pubY : Int)
    (hs : 0 < s ∧ s < sc.N) (hr : 0 < r ∧ r < sc.Max)
    (hw : 0 < InvModCurveSize sc s ∧ InvModCurveSize sc s < sc.Max)
    (hm : 0 < msgHash ∧ msgHash < sc.Max) :
    Verify d sc msgHash r s pubX pubY = true
      ↔ d.IsOnCurve sc pubX pubY = true
        ∧ (Verify.xOut d sc msgHash r (InvModCurveSize sc s) pubX pubY = some r
          ∨ ((∃ x, Verify.xOut d sc msgHash r (InvModCurveSize sc s) pubX pubY = some x
                ∧ x ≠ r)
              ∧ Verify.xOut d sc msgHash r (InvModCurveSize sc s) pubX (-pubY) = some r)) := by
  unfold Verify Verify.xOut
  simp only []
  rw [if_neg (by omega), if_neg (by omega), if_neg (by omega), if_neg (by omega)]
  by_cases hc : d.IsOnCurve sc pubX pubY = true
  swap
  · simp [hc]
  rw [if_neg (by simp [hc])]
  simp only [hc, true_and]
  cases d.MimicEcMultAir sc msgHash sc.EcGenX sc.EcGenY sc.MinusShiftPointX
      sc.MinusShiftPointY with
  | error e => simp
  | ok zG =>
    simp only []
    cases d.MimicEcMultAir sc r pubX pubY sc.Gx sc.Gy with
    | error e => simp
    | ok rQ =>
      simp only []
      cases d.MimicEcMultAir sc (InvModCurveSize sc s) (d.Add sc zG.1 zG.2 rQ.1 rQ.2).1
          (d.Add sc zG.1 zG.2 rQ.1 rQ.2).2 sc.Gx sc.Gy with
      | error e => simp
      | ok wB =>
        simp only []
        by_cases hx : r = (d.Add sc wB.1 wB.2 sc.MinusShiftPointX sc.MinusShiftPointY).1
        · simp [← hx]
        · rw [if_neg hx]
          have hx' : (d.Add sc wB.1 wB.2 sc.MinusShiftPointX sc.MinusShiftPointY).1 ≠ r :=
            fun h => hx h.symm
          cases d.MimicEcMultAir sc r pubX (-pubY) sc.Gx sc.Gy with
          | error e => simp [hx']
          | ok rQ' =>
            simp only []
            cases d.MimicEcMultAir sc (InvModCurveSize sc s)
                (d.Add sc zG.1 zG.2 rQ'.1 rQ'.2).1 (d.Add sc zG.1 zG.2 rQ'.1 rQ'.2).2
                sc.Gx sc.Gy with
            | error e => simp [hx']
            | ok wB' =>
              simp only [hx', Option.some.injEq, false_or, ne_eq, exists_eq_left',
                not_false_eq_true, true_and]
              constructor
              · intro h
                split at h
                · rename_i h2; exact h2.symm
                · cases h
              · intro h
                rw [if_pos h.symm]

/-- C14: with `N` prime, a signature `(r, s)` that `Sign` returns satisfies `0 < r < Max`
and `0 < s < N` (so `s < Max` when `N ≤ Max`); `InvModCurveSize(s)` is the `w` that `Sign`
computed from its secret `k`, and lies in `(0, Max)`; the message hash is in `(0, Max)`;
so `Verify` passes its four range checks and is decided by the on-curve check and the
two branches. -/
theorem C14_Sign_output_passes_range_checks (d : Deps) (sc : StarkCurve) (fuel : Nat)
    (msgHash privKey r s : Int) (seed : List Int)
    (hN : Nat.Prime sc.N.toNat)
    (h : Sign d sc fuel msgHash privKey seed = some (.ok (r, s))) :
    (0 < r ∧ r < sc.Max) ∧ (0 < s ∧ s < sc.N) ∧ (sc.N ≤ sc.Max → s < sc.Max)
      ∧ (∃ k, GenerateSecret d sc fuel msgHash privKey (Sign.inSeed seed) = some k
          ∧ r = (d.EcMult sc k sc.EcGenX sc.EcGenY).1
          ∧ InvModCurveSize sc s = DivMod k (r * privKey + msgHash) sc.N)
      ∧ (0 < InvModCurveSize sc s ∧ InvModCurveSize sc s < sc.Max)
      ∧ (0 < msgHash ∧ msgHash < sc.Max)
      ∧ ∀ pubX pubY : Int,
          (Verify d sc msgHash r s pubX pubY = true
            ↔ d.IsOnCurve sc pubX pubY = true
              ∧ (Verify.xOut d sc msgHash r (InvModCurveSize sc s) pubX pubY = some r
                ∨ ((∃ x, Verify.xOut d sc msgHash r (InvModCurveSize sc s) pubX pubY
                        = some x ∧ x ≠ r)
                    ∧ Verify.xOut d sc msgHash r (InvModCurveSize sc s) pubX (-pubY)
                        = some r))) := by
  have hN0 : 0 < sc.N := by
    have := hN.one_lt
    omega
  unfold Sign at h
  by_cases h0 : msgHash ≤ 0 ∨ sc.Max ≤ msgHash
  · rw [if_pos h0] at h
    simp at h
  rw [if_neg h0] at h
  have hm : 0 < msgHash ∧ msgHash < sc.Max := by omega
  obtain ⟨k, hk, hr, -, hacc, hs⟩ := Sign.loop_ok d sc fuel msgHash privKey seed r s fuel h
  unfold Sign.rejects at hacc
  simp only at hacc
  rw [← hr] at hacc
  push_neg at hacc
  obtain ⟨hrr, hagg, hw⟩ := hacc
  have hwN : DivMod k (r * privKey + msgHash) sc.N < sc.N := by
    unfold DivMod
    exact Int.emod_lt_of_pos _ hN0
  obtain ⟨hs0, hsN, hinv⟩ := inv_mod_inv_mod _ sc.N hN ⟨hw.1, hwN⟩
  have hws : InvModCurveSize sc s = DivMod k (r * privKey + msgHash) sc.N := by
    rw [hs]
    exact hinv
  have hsr : 0 < s ∧ s < sc.N := by
    rw [hs]
    exact ⟨hs0, hsN⟩
  have hwr : 0 < InvModCurveSize sc s ∧ InvModCurveSize sc s < sc.Max := by
    rw [hws]
    exact hw
  exact ⟨hrr, hsr, fun hle => by omega, ⟨k, hk, hr, hws⟩, hwr, hm,
    fun pubX pubY => Verify_iff_of_range d sc msgHash r s pubX pubY hsr hrr hwr hm⟩

/-- C15 (amended): `Verify` checks `s` against `N`, not `Max`: with `r`, `msgHash` and
`w = InvModCurveSize(s)` in `(0, Max)`, it returns false whenever `s ≤ 0` or `s ≥ N`, and
for `0 < s < N` it is decided by the on-curve check and the two branches. -/
theorem C15_Verify_checks_s_against_N (d : Deps) (sc : StarkCurve)
    (msgHash r s pubX pubY : Int) (hr : 0 < r ∧ r < sc.Max)
    (hw : 0 < InvModCurveSize sc s ∧ InvModCurveSize sc s < sc.Max)
    (hm : 0 < msgHash ∧ msgHash < sc.Max) :
    (s ≤ 0 ∨ sc.N ≤ s → Verify d sc msgHash r s pubX pubY = false)
      ∧ (0 < s ∧ s < sc.N →
          (Verify d sc msgHash r s pubX pubY = true
            ↔ d.IsOnCurve sc pubX pubY = true
              ∧ (Verify.xOut d sc msgHash r (InvModCurveSize sc s) pubX pubY = some r
                ∨ ((∃ x, Verify.xOut d sc msgHash r (InvModCurveSize sc s) pubX pubY
                        = some x ∧ x ≠ r)
                    ∧ Verify.xOut d sc msgHash r (InvModCurveSize sc s) pubX (-pubY)
                        = some r)))) := by
  constructor
  · intro hs
    unfold Verify
    simp only []
    rw [if_pos hs]
  · intro hs
    exact Verify_iff_of_range d sc msgHash r s pubX pubY hs hr hw hm

/-- C19: when `Verify` returns true, the branch computed with `pubY` or the branch
computed with `−pubY` completed its three `MimicEcMultAir` calls with `x_out = r`; and
`Verify` returns false when a multiplier fails in the `pubY` branch, when that branch
gives `x_out ≠ r` and a multiplier fails in the `−pubY` branch, and when both branches
give `x_out ≠ r`. -/
theorem C19_Verify_sound (d : Deps) (sc : StarkCurve) (msgHash r s pubX pubY : Int) :
    (Verify d sc msgHash r s pubX pubY = true →
        Verify.xOut d sc msgHash r (InvModCurveSize sc s) pubX pubY = some r
          ∨ Verify.xOut d sc msgHash r (InvModCurveSize sc s) pubX (-pubY) = some r)
      ∧ (Verify.xOut d sc msgHash r (InvModCurveSize sc s) pubX pubY = none →
          Verify d sc msgHash r s pubX pubY = false)
      ∧ (∀ x, Verify.xOut d sc msgHash r (InvModCurveSize sc s) pubX pubY = some x →
          x ≠ r →
          Verify.xOut d sc msgHash r (InvModCurveSize sc s) pubX (-pubY) = none →
          Verify d sc msgHash r s pubX pubY = false)
      ∧ (∀ x y, Verify.xOut d sc msgHash r (InvModCurveSize sc s) pubX pubY = some x →
          x ≠ r →
          Verify.xOut d sc msgHash r (InvModCurveSize sc s) pubX (-pubY) = some y → y ≠ r →
          Verify d sc msgHash r s pubX pubY = false) := by
  by_cases hrange : (0 < s ∧ s < sc.N) ∧ (0 < r ∧ r < sc.Max)
      ∧ (0 < InvModCurveSize sc s ∧ InvModCurveSize sc s < sc.Max)
      ∧ (0 < msgHash ∧ msgHash < sc.Max)
  · obtain ⟨hs, hr, hw, hm⟩ := hrange
    have key := Verify_iff_of_range d sc msgHash r s pubX pubY hs hr hw hm
    refine ⟨?_, ?_, ?_, ?_⟩
    · intro h
      rcases (key.1 h).2 with h1 | h1
      · exact Or.inl h1
      · exact Or.inr h1.2
    · intro h1
      rw [Bool.eq_false_iff]
      intro h
      rcases (key.1 h).2 with h2 | h2
      · rw [h1] at h2
        cases h2
      · obtain ⟨⟨x, hx, -⟩, -⟩ := h2
        rw [h1] at hx
        cases hx
    · intro x h1 hx h2
      rw [Bool.eq_false_iff]
      intro h
      rcases (key.1 h).2 with h3 | h3
      · rw [h1] at h3
        exact hx (Option.some.inj h3)
      · rw [h2] at h3
        cases h3.2
    · intro x y h1 hx h2 hy
      rw [Bool.eq_false_iff]
      intro h
      rcases (key.1 h).2 with h3 | h3
      · rw [h1] at h3
        exact hx (Option.some.inj h3)
      · rw [h2] at h3
        exact hy (Option.some.inj h3.2)
  · have hf : Verify d sc msgHash r s pubX pubY = false := by
      unfold Verify
      simp only []
      by_cases h1 : s ≤ 0 ∨ sc.N ≤ s
      · rw [if_pos h1]
      rw [if_neg h1]
      by_cases h2 : r ≤ 0 ∨ sc.Max ≤ r
      · rw [if_pos h2]
      rw [if_neg h2]
      by_cases h3 : InvModCurveSize sc s ≤ 0 ∨ sc.Max ≤ InvModCurveSize sc s
      · rw [if_pos h3]
      rw [if_neg h3]
      by_cases h4 : msgHash ≤ 0 ∨ sc.Max ≤ msgHash
      · rw [if_pos h4]
      exfalso
      apply hrange
      omega
    refine ⟨?_, fun _ => hf, fun _ _ _ _ => hf, fun _ _ _ _ _ _ => hf⟩
    intro h
    rw [hf] at h
    cases h

/-! ## `PedersenHash` against the specification -/

/-- C16: when the table of constant points is empty, `PedersenHash` returns the error
"must initiate precomputed constant points" and no hash, for every list of elements, and
leaves the elements as they are. -/
theorem C16_PedersenHash_empty_table (d : Deps) (sc : StarkCurve) (elems : List FeltPtr)
    (h : sc.ConstantPoints = []) :
    PedersenHash d sc elems = .error .constantPointsMissing
      ∧ PedersenHash.run d sc elems = (.error .constantPointsMissing, elems)
      ∧ Err.constantPointsMissing.format = "must initiate precomputed constant points" := by
  unfold PedersenHash PedersenHash.run
  rw [h]
  simp [Err.format]

/-- C16 (witness): the toy curve has no constant points, and `PedersenHash` fails on the
empty list and on `[1, 2]`. -/
theorem C16_PedersenHash_empty_table_witness :
    toyCurve.ConstantPoints = []
    ∧ PedersenHash refDeps toyCurve [] = .error .constantPointsMissing
    ∧ PedersenHash refDeps toyCurve [some 1, some 2] = .error .constantPointsMissing :=
  ⟨rfl, (C16_PedersenHash_empty_table refDeps toyCurve [] rfl).1,
    (C16_PedersenHash_empty_table refDeps toyCurve [some 1, some 2] rfl).1⟩

/-- Go `Rsh` by one bit is the floor division by two. -/
theorem shiftRight_one_eq_div (x : Int) : x >>> (1 : Int) = x / 2 := by
  cases x with
  | ofNat m =>
    have h := Int.shiftRight_coe_nat m 1
    rw [Nat.cast_one] at h
    rw [Int.ofNat_eq_coe, h, Nat.shiftRight_eq_div_pow, pow_one]
    norm_cast
  | negSucc m =>
    have h := Int.shiftRight_negSucc m 1
    rw [Nat.cast_one] at h
    rw [h, Nat.shiftRight_eq_div_pow, pow_one, Int.negSucc_ediv m (by norm_num),
      Int.negSucc_eq]
    norm_cast

theorem ediv_ediv_nat (x : Int) (a b : Nat) (ha : 0 < a) (hb : 0 < b) :
    x / (a : Int) / (b : Int) = x / ((a * b : Nat) : Int) := by
  cases x with
  | ofNat m =>
    rw [Int.ofNat_eq_coe]
    norm_cast
    exact Nat.div_div_eq_div_mul m a b
  | negSucc m =>
    have hab : 0 < a * b := Nat.mul_pos ha hb
    have e1 : Int.negSucc m / (a : Int) = Int.negSucc (m / a) := by
      rw [Int.negSucc_ediv m (by exact_mod_cast ha), Int.negSucc_eq]
      norm_cast
    have e2 : Int.negSucc (m / a) / (b : Int) = Int.negSucc (m / a / b) := by
      rw [Int.negSucc_ediv _ (by exact_mod_cast hb), Int.negSucc_eq]
      norm_cast
    have e3 : Int.negSucc m / ((a * b : Nat) : Int) = Int.negSucc (m / (a * b)) := by
      rw [Int.negSucc_ediv m (by exact_mod_cast hab), Int.negSucc_eq]
      norm_cast
    rw [e1, e2, e3, Nat.div_div_eq_div_mul]

theorem ediv_two_ediv_pow (x : Int) (t : Nat) : x / 2 / 2 ^ t = x / 2 ^ (t + 1) := by
  have := ediv_ediv_nat x 2 (2 ^ t) (by norm_num) (by positivity)
  rw [pow_succ, mul_comm]
  exact_mod_cast this

theorem foldl_range_succ_shift {α : Type} (f : α → Nat → α) (a : α) (n : Nat) :
    (List.range (n + 1)).foldl f a
      = (List.range n).foldl (fun b t => f b (t + 1)) (f a 0) := by
  rw [List.range_succ_eq_map, List.foldl_cons, List.foldl_map]

theorem PedersenHash.bits_spec (d : Deps) (sc : StarkCurve) (i : Nat) :
    ∀ (n j : Nat) (ptx pty x : Int), 2 + i * 252 + j + n ≤ sc.ConstantPoints.length →
      (∃ p q x', PedersenHash.bits d sc i n j ptx pty x
          = (.error (.constantPointDuplication p q), x'))
      ∨ ∃ x', PedersenHash.bits d sc i n j ptx pty x
          = (.ok ((List.range n).foldl
              (fun A t =>
                if (x / 2 ^ t) % 2 = 1 then
                  d.Add sc A.1 A.2 (sc.ConstantPoints.getD (2 + i * 252 + j + t) (0, 0)).1
                    (sc.ConstantPoints.getD (2 + i * 252 + j + t) (0, 0)).2
                else A)
              (ptx, pty)), x') := by
  intro n
  induction n with
  | zero =>
    intro j ptx pty x _
    exact Or.inr ⟨x, by simp [PedersenHash.bits]⟩
  | succ n ih =>
    intro j ptx pty x hlen
    have hidx : 2 + i * 252 + j < sc.ConstantPoints.length := by omega
    have hget : sc.ConstantPoints.get? (2 + i * 252 + j)
        = some (sc.ConstantPoints.getD (2 + i * 252 + j) (0, 0)) := by
      rw [List.getD_eq_getElem?_getD, List.get?_eq_getElem?, List.getElem?_eq_getElem hidx]
      rfl
    rw [PedersenHash.bits, hget]
    simp only
    by_cases hdup : (sc.ConstantPoints.getD (2 + i * 252 + j) (0, 0)).1 = ptx
    · rw [if_pos hdup]
      exact Or.inl ⟨_, _, _, rfl⟩
    · rw [if_neg hdup]
      rcases ih (j + 1)
          (if x % 2 = 1 then
            d.Add sc ptx pty (sc.ConstantPoints.getD (2 + i * 252 + j) (0, 0)).1
              (sc.ConstantPoints.getD (2 + i * 252 + j) (0, 0)).2
            else (ptx, pty)).1
          (if x % 2 = 1 then
            d.Add sc ptx pty (sc.ConstantPoints.getD (2 + i * 252 + j) (0, 0)).1
              (sc.ConstantPoints.getD (2 + i * 252 + j) (0, 0)).2
            else (ptx, pty)).2
          (x >>> 1) (by omega) with h | ⟨x', h⟩
      · exact Or.inl h
      · refine Or.inr ⟨x', ?_⟩
        rw [h, foldl_range_succ_shift]
        congr 2
        congr 1
        · funext A t
          have e1 : x >>> 1 / 2 ^ t = x / 2 ^ (t + 1) := by
            rw [shiftRight_one_eq_div, ediv_two_ediv_pow]
          have e2 : 2 + i * 252 + (j + 1) + t = 2 + i * 252 + j + (t + 1) := by omega
          rw [e1, e2]
        · simp

theorem PedersenHash.loop_spec (d : Deps) (sc : StarkCurve) :
    ∀ (es : List Int) (i : Nat) (ptx pty : Int),
      2 + 252 * (i + es.length) ≤ sc.ConstantPoints.length →
      (∀ e ∈ es, 0 ≤ e ∧ e < sc.P) →
      (∃ p q, (PedersenHash.loop d sc i (es.map some) ptx pty).1
          = .error (.constantPointDuplication p q))
      ∨ (PedersenHash.loop d sc i (es.map some) ptx pty).1
          = .ok (pedersenPoint d sc i es (ptx, pty)).1 := by
  intro es
  induction es with
  | nil =>
    intro i ptx pty _ _
    exact Or.inr (by simp [PedersenHash.loop, pedersenPoint])
  | cons e rest ih =>
    intro i ptx pty hlen hrange
    have he := hrange e (List.mem_cons_self _ _)
    have hg : ¬ (0 ≤ e ∧ sc.P ≤ e) := by omega
    rw [List.map_cons, PedersenHash.loop, if_neg hg]
    have hlen' : 2 + i * 252 + 0 + 252 ≤ sc.ConstantPoints.length := by
      simp only [List.length_cons] at hlen
      omega
    rcases PedersenHash.bits_spec d sc i 252 0 ptx pty e hlen' with ⟨p, q, x', h⟩ | ⟨x', h⟩
    · rw [h]
      exact Or.inl ⟨p, q, rfl⟩
    · rw [h]
      simp only
      have hf : (fun (A : Int × Int) (t : Nat) =>
            if e / 2 ^ t % 2 = 1 then
              d.Add sc A.1 A.2 (sc.ConstantPoints.getD (2 + i * 252 + 0 + t) (0, 0)).1
                (sc.ConstantPoints.getD (2 + i * 252 + 0 + t) (0, 0)).2
            else A)
          = (fun (A : Int × Int) (j : Nat) =>
            if (e / 2 ^ j) % 2 = 1 then
              d.Add sc A.1 A.2 (sc.ConstantPoints.getD (2 + 252 * i + j) (0, 0)).1
                (sc.ConstantPoints.getD (2 + 252 * i + j) (0, 0)).2
            else A) := by
        funext A t
        have e2 : 2 + i * 252 + 0 + t = 2 + 252 * i + t := by omega
        rw [e2]
      rw [hf]
      have := ih (i + 1)
        ((List.range 252).foldl
          (fun (A : Int × Int) (j : Nat) =>
            if (e / 2 ^ j) % 2 = 1 then
              d.Add sc A.1 A.2 (sc.ConstantPoints.getD (2 + 252 * i + j) (0, 0)).1
                (sc.ConstantPoints.getD (2 + 252 * i + j) (0, 0)).2
            else A) (ptx, pty)).1
        ((List.range 252).foldl
          (fun (A : Int × Int) (j : Nat) =>
            if (e / 2 ^ j) % 2 = 1 then
              d.Add sc A.1 A.2 (sc.ConstantPoints.getD (2 + 252 * i + j) (0, 0)).1
                (sc.ConstantPoints.getD (2 + 252 * i + j) (0, 0)).2
            else A) (ptx, pty)).2
        (by simp only [List.length_cons] at hlen; omega)
        (fun e' he' => hrange e' (List.mem_cons_of_mem _ he'))
      simpa [pedersenPoint] using this

/-- C17: when the table has at least `2 + 252 * n` entries and the `n` elements lie in
`[0, P)`, `PedersenHash` either returns a constant-point-duplication error or returns the
x-coordinate of the point reached from the shift point `(Gx, Gy)` by adding, for
`i = 0..n-1` and `j = 0..251` in that order, `CP[2 + 252 * i + j]` with `Add` exactly when
bit `j` of `e_i` is set; in particular it does not panic on an index out of range. -/
theorem C17_PedersenHash_follows_spec (d : Deps) (sc : StarkCurve) (es : List Int)
    (hlen : 2 + 252 * es.length ≤ sc.ConstantPoints.length)
    (hrange : ∀ e ∈ es, 0 ≤ e ∧ e < sc.P) :
    (∃ p q, PedersenHash d sc (es.map some) = .error (.constantPointDuplication p q))
      ∨ PedersenHash d sc (es.map some)
          = .ok (pedersenPoint d sc 0 es (sc.Gx, sc.Gy)).1 := by
  unfold PedersenHash PedersenHash.run
  have h0 : ¬ sc.ConstantPoints.length = 0 := by omega
  rw [if_neg h0]
  exact PedersenHash.loop_spec d sc es 0 sc.Gx sc.Gy (by simpa using hlen) hrange

/-- C17 (witness): the table of the Stark curve has `2 + 252 * 2` entries, enough for the
two elements `[h, 5]` with `h` the hash of `[0, 0]`; no duplication occurs, and the point
of the specification has the x-coordinate that `PedersenHash` returns. -/
theorem C17_PedersenHash_follows_spec_witness :
    2 + 252
        * ([0x49ee3eba8c1600700ee1b87eb599f16716b0b1022947733551fde4050ca6804, 5]
            : List Int).length
      ≤ starkCurve.ConstantPoints.length
    ∧ (∀ e ∈ ([0x49ee3eba8c1600700ee1b87eb599f16716b0b1022947733551fde4050ca6804, 5]
          : List Int),
        0 ≤ e ∧ e < starkCurve.P)
    ∧ (pedersenPoint refDeps starkCurve 0
          [0x49ee3eba8c1600700ee1b87eb599f16716b0b1022947733551fde4050ca6804, 5]
          (starkCurve.Gx, starkCurve.Gy)).1
        = 0x55aa7c32b043014bb7a82cf9a565a45f32b5f07a0adf67e53e47dcd05544b73 :=
  have hlen : 2 + 252
        * ([0x49ee3eba8c1600700ee1b87eb599f16716b0b1022947733551fde4050ca6804, 5]
            : List Int).length
      ≤ starkCurve.ConstantPoints.length := by
    decide!
  have hrange : ∀ e ∈
      ([0x49ee3eba8c1600700ee1b87eb599f16716b0b1022947733551fde4050ca6804, 5] : List Int),
      0 ≤ e ∧ e < starkCurve.P := by
    intro e he
    simp only [List.mem_cons, List.mem_singleton, List.not_mem_nil, or_false] at he
    rcases he with rfl | rfl <;> decide!
  ⟨hlen, hrange, by
    have hv : PedersenHash refDeps starkCurve
          (([0x49ee3eba8c1600700ee1b87eb599f16716b0b1022947733551fde4050ca6804, 5]
            : List Int).map some)
        = .ok 0x55aa7c32b043014bb7a82cf9a565a45f32b5f07a0adf67e53e47dcd05544b73 :=
      Example.pedersen_flat_nonce
    rcases C17_PedersenHash_follows_spec refDeps starkCurve
        [0x49ee3eba8c1600700ee1b87eb599f16716b0b1022947733551fde4050ca6804, 5] hlen hrange
      with ⟨p, q, h⟩ | h
    · rw [hv] at h
      cases h
    · rw [hv] at h
      exact (Res.ok.inj h).symm⟩

/-! ## `PedersenHash` never doubles -/

theorem PedersenHash.bits_congr (d d' : Deps) (sc : StarkCurve) (i : Nat)
    (hAdd : ∀ x1 y1 x2 y2 : Int, x1 ≠ x2 → d.Add sc x1 y1 x2 y2 = d'.Add sc x1 y1 x2 y2) :
    ∀ (n j : Nat) (ptx pty x : Int),
      PedersenHash.bits d sc i n j ptx pty x = PedersenHash.bits d' sc i n j ptx pty x := by
  intro n
  induction n with
  | zero =>
    intro j ptx pty x
    simp [PedersenHash.bits]
  | succ n ih =>
    intro j ptx pty x
    rw [PedersenHash.bits, PedersenHash.bits]
    cases hget : sc.ConstantPoints.get? (2 + i * 252 + j) with
    | none => rfl
    | some cp =>
      obtain ⟨xin, yin⟩ := cp
      simp only
      by_cases hdup : xin = ptx
      · rw [if_pos hdup, if_pos hdup]
      · rw [if_neg hdup, if_neg hdup, hAdd ptx pty xin yin (fun h => hdup h.symm)]
        exact ih _ _ _ _

theorem PedersenHash.loop_congr (d d' : Deps) (sc : StarkCurve)
    (hAdd : ∀ x1 y1 x2 y2 : Int, x1 ≠ x2 → d.Add sc x1 y1 x2 y2 = d'.Add sc x1 y1 x2 y2) :
    ∀ (elems : List FeltPtr) (i : Nat) (ptx pty : Int),
      PedersenHash.loop d sc i elems ptx pty = PedersenHash.loop d' sc i elems ptx pty := by
  intro elems
  induction elems with
  | nil =>
    intro i ptx pty
    simp [PedersenHash.loop]
  | cons e rest ih =>
    intro i ptx pty
    cases e with
    | none => simp [PedersenHash.loop]
    | some x =>
      rw [PedersenHash.loop, PedersenHash.loop,
        PedersenHash.bits_congr d d' sc i hAdd 252 0 ptx pty x]
      split_ifs
      · rfl
      · cases hb : PedersenHash.bits d' sc i 252 0 ptx pty x with
        | mk res x' =>
          cases res with
          | ok pt => simp only [ih]
          | error e => rfl
          | panic => rfl

/-- C18: `PedersenHash` calls `Add` only with operands of distinct x-coordinates: its
result, and the values it leaves in its arguments, do not depend on what `Add` returns
for operands with equal x-coordinates; and as soon as the constant point read from the
table has the x-coordinate of the accumulator, the bit loop stops with the error
"constant point duplication", which `PedersenHash` returns. -/
theorem C18_PedersenHash_never_doubles (d d' : Deps) (sc : StarkCurve)
    (elems : List FeltPtr)
    (hAdd : ∀ x1 y1 x2 y2 : Int, x1 ≠ x2 → d.Add sc x1 y1 x2 y2 = d'.Add sc x1 y1 x2 y2) :
    PedersenHash.run d sc elems = PedersenHash.run d' sc elems
      ∧ PedersenHash d sc elems = PedersenHash d' sc elems
      ∧ (∀ (i n j : Nat) (ptx pty x xin yin : Int),
          sc.ConstantPoints.get? (2 + i * 252 + j) = some (xin, yin) → xin = ptx →
          PedersenHash.bits d sc i (n + 1) j ptx pty x
            = (.error (.constantPointDuplication ptx xin), x))
      ∧ (∀ (i : Nat) (rest : List FeltPtr) (ptx pty x : Int) (e : Err),
          ¬ (0 ≤ x ∧ sc.P ≤ x) →
          (PedersenHash.bits d sc i 252 0 ptx pty x).1 = .error e →
          (PedersenHash.loop d sc i (some x :: rest) ptx pty).1 = .error e)
      ∧ (Err.constantPointDuplication 0 0).format = "constant point duplication: %v %v" := by
  have hrun : PedersenHash.run d sc elems = PedersenHash.run d' sc elems := by
    unfold PedersenHash.run
    split_ifs
    · rfl
    · exact PedersenHash.loop_congr d d' sc hAdd elems 0 sc.Gx sc.Gy
  refine ⟨hrun, ?_, ?_, ?_, rfl⟩
  · unfold PedersenHash
    rw [hrun]
  · intro i n j ptx pty x xin yin hget hdup
    rw [PedersenHash.bits, hget]
    simp only
    rw [if_pos hdup]
  · intro i rest ptx pty x e hg hb
    rw [PedersenHash.loop, if_neg hg]
    cases hbits : PedersenHash.bits d sc i 252 0 ptx pty x with
    | mk res x' =>
      rw [hbits] at hb
      simp only at hb
      subst hb
      rfl

/-- C18 (witness): on the Stark curve, replacing `Add` by a function that returns `(0, 0)`
for operands with equal x-coordinates does not change `PedersenHash([1, 2])`. -/
theorem C18_PedersenHash_never_doubles_witness :
    (∀ x1 y1 x2 y2 : Int, x1 ≠ x2 →
        refDeps.Add starkCurve x1 y1 x2 y2
          = ({ refDeps with
                Add := fun sc x1 y1 x2 y2 =>
                  if x1 = x2 then (0, 0) else Ref.Add sc x1 y1 x2 y2 } : Deps).Add
              starkCurve x1 y1 x2 y2)
    ∧ PedersenHash refDeps starkCurve [some 1, some 2]
        = PedersenHash
            ({ refDeps with
                Add := fun sc x1 y1 x2 y2 =>
                  if x1 = x2 then (0, 0) else Ref.Add sc x1 y1 x2 y2 } : Deps)
            starkCurve [some 1, some 2] :=
  have hAdd : ∀ x1 y1 x2 y2 : Int, x1 ≠ x2 →
      refDeps.Add starkCurve x1 y1 x2 y2
        = ({ refDeps with
              Add := fun sc x1 y1 x2 y2 =>
                if x1 = x2 then (0, 0) else Ref.Add sc x1 y1 x2 y2 } : Deps).Add
            starkCurve x1 y1 x2 y2 := by
    intro x1 y1 x2 y2 h
    simp only [refDeps, if_neg h]
  ⟨hAdd, (C18_PedersenHash_never_doubles refDeps _ starkCurve [some 1, some 2] hAdd).2.1⟩

/-! ## The message hash in `GenerateSecret` -/

theorem BitLen.go_eq (L : Nat) :
    ∀ (fuel n : Nat), n ≤ fuel → n < 2 ^ L → (L = 0 ∨ 2 ^ (L - 1) ≤ n) →
      BitLen.go fuel n = L := by
  induction L with
  | zero =>
    intro fuel n _ hlt _
    have hn : n = 0 := by
      simp at hlt
      exact hlt
    subst hn
    cases fuel <;> simp [BitLen.go]
  | succ L ih =>
    intro fuel n hf hlt hge
    have hge' : 2 ^ L ≤ n := by
      rcases hge with h | h
      · omega
      · simpa using h
    have hpos : 0 < 2 ^ L := by positivity
    cases fuel with
    | zero => omega
    | succ f =>
      rw [BitLen.go, if_neg (by omega)]
      congr 1
      apply ih f (n / 2) (by omega)
      · rw [pow_succ] at hlt
        omega
      · cases L with
        | zero => exact Or.inl rfl
        | succ L' =>
          right
          simp only [Nat.add_sub_cancel]
          rw [pow_succ] at hge'
          omega

/-- The model of `BitLen` is the bit length: the `L` with `2^(L-1) ≤ |x| < 2^L`, and `0`
for `x = 0`. -/
theorem BitLen_eq (x : Int) (L : Nat) (hlt : x.natAbs < 2 ^ L)
    (hge : L = 0 ∨ 2 ^ (L - 1) ≤ x.natAbs) : BitLen x = L :=
  BitLen.go_eq L x.natAbs x.natAbs le_rfl hlt hge

/-- C20: for a message hash of bit length `L`, the byte string that `GenerateSecret`
feeds to its HMAC calls is `int2octets(privKey) ‖ bits2octets(m)` followed by the bytes
of a positive seed, where `m = 16 * msgHash` when `L ≥ 248` and `L mod 8 ≤ 4`, and
`m = msgHash` otherwise; the secret is drawn from the HMAC chain keyed with that
string. -/
theorem C20_GenerateSecret_shifts_msgHash (d : Deps) (sc : StarkCurve) (fuel : Nat)
    (msgHash privKey seed : Int) (L : Nat)
    (hlt : msgHash.natAbs < 2 ^ L) (hge : L = 0 ∨ 2 ^ (L - 1) ≤ msgHash.natAbs) :
    BitLen msgHash = L
      ∧ GenerateSecret.byOctets d sc msgHash privKey seed
        = d.int2octets privKey ((sc.BitSize + 7) >>> 3)
          ++ d.bits2octets (if 248 ≤ L ∧ L % 8 ≤ 4 then 16 * msgHash else msgHash)
              sc.N sc.BitSize ((sc.BitSize + 7) >>> 3)
          ++ (if 0 < seed then Bytes seed else [])
      ∧ GenerateSecret d sc fuel msgHash privKey seed
        = GenerateSecret.loop d sc fuel fuel
            (d.mac
              (d.mac (List.replicate 32 0x00)
                (List.replicate 32 0x01 ++ [0x00]
                  ++ GenerateSecret.byOctets d sc msgHash privKey seed))
              (d.mac
                  (d.mac (List.replicate 32 0x00)
                    (List.replicate 32 0x01 ++ [0x00]
                      ++ GenerateSecret.byOctets d sc msgHash privKey seed))
                  (List.replicate 32 0x01)
                ++ [0x01] ++ GenerateSecret.byOctets d sc msgHash privKey seed))
            (d.mac
              (d.mac
                (d.mac (List.replicate 32 0x00)
                  (List.replicate 32 0x01 ++ [0x00]
                    ++ GenerateSecret.byOctets d sc msgHash privKey seed))
                (d.mac
                    (d.mac (List.replicate 32 0x00)
                      (List.replicate 32 0x01 ++ [0x00]
                        ++ GenerateSecret.byOctets d sc msgHash privKey seed))
                    (List.replicate 32 0x01)
                  ++ [0x01] ++ GenerateSecret.byOctets d sc msgHash privKey seed))
              (d.mac
                (d.mac (List.replicate 32 0x00)
                  (List.replicate 32 0x01 ++ [0x00]
                    ++ GenerateSecret.byOctets d sc msgHash privKey seed))
                (List.replicate 32 0x01))) := by
  have hL := BitLen_eq msgHash L hlt hge
  refine ⟨hL, ?_, rfl⟩
  unfold GenerateSecret.byOctets GenerateSecret.msgHash
  simp only [hL]
  by_cases hc : 248 ≤ L ∧ L % 8 ≤ 4
  · have hc' : L % 8 ≤ 4 ∧ L ≥ 248 := ⟨hc.2, hc.1⟩
    rw [if_pos hc, if_pos hc', mul_comm]
    by_cases hs : 0 < seed <;> simp [hs]
  · have hc' : ¬ (L % 8 ≤ 4 ∧ L ≥ 248) := fun h => hc ⟨h.2, h.1⟩
    rw [if_neg hc, if_neg hc']
    by_cases hs : 0 < seed <;> simp [hs]

/-- C20 (witness): `2^247` has bit length 248, which meets the condition, so
`bits2octets` receives `16 * 2^247`; `2` has bit length 2, which does not, so
`bits2octets` receives `2`. -/
theorem C20_GenerateSecret_shifts_msgHash_witness :
    (2 ^ 247 : Int).natAbs < 2 ^ 248 ∧ (248 = 0 ∨ 2 ^ (248 - 1) ≤ (2 ^ 247 : Int).natAbs)
    ∧ (2 : Int).natAbs < 2 ^ 2 ∧ (2 = 0 ∨ 2 ^ (2 - 1) ≤ (2 : Int).natAbs)
    ∧ GenerateSecret.byOctets refDeps starkCurve (2 ^ 247) 1 0
        = refDeps.int2octets 1 ((starkCurve.BitSize + 7) >>> 3)
          ++ refDeps.bits2octets (16 * 2 ^ 247) starkCurve.N starkCurve.BitSize
              ((starkCurve.BitSize + 7) >>> 3)
          ++ []
    ∧ GenerateSecret.byOctets refDeps starkCurve 2 1 0
        = refDeps.int2octets 1 ((starkCurve.BitSize + 7) >>> 3)
          ++ refDeps.bits2octets 2 starkCurve.N starkCurve.BitSize
              ((starkCurve.BitSize + 7) >>> 3)
          ++ [] :=
  have h1 : (2 ^ 247 : Int).natAbs < 2 ^ 248 := by decide!
  have h2 : 248 = 0 ∨ 2 ^ (248 - 1) ≤ (2 ^ 247 : Int).natAbs := Or.inr (by decide!)
  have h3 : (2 : Int).natAbs < 2 ^ 2 := by decide
  have h4 : 2 = 0 ∨ 2 ^ (2 - 1) ≤ (2 : Int).natAbs := Or.inr (by decide)
  ⟨h1, h2, h3, h4, by
    have h :=
      (C20_GenerateSecret_shifts_msgHash refDeps starkCurve 0 (2 ^ 247) 1 0 248 h1 h2).2.1
    rw [if_pos (by decide), if_neg (by decide)] at h
    exact h, by
    have h := (C20_GenerateSecret_shifts_msgHash refDeps starkCurve 0 2 1 0 2 h3 h4).2.1
    rw [if_neg (by decide), if_neg (by decide)] at h
    exact h⟩

/-! ## Range checks and verification on the example curves -/

/-- C13 (witness): on the toy curve the secret for message hash 2 and private key 1 is
36797, which lies in `(0, N)`. -/
theorem C13_GenerateSecret_in_range_witness :
    GenerateSecret refDeps toyCurve 2 2 1 (Sign.inSeed []) = some 36797
    ∧ (0 < (36797 : Int) ∧ (36797 : Int) < toyCurve.N) :=
  ⟨Example.toy_secret,
    (C13_GenerateSecret_in_range refDeps toyCurve 2 2 1 (Sign.inSeed []) 36797
      Example.toy_secret).1⟩

/-- C14 (witness): on the toy curve, of prime order, the signature `(43927, 51629)` of
message hash 2 under private key 1 passes the range checks of `Verify`. -/
theorem C14_Sign_output_passes_range_checks_witness :
    Nat.Prime toyCurve.N.toNat
    ∧ Sign refDeps toyCurve 2 2 1 [] = some (.ok (43927, 51629))
    ∧ (0 < (43927 : Int) ∧ (43927 : Int) < toyCurve.Max)
    ∧ (0 < (51629 : Int) ∧ (51629 : Int) < toyCurve.N)
    ∧ (0 < InvModCurveSize toyCurve 51629 ∧ InvModCurveSize toyCurve 51629 < toyCurve.Max)
    ∧ (0 < (2 : Int) ∧ (2 : Int) < toyCurve.Max) :=
  have h := C14_Sign_output_passes_range_checks refDeps toyCurve 2 2 1 43927 51629 []
    Example.toy_prime Example.toy_sign
  ⟨Example.toy_prime, Example.toy_sign, h.1, h.2.1, h.2.2.2.2.1, h.2.2.2.2.2.1⟩

/-- On the toy curve `Verify` accepts the signature `(43927, 51629)` of message hash 2 for
the public point `(5, 15572)`. -/
theorem Example.toy_verify : Verify refDeps toyCurve 2 43927 51629 5 15572 = true :=
  Verify_of_xOut refDeps toyCurve 2 43927 51629 5 15572 (by decide) (by decide)
    (by rw [Example.toy_w]; decide) (by decide) (by decide) Example.toy_xOut

set_option maxRecDepth 100000 in
theorem Example.toy_w_shifted : InvModCurveSize toyCurve (toyCurve.N + 1) = 1 := by
  decide!

/-- C15 (witness): on the toy curve, with `r = 43927`, message hash 2 and `w` in
`(0, Max)`: `Verify` accepts `s = 51629 < N` for the public point `(5, 15572)`, and
rejects `s = N + 1`, which is below `Max`. -/
theorem C15_Verify_checks_s_against_N_witness :
    (0 < (43927 : Int) ∧ (43927 : Int) < toyCurve.Max)
    ∧ (0 < InvModCurveSize toyCurve 51629 ∧ InvModCurveSize toyCurve 51629 < toyCurve.Max)
    ∧ (0 < InvModCurveSize toyCurve (toyCurve.N + 1)
        ∧ InvModCurveSize toyCurve (toyCurve.N + 1) < toyCurve.Max)
    ∧ (0 < (2 : Int) ∧ (2 : Int) < toyCurve.Max)
    ∧ (toyCurve.N ≤ toyCurve.N + 1 ∧ toyCurve.N + 1 < toyCurve.Max)
    ∧ Verify refDeps toyCurve 2 43927 51629 5 15572 = true
    ∧ Verify refDeps toyCurve 2 43927 (toyCurve.N + 1) 5 15572 = false :=
  have hr : 0 < (43927 : Int) ∧ (43927 : Int) < toyCurve.Max := by decide
  have hw : 0 < InvModCurveSize toyCurve 51629
      ∧ InvModCurveSize toyCurve 51629 < toyCurve.Max := by
    rw [Example.toy_w]
    decide
  have hw' : 0 < InvModCurveSize toyCurve (toyCurve.N + 1)
      ∧ InvModCurveSize toyCurve (toyCurve.N + 1) < toyCurve.Max := by
    rw [Example.toy_w_shifted]
    decide
  have hm : 0 < (2 : Int) ∧ (2 : Int) < toyCurve.Max := by decide
  ⟨hr, hw, hw', hm, by decide,
    ((C15_Verify_checks_s_against_N refDeps toyCurve 2 43927 51629 5 15572 hr hw hm).2
      (by decide)).2 ⟨by decide, Or.inl Example.toy_xOut⟩,
    (C15_Verify_checks_s_against_N refDeps toyCurve 2 43927 (toyCurve.N + 1) 5 15572 hr hw'
      hm).1 (Or.inr (by decide))⟩

set_option maxRecDepth 100000 in
theorem Example.stark_w_shifted : InvModCurveSize starkCurve (starkCurve.N + 1) = 1 := by
  decide!

set_option maxRecDepth 100000 in
/-- C15 (counterexample): on the Stark curve `s = N + 1` lies in `(0, Max)` with `N ≤ s`,
and `r = 1`, the message hash 1 and `w = InvModCurveSize(s) = 1` lie in `(0, Max)`; yet
`Verify` returns false whatever the public point is and whatever the callees return: it
rejects at the range check of `s`. -/
theorem C15_counterexample :
    (0 < starkCurve.N + 1 ∧ starkCurve.N + 1 < starkCurve.Max)
    ∧ starkCurve.N ≤ starkCurve.N + 1
    ∧ (0 < (1 : Int) ∧ (1 : Int) < starkCurve.Max)
    ∧ InvModCurveSize starkCurve (starkCurve.N + 1) = 1
    ∧ ∀ (d : Deps) (pubX pubY : Int),
        Verify d starkCurve 1 1 (starkCurve.N + 1) pubX pubY = false := by
  refine ⟨by decide!, by decide!, by decide!, Example.stark_w_shifted, ?_⟩
  intro d pubX pubY
  unfold Verify
  simp only []
  rw [if_pos (Or.inr (by decide!))]

/-- C19 (witness): on the toy curve `Verify` accepts the signature `(43927, 51629)` of
message hash 2, and the branch computed with the public `y` gives `x_out = r`. -/
theorem C19_Verify_sound_witness :
    Verify refDeps toyCurve 2 43927 51629 5 15572 = true
    ∧ (Verify.xOut refDeps toyCurve 2 43927 (InvModCurveSize toyCurve 51629) 5 15572
          = some 43927
        ∨ Verify.xOut refDeps toyCurve 2 43927 (InvModCurveSize toyCurve 51629) 5 (-15572)
          = some 43927) :=
  ⟨Example.toy_verify,
    (C19_Verify_sound refDeps toyCurve 2 43927 51629 5 15572).1 Example.toy_verify⟩

/-! ## What hashing leaves in its arguments -/

/-- When the bit loop completes, the element's integer has been shifted right once per
iteration. -/
theorem PedersenHash.bits_left (d : Deps) (sc : StarkCurve) (i : Nat) :
    ∀ (n j : Nat) (ptx pty x : Int) (pt : Int × Int) (x' : Int),
      PedersenHash.bits d sc i n j ptx pty x = (.ok pt, x') → x' = x / 2 ^ n := by
  intro n
  induction n with
  | zero =>
    intro j ptx pty x pt x' h
    simp only [PedersenHash.bits, Prod.mk.injEq] at h
    rw [← h.2]
    simp
  | succ n ih =>
    intro j ptx pty x pt x' h
    rw [PedersenHash.bits] at h
    cases hget : sc.ConstantPoints.get? (2 + i * 252 + j) with
    | none =>
      rw [hget] at h
      simp at h
    | some cp =>
      obtain ⟨xin, yin⟩ := cp
      rw [hget] at h
      simp only at h
      by_cases hdup : xin = ptx
      · rw [if_pos hdup] at h
        simp at h
      · rw [if_neg hdup] at h
        have := ih _ _ _ _ _ _ h
        rw [this, shiftRight_one_eq_div, ediv_two_ediv_pow]

/-- When `PedersenHash` returns a hash, every element is left holding its value shifted
right by 252 bits. -/
theorem PedersenHash.loop_left (d : Deps) (sc : StarkCurve) :
    ∀ (es : List Int) (i : Nat) (ptx pty h : Int),
      (PedersenHash.loop d sc i (es.map some) ptx pty).1 = .ok h →
      (PedersenHash.loop d sc i (es.map some) ptx pty).2
        = es.map (fun e => some (e / 2 ^ 252)) := by
  intro es
  induction es with
  | nil =>
    intro i ptx pty h _
    simp [PedersenHash.loop]
  | cons e rest ih =>
    intro i ptx pty h hok
    rw [List.map_cons, PedersenHash.loop] at hok ⊢
    by_cases hg : 0 ≤ e ∧ sc.P ≤ e
    · rw [if_pos hg] at hok
      simp at hok
    · rw [if_neg hg] at hok ⊢
      cases hb : PedersenHash.bits d sc i 252 0 ptx pty e with
      | mk res x' =>
        rw [hb] at hok
        cases res with
        | ok pt =>
          simp only at hok ⊢
          rw [ih (i + 1) pt.1 pt.2 h hok,
            PedersenHash.bits_left d sc i 252 0 ptx pty e pt x' hb]
          simp
        | error err => simp at hok
        | panic => simp at hok

theorem PedersenHash.run_shifts (d : Deps) (sc : StarkCurve) (es : List Int) (h : Int)
    (hok : PedersenHash d sc (es.map some) = .ok h) :
    PedersenHash.run d sc (es.map some) = (.ok h, es.map (fun e => some (e / 2 ^ 252))) := by
  unfold PedersenHash at hok
  unfold PedersenHash.run at hok ⊢
  by_cases h0 : sc.ConstantPoints.length = 0
  · rw [if_pos h0] at hok
    simp at hok
  · rw [if_neg h0] at hok ⊢
    exact Prod.ext hok (PedersenHash.loop_left d sc es 0 sc.Gx sc.Gy h hok)

/-- The result of `HashElements.run` is the result of `HashElements`. -/
theorem HashElements.loopRun_fst (d : Deps) (sc : StarkCurve) :
    ∀ (elems : List FeltPtr) (hash : Int),
      (HashElements.loopRun d sc elems hash).1 = HashElements.loop d sc elems hash := by
  intro elems
  induction elems with
  | nil =>
    intro hash
    rfl
  | cons e rest ih =>
    intro hash
    rw [HashElements.loopRun, HashElements.loop]
    unfold PedersenHash
    cases hr : PedersenHash.run d sc [some hash, e] with
    | mk res left =>
      cases res with
      | ok v =>
        simp only
        exact ih v
      | error err => rfl
      | panic => rfl

theorem HashElements.run_fst (d : Deps) (sc : StarkCurve) (elems : List FeltPtr) :
    (HashElements.run d sc elems).1 = HashElements d sc elems := by
  unfold HashElements.run HashElements
  by_cases h0 : elems.length = 0
  · simp only [h0, if_true]
  · simp only [h0, if_false]
    exact HashElements.loopRun_fst d sc elems 0

/-- When `HashElements` returns a hash, every element is left holding its value shifted
right by 252 bits. -/
theorem HashElements.loopRun_left (d : Deps) (sc : StarkCurve) :
    ∀ (es : List Int) (hash h : Int),
      (HashElements.loopRun d sc (es.map some) hash).1 = .ok h →
      (HashElements.loopRun d sc (es.map some) hash).2
        = es.map (fun e => some (e / 2 ^ 252)) := by
  intro es
  induction es with
  | nil =>
    intro hash h _
    rfl
  | cons e rest ih =>
    intro hash h hok
    rw [List.map_cons, HashElements.loopRun] at hok ⊢
    cases hp : PedersenHash d sc ([hash, e].map some) with
    | ok v =>
      have hr := PedersenHash.run_shifts d sc [hash, e] v hp
      simp only [List.map_cons, List.map_nil] at hr
      rw [hr] at hok ⊢
      simp only at hok ⊢
      rw [ih v h hok]
      simp
    | error err =>
      exfalso
      unfold PedersenHash at hp
      simp only [List.map_cons, List.map_nil] at hp
      cases hr : PedersenHash.run d sc [some hash, some e] with
      | mk res left =>
        rw [hr] at hp hok
        simp only at hp
        subst hp
        simp at hok
    | panic =>
      exfalso
      unfold PedersenHash at hp
      simp only [List.map_cons, List.map_nil] at hp
      cases hr : PedersenHash.run d sc [some hash, some e] with
      | mk res left =>
        rw [hr] at hp hok
        simp only at hp
        subst hp
        simp at hok

theorem HashElements.run_shifted (d : Deps) (sc : StarkCurve) (es : List Int) (h : Int)
    (hok : HashElements d sc (es.map some) = .ok h) :
    HashElements.run d sc (es.map some) = (.ok h, es.map (fun e => some (e / 2 ^ 252))) := by
  have h1 := HashElements.run_fst d sc (es.map some)
  rw [hok] at h1
  refine Prod.ext h1 ?_
  unfold HashElements.run at h1 ⊢
  by_cases h0 : (es.map some).length = 0
  · have : es = [] := by
      simpa using h0
    subst this
    rfl
  · rw [if_neg h0] at h1 ⊢
    exact HashElements.loopRun_left d sc es 0 h h1

theorem Example.pedersen_zero_one :
    PedersenHash refDeps starkCurve
        [some 0x0,
         some 0x1]
      = .ok 0x46c9aeb066cc2f41c7124af30514f9e607137fbac950524f5fdace5788f9d43 :=
  (PedersenHash_eq_fast _ _ _).trans (by decide!)

/-- C21 (code evaluated at the failing input): on the Stark curve, `PedersenHash([0, 1])`
returns a hash and leaves both elements holding `0`, so a second call on the same two
elements hashes `[0, 0]` and returns another value; `HashElements([1])` likewise leaves
its element holding `0`, and a second call returns the hash of `[0]`. -/
theorem C21_hashing_shifts_its_arguments :
    PedersenHash.run refDeps starkCurve [some 0, some 1]
        = (.ok 0x46c9aeb066cc2f41c7124af30514f9e607137fbac950524f5fdace5788f9d43,
            [some 0, some 0])
      ∧ PedersenHash refDeps starkCurve [some 0, some 0]
        = .ok 0x49ee3eba8c1600700ee1b87eb599f16716b0b1022947733551fde4050ca6804
      ∧ HashElements.run refDeps starkCurve [some 1]
        = (.ok 0x46c9aeb066cc2f41c7124af30514f9e607137fbac950524f5fdace5788f9d43, [some 0])
      ∧ HashElements refDeps starkCurve [some 0]
        = .ok 0x49ee3eba8c1600700ee1b87eb599f16716b0b1022947733551fde4050ca6804
      ∧ (0x46c9aeb066cc2f41c7124af30514f9e607137fbac950524f5fdace5788f9d43 : Int)
        ≠ 0x49ee3eba8c1600700ee1b87eb599f16716b0b1022947733551fde4050ca6804 := by
  have hH1 : HashElements refDeps starkCurve (([1] : List Int).map some)
      = .ok 0x46c9aeb066cc2f41c7124af30514f9e607137fbac950524f5fdace5788f9d43 := by
    rw [List.map_cons, List.map_nil, HashElements_cons,
      HashElements.loop_cons _ _ _ _ _ _ Example.pedersen_zero_one, HashElements.loop_nil]
  have hH0 : HashElements refDeps starkCurve [some 0]
      = .ok 0x49ee3eba8c1600700ee1b87eb599f16716b0b1022947733551fde4050ca6804 := by
    rw [HashElements_cons, HashElements.loop_cons _ _ _ _ _ _ Example.pedersen_zero_zero,
      HashElements.loop_nil]
  have hP := PedersenHash.run_shifts refDeps starkCurve [0, 1] _ Example.pedersen_zero_one
  have hR := HashElements.run_shifted refDeps starkCurve [1] _ hH1
  have e0 : (0 : Int) / 2 ^ 252 = 0 := Int.zero_ediv _
  have e1 : (1 : Int) / 2 ^ 252 = 0 := Int.ediv_eq_zero_of_lt (by norm_num) (by norm_num)
  refine ⟨?_, Example.pedersen_zero_zero, ?_, hH0, by decide⟩
  · rw [show ([some 0, some 1] : List FeltPtr) = ([0, 1] : List Int).map some from rfl, hP]
    simp only [List.map_cons, List.map_nil, e0, e1]
  · rw [show ([some 1] : List FeltPtr) = ([1] : List Int).map some from rfl, hR]
    simp only [List.map_cons, List.map_nil, e1]

end Caigo
